import Mathlib

/-! Diario de recuerdos: access control, sharing, listings, exports and deletes.

A shallow embedding of the Express/SQLite back end of the journal application:
the tables of `src/models/db.js`, the access middleware of
`src/middlewares/diario.js`, and the controllers under `src/controllers/`.

Conventions of the embedding.

* The SQLite store is a record of row lists, one list per table, in insertion
  order.  Queries are total functions of the store; of the I/O errors of the
  database driver only a rejected `COMMIT` of `deleteDiario` is an input
  (`Env.commitFails`).
* The filesystem is the set of paths that exist, each path being the list of
  its segments below the project root.  Removing a path can fail; the paths on
  which `fs.remove` rejects are an input of every request (`Env.removeFails`).
* A handler takes the world, the per-request environment and the request and
  returns the new world, the session and what it did with the response:
  `sent` (a response went out), `nextErr` (the error was handed to the global
  error handler of `src/app.js`) or `uncaught` (an exception escaped).
* The checks `isEmail` and `isISO8601` of validator.js are inputs
  (`Env.isEmail`, `Env.isISO8601`), since the library is not part of the
  repository.
-/

namespace Diario

/-! ## JavaScript values -/

/-- The JavaScript values request fields carry.  Numbers are the integers
(fractions and NaN are outside the model). -/
inductive JsVal where
  | undefined
  | null
  | bool (b : Bool)
  | num (n : Int)
  | str (s : String)
  deriving DecidableEq, Repr

/-- JavaScript truthiness, as used by `!x`, `x ? a : b` and `x || y`. -/
def JsVal.truthy : JsVal → Bool
  | .undefined => false
  | .null => false
  | .bool b => b
  | .num n => n != 0
  | .str s => s != ""

/-- The JavaScript operator `a || b`. -/
def JsVal.or (a b : JsVal) : JsVal := if a.truthy then a else b

/-- The text SQLite compares with a TEXT column when the value is bound as a
statement parameter: strings as they are, numbers in decimal, booleans as the
integers 1 and 0; `null` and `undefined` bind NULL, which equals nothing. -/
def sqlText : JsVal → Option String
  | .str s => some s
  | .num n => some (toString n)
  | .bool b => some (if b then "1" else "0")
  | .null => none
  | .undefined => none

/-- The SQL comparison `col = ?` of a TEXT column with a bound parameter. -/
def sqlTextEq (col : String) (v : JsVal) : Bool := sqlText v == some col

/-- JavaScript `s.includes(sub)`. -/
def jsIncludes (s sub : String) : Bool := decide (sub.toList <:+: s.toList)

/-- JavaScript `s.startsWith(sub)`. -/
def jsStartsWith (s sub : String) : Bool := sub.toList.isPrefixOf s.toList

/-- The pieces of a text between the occurrences of a separator character. -/
def splitChar (sep : Char) : List Char → List (List Char)
  | [] => [[]]
  | c :: cs =>
    match splitChar sep cs with
    | [] => [[]]
    | seg :: rest => if c == sep then [] :: seg :: rest else (c :: seg) :: rest

/-- The characters SQLite skips as blanks around a numeral (`sqlite3Isspace`):
space, tab, line feed, vertical tab, form feed, carriage return. -/
def esBlanco (c : Char) : Bool :=
  c == ' ' || c == '\t' || c == '\n' || c == '\r' || c.toNat == 11 || c.toNat == 12

/-- The characters JavaScript counts as white space or line terminators (the
class `\s` and what `parseInt` skips). -/
def esBlancoJs (c : Char) : Bool :=
  esBlanco c || [0xA0, 0xFEFF, 0x1680, 0x2028, 0x2029, 0x202F, 0x205F, 0x3000].contains c.toNat ||
    (0x2000 ≤ c.toNat && c.toNat ≤ 0x200A)

/-- The characters of a text without the blanks at both ends. -/
def sinBlancos (blanco : Char → Bool) (cs : List Char) : List Char :=
  ((cs.dropWhile blanco).reverse.dropWhile blanco).reverse

/-- White space removed at both ends, as the `trim()` sanitizer does. -/
def recortar (s : String) : String := String.mk (sinBlancos esBlancoJs s.toList)

/-- The value of a list of decimal digits, most significant first. -/
def valorDigitos (ds : List Char) : Nat :=
  ds.foldl (fun acc c => 10 * acc + (c.toNat - '0'.toNat)) 0

/-- An optional sign in front of a numeral: whether it is `-`, and the rest. -/
def quitarSigno : List Char → Bool × List Char
  | '-' :: cs => (true, cs)
  | '+' :: cs => (false, cs)
  | cs => (false, cs)

/-- A numeral as SQLite's text-to-number conversion reads it: the sign, the
digits of the mantissa (integer part, then fraction), the number of fraction
digits, whether it is written as a real (with a point or an exponent), and
the exponent. -/
structure Numeral where
  neg : Bool
  digitos : List Char
  fraccion : Nat
  real : Bool
  expNeg : Bool
  exp : Nat
  deriving DecidableEq, Repr

/-- The numeral a text is, if it is one (`sqlite3AtoF`): blanks at both ends
are skipped, then come an optional sign, digits, optionally a point and
digits, and optionally `e` or `E`, an optional sign and at least one digit;
the mantissa has at least one digit and nothing else may follow. -/
def leerNumeral (t : String) : Option Numeral :=
  let (neg, cs) := quitarSigno (sinBlancos esBlanco t.toList)
  let entero := cs.takeWhile Char.isDigit
  let r1 := cs.dropWhile Char.isDigit
  let (punto, frac, r2) :=
    match r1 with
    | '.' :: r => (true, r.takeWhile Char.isDigit, r.dropWhile Char.isDigit)
    | _ => (false, [], r1)
  if entero.isEmpty && frac.isEmpty then none
  else
    match r2 with
    | [] =>
      some { neg := neg, digitos := entero ++ frac, fraccion := frac.length, real := punto
             expNeg := false, exp := 0 }
    | e :: r3 =>
      if e == 'e' || e == 'E' then
        let (eneg, ds) := quitarSigno r3
        if ds.isEmpty || !ds.all Char.isDigit then none
        else
          some { neg := neg, digitos := entero ++ frac, fraccion := frac.length, real := true
                 expNeg := eneg, exp := valorDigitos ds }
      else none

/-- The significant digits of a mantissa: without leading and trailing zeros. -/
def significativos (ds : List Char) : List Char :=
  ((ds.dropWhile (fun c => c == '0')).reverse.dropWhile (fun c => c == '0')).reverse

/-- The trailing zeros of a mantissa that is not all zeros. -/
def cerosFinales (ds : List Char) : Nat := (ds.reverse.takeWhile (fun c => c == '0')).length

/-- The decimal exponent of the significant digits of a numeral: its value is
`valorDigitos (significativos digitos) * 10 ^ exponente`. -/
def Numeral.exponente (n : Numeral) : Int :=
  (if n.expNeg then -(n.exp : Int) else (n.exp : Int)) - (n.fraccion : Int)
    + (cerosFinales n.digitos : Int)

/-- The row id a numeral equals, where the comparison of SQLite is exact.
Zero equals 0 whatever its sign; a negative numeral and a numeral that is not
an integer equal no row id (row ids are natural numbers below `2 ^ 63`).  A
numeral written as an integer is compared as a 64-bit integer.  A numeral
written as a real is converted to a double first: with at most 15
significant digits the conversion is exact for an integer below `2 ^ 53`,
gives a double of `2 ^ 63` or more for an integer of `2 ^ 63` or more, and
gives no integer for a value that is not one and is at least `10 ^ (-300)`.
The other numerals written as reals (more than 15 significant digits, an
integer from `2 ^ 53` to `2 ^ 63`, or a value so small that it may underflow
to zero) depend on the rounding of the conversion and are outside the model:
`Numeral.exacto` is false for them and they equal no row id here. -/
def Numeral.exacto (n : Numeral) : Bool :=
  let m := significativos n.digitos
  !n.real || m.isEmpty ||
    (m.length ≤ 15 &&
      ((n.exponente < 0 && -300 ≤ n.exponente) || 18 < n.exponente ||
        valorDigitos m * 10 ^ n.exponente.toNat < 2 ^ 53 ||
        2 ^ 63 ≤ valorDigitos m * 10 ^ n.exponente.toNat))

/-- The natural number a numeral denotes, if it denotes one below `2 ^ 63`. -/
def Numeral.natural (n : Numeral) : Option Nat :=
  let m := significativos n.digitos
  if m.isEmpty then some 0
  else if n.neg || n.exponente < 0 || 18 < n.exponente then none
  else if valorDigitos m * 10 ^ n.exponente.toNat < 2 ^ 63 then
    some (valorDigitos m * 10 ^ n.exponente.toNat)
  else none

/-- Whether the comparison of a text parameter with an INTEGER column is
inside the model: the text is no numeral (it then equals no row id), or a
numeral whose conversion is exact (`Numeral.exacto`). -/
def numeralExacto (t : String) : Bool :=
  match leerNumeral t with
  | none => true
  | some n => n.exacto

/-- The row id SQLite makes of a text parameter that is compared with an
INTEGER column (the parameter gets numeric affinity): the natural number the
text denotes as a numeral, `'1'`, `' 1 '`, `'+1'`, `'1.0'` and `'1e0'`
alike.  A text that is no numeral stays a text and equals no row id.  For the
numerals outside the model (`numeralExacto` false) the result is `none`. -/
def sqlIntOfText (t : String) : Option Nat :=
  match leerNumeral t with
  | none => none
  | some n => if n.exacto then n.natural else none

/-- The SQL comparison `id = ?` of an INTEGER column with a bound text
parameter. -/
def sqlIntEq (col : Nat) (p : String) : Bool := sqlIntOfText p == some col

/-- JavaScript `parseInt(t, 10)`: leading white space is skipped, a sign is
allowed, and the longest run of decimal digits is read; `none` is NaN. -/
def parseInt10 (t : String) : Option Int :=
  let (neg, cs) := quitarSigno (t.toList.dropWhile esBlancoJs)
  let ds := cs.takeWhile Char.isDigit
  if ds.isEmpty then none
  else some (if neg then -(valorDigitos ds : Int) else (valorDigitos ds : Int))

/-- How many times a natural number is halved until it is below `2 ^ 53`
(the first argument bounds the number of halvings). -/
def exceso : Nat → Nat → Nat
  | 0, _ => 0
  | fuel + 1, n => if n < 2 ^ 53 then 0 else exceso fuel (n / 2) + 1

/-- The double nearest to a natural number (ties to the even mantissa), as a
natural number: JavaScript numbers hold integers exactly below `2 ^ 53` and
with 53 significant bits above. -/
def redondear53 (n : Nat) : Nat :=
  let e := exceso n n
  if e == 0 then n
  else
    let q := n / 2 ^ e
    let r := n % 2 ^ e
    let half := 2 ^ (e - 1)
    (if half < r || (r == half && q % 2 == 1) then q + 1 else q) * 2 ^ e

/-- The JavaScript number an integer becomes. -/
def aDoble (v : Int) : Int :=
  if v < 0 then -(redondear53 v.natAbs : Int) else (redondear53 v.natAbs : Int)

/-- The integer SQLite gets for `LIMIT ?` or `OFFSET ?` when the parameter is
`parseInt(t, 10)`: the number is bound as an integer or as a double, and
`OP_MustBeInt` accepts a double only if it is an integer strictly inside the
64-bit range.  `none` stands for the error `SQLITE_MISMATCH`, raised for NaN
(bound as NULL) and for a number of magnitude `2 ^ 63` or more. -/
def enteroDePagina (t : String) : Option Int :=
  match parseInt10 t with
  | some v => if (aDoble v).natAbs < 2 ^ 63 then some (aDoble v) else none
  | none => none

/-- The comparison `n === id` of a parsed number (`none` is NaN) with a user
id that may be absent: NaN and `undefined` equal nothing. -/
def jsEqNumero (n : Option Int) (id : Option Nat) : Bool :=
  match n, id with
  | some n, some u => n == (u : Int)
  | _, _ => false

/-- The code SQLite's `LIKE` compares for a character: upper-case ASCII
letters are folded to lower case, every other character stands for itself. -/
def pliegue (c : Char) : Nat :=
  if 65 ≤ c.toNat && c.toNat ≤ 90 then c.toNat + 32 else c.toNat

/-- SQLite's `text LIKE pattern` (no ESCAPE clause) on character lists: `%`
matches any run of characters, `_` any one character, every other character
itself up to ASCII case.  The first argument is the pattern. -/
def likeChars : List Char → List Char → Bool
  | [], t => t.isEmpty
  | '%' :: p, t => t.tails.any (fun s => likeChars p s)
  | '_' :: p, t =>
    match t with
    | [] => false
    | _ :: t1 => likeChars p t1
  | c :: p, t =>
    match t with
    | [] => false
    | d :: t1 => pliegue c == pliegue d && likeChars p t1

/-- The SQL condition `col LIKE ?` on a nullable TEXT column: NULL matches
nothing. -/
def sqlLike (col : Option String) (pattern : String) : Bool :=
  match col with
  | some text => likeChars pattern.toList text.toList
  | none => false

/-- The order of TEXT values under SQLite's default collation (BINARY): byte
order of the UTF-8 encodings, which is the lexicographic order of the code
points. -/
def textoLe (a b : String) : Bool := decide (a.toList ≤ b.toList)

/-- Clause `LIMIT ? OFFSET ?`: a negative offset counts as zero and a negative
limit as no limit. -/
def limitOffset {α : Type} (limit offset : Int) (rows : List α) : List α :=
  let rest := rows.drop offset.toNat
  if limit < 0 then rest else rest.take limit.toNat

/-! ## Tables (`src/models/db.js`) -/

/-- A row of `usuarios`. -/
structure Usuario where
  id : Nat
  nombre : String
  email : String
  password : String
  rol : String
  fecha_registro : Nat
  deriving DecidableEq, Repr

/-- A row of `diarios`. -/
structure DiarioRow where
  id : String
  user_id : Nat
  nombre_diario_personalizado : String
  fecha_creacion : Nat
  fecha_nacimiento_bebe : Option String
  genero_bebe : Option String
  deriving DecidableEq, Repr

/-- A row of `diarios_compartidos`; its primary key is `(diario_id, user_id)`. -/
structure Compartido where
  diario_id : String
  user_id : Nat
  rol : String
  fecha_compartido : Nat
  deriving DecidableEq, Repr

/-- A row of `eventos`. -/
structure Evento where
  id : Nat
  diario_id : String
  fecha : String
  hora : String
  tipo : String
  descripcion : Option String
  cantidad : Option Int
  unidad : Option String
  notas : Option String
  favorito : Nat
  fecha_creacion : Nat
  deriving DecidableEq, Repr

/-- A filesystem path or a public URL, as the list of its segments: the URL
`/media/diarios/J/f.jpg` is `["media", "diarios", "J", "f.jpg"]`. -/
abbrev Path := List String

/-- A row of `recuerdos`. -/
structure Recuerdo where
  id : Nat
  diario_id : String
  tipo : String
  url : Path
  thumbnail_url : Option Path
  fecha : String
  descripcion : Option String
  favorito : Nat
  fecha_subida : Nat
  deriving DecidableEq, Repr

/-- The ten appearance fields of `configuracion_usuario`. -/
structure Apariencia where
  color_primario : Option String := none
  color_secundario : Option String := none
  color_accento : Option String := none
  color_fondo : Option String := none
  color_tarjetas : Option String := none
  color_texto : Option String := none
  color_texto_claro : Option String := none
  color_bordes : Option String := none
  fuente_principal : Option String := none
  tamano_fuente : Option String := none
  deriving DecidableEq, Repr

/-- A row of `configuracion_usuario`. -/
structure ConfigUsuario where
  user_id : Nat
  campos : Apariencia
  deriving DecidableEq, Repr

/-- A row of `configuracion_sitio`. -/
structure ConfigSitio where
  id : Nat
  site_global_name : Option String
  allow_new_registrations : Nat
  deriving DecidableEq, Repr

/-- The database behind the single connection `db` of `src/models/db.js`.
`foreign_keys` is the connection's `PRAGMA foreign_keys` setting, on which the
`ON DELETE CASCADE` clauses of the schema depend; the `seq_` fields are the
AUTOINCREMENT counters of `sqlite_sequence`. -/
structure Db where
  foreign_keys : Bool
  usuarios : List Usuario
  diarios : List DiarioRow
  diarios_compartidos : List Compartido
  eventos : List Evento
  recuerdos : List Recuerdo
  configuracion_usuario : List ConfigUsuario
  configuracion_sitio : List ConfigSitio
  seq_usuarios : Nat
  seq_eventos : Nat
  seq_recuerdos : Nat
  deriving DecidableEq, Repr

/-- The database `initDB` leaves on a fresh file: every table created empty,
the single `configuracion_sitio` row inserted.  `initDB` opens the connection
and issues no `PRAGMA foreign_keys = ON`, so the setting keeps SQLite's
default, which is off. -/
def initDB : Db :=
  { foreign_keys := false
    usuarios := []
    diarios := []
    diarios_compartidos := []
    eventos := []
    recuerdos := []
    configuracion_usuario := []
    configuracion_sitio := [{ id := 1, site_global_name := some "Mi Pequeño Tesoro", allow_new_registrations := 1 }]
    seq_usuarios := 0
    seq_eventos := 0
    seq_recuerdos := 0 }

/-! ## Filesystem (`fs-extra`) and directories (`src/config/path.js`) -/

/-- The filesystem: the paths that exist, files and directories alike. -/
structure Fs where
  paths : List Path
  deriving DecidableEq, Repr

/-- Table `directories`, relative to the project root. -/
def directories_public : Path := ["public"]

/-- Entry `mediaUploads` of `directories`. -/
def directories_mediaUploads : Path := ["public", "media", "diarios"]

/-- Entry `temp` of `directories`. -/
def directories_temp : Path := ["temp"]

/-- The segments of a path given as text. -/
def segmentos (s : String) : Path :=
  ((splitChar '/' s.toList).map String.mk).filter (fun seg => seg != "")

/-- Path normalisation of `path.join`: `.` is dropped and `..` climbs. -/
def normalizar (p : Path) : Path :=
  p.foldl (fun acc seg =>
    if seg == "." then acc else if seg == ".." then acc.dropLast else acc ++ [seg]) []

/-- Call `path.join(a, b)` on segment lists. -/
def pathJoin (a b : Path) : Path := normalizar (a ++ b)

/-- Call `path.relative(base, p)` for normalised paths: the common leading
segments are dropped and each remaining segment of `base` becomes `..`. -/
def pathRelative : Path → Path → Path
  | a :: as, b :: bs =>
    if a == b then pathRelative as bs else (a :: as).map (fun _ => "..") ++ (b :: bs)
  | as, bs => as.map (fun _ => "..") ++ bs

/-- Call `path.extname(name)`: from the last dot of the base name on, or empty
when the base name has no dot or only a leading one. -/
def extname (name : String) : String :=
  let cs := ((splitChar '/' name.toList).getLast?).getD []
  let ext := (cs.reverse.takeWhile (fun c => c != '.')).reverse
  if ext.length == cs.length || ext.length + 1 == cs.length then ""
  else String.mk ('.' :: ext)

/-- Call `fs.existsSync(p)`. -/
def Fs.existsSync (fs : Fs) (p : Path) : Bool := decide (p ∈ fs.paths)

/-- The filesystem without `p` and without everything below `p`. -/
def Fs.without (fs : Fs) (p : Path) : Fs :=
  { paths := fs.paths.filter (fun q => !(p.isPrefixOf q)) }

/-- Call `fs.ensureDir(p)`: `p` and its ancestors exist afterwards. -/
def Fs.ensureDir (fs : Fs) (p : Path) : Fs :=
  { paths := fs.paths ++ (p.inits.filter (fun q => decide (q ∉ fs.paths))) }

/-- Writing a file at `p` (an upload, a thumbnail, a JSON file, an archive). -/
def Fs.writeFile (fs : Fs) (p : Path) : Fs :=
  if p ∈ fs.paths then fs else { paths := fs.paths ++ [p] }

/-! ## Requests, responses, errors -/

/-- The session object of `express-session`.  `userId` is absent until login
or registration; `activeDiarioId` is `undefined` until set. -/
structure Session where
  userId : Option Nat := none
  activeDiarioId : JsVal := .undefined
  deriving DecidableEq, Repr

/-- Route parameters (`req.params`).  `diarioId` is a string when the route
has the segment and `undefined` otherwise. -/
structure Params where
  diarioId : JsVal := .undefined
  id : String := ""
  userIdToUnshare : String := ""
  deriving DecidableEq, Repr

/-- A body field that JSON may carry as a text or as an array of texts.
express-validator runs a check on every element of an array (so the empty
array passes every check) and on the empty text when the field is absent;
node-sqlite3 binds an array, like any other object, as the text
`[object Object]`, and binds NULL for an absent field. -/
inductive Campo where
  | ausente
  | texto (s : String)
  | lista (xs : List String)
  deriving DecidableEq, Repr

/-- A check of an express-validator chain run on a field. -/
def Campo.todos (p : String → Bool) : Campo → Bool
  | .ausente => p ""
  | .texto s => p s
  | .lista xs => xs.all p

/-- The text node-sqlite3 binds for a field used as a statement parameter. -/
def Campo.sql : Campo → Option String
  | .ausente => none
  | .texto s => some s
  | .lista _ => some "[object Object]"

/-- The fields of `req.body` the handlers read.  `rol_asignado` may be a text
or an array of texts; the other text fields are JSON strings. -/
structure Body where
  diario_id : JsVal := .undefined
  nombre_diario_personalizado : Option String := none
  fecha_nacimiento_bebe : Option String := none
  genero_bebe : Option String := none
  email_invitado : Option String := none
  rol_asignado : Campo := .ausente
  fecha : Option String := none
  hora : Option String := none
  tipo : Option String := none
  descripcion : Option String := none
  cantidad : Option Int := none
  unidad : Option String := none
  notas : Option String := none
  favorito : JsVal := .undefined
  nombre : Option String := none
  email : Option String := none
  password : Option String := none
  apariencia : Apariencia := {}
  siteGlobalName : Option String := none
  allowNewRegistrations : JsVal := .undefined
  deriving DecidableEq, Repr

/-- The fields of `req.query` the handlers read. -/
structure Query where
  diario_id : JsVal := .undefined
  limit : Option String := none
  offset : Option String := none
  tipo : Option String := none
  fechaInicio : Option String := none
  fechaFin : Option String := none
  favorito : Option String := none
  searchQuery : Option String := none
  deriving DecidableEq, Repr

/-- The multipart part named `media` of an upload, as the client sent it. -/
structure Archivo where
  mimetype : String
  originalname : String
  size : Nat
  deriving DecidableEq, Repr

/-- What multer leaves in `req.file` after storing the upload. -/
structure StoredFile where
  mimetype : String
  path : Path
  deriving DecidableEq, Repr

/-- An Express request.  `media` is the uploaded part, if the request has one;
`validation` holds the messages of the express-validator checks that failed
(what `validationResult(req)` reads); `file`, `diarioId` and `userRole` are
attached by the middlewares. -/
structure Req where
  session : Session := {}
  params : Params := {}
  body : Body := {}
  query : Query := {}
  media : Option Archivo := none
  validation : List String := []
  file : Option StoredFile := none
  diarioId : JsVal := .undefined
  userRole : JsVal := .undefined
  deriving DecidableEq, Repr

/-- A JavaScript `Error`: its message, its `status` field when it has one, and
the multer error code when it is a `MulterError`. -/
structure Err where
  message : String
  status : Option Nat := none
  multerCode : Option String := none
  deriving DecidableEq, Repr

/-- A row of the result of `getMisDiarios`: four columns of `diarios` and the
computed column `rol_usuario`. -/
structure DiarioListado where
  id : String
  nombre_diario_personalizado : String
  fecha_nacimiento_bebe : Option String
  genero_bebe : Option String
  rol_usuario : Option String
  deriving DecidableEq, Repr

/-- The JSON bodies the handlers send. -/
inductive ResBody where
  | error (error : String)
  | errors (errors : List String)
  | message (message : String)
  | eventoCreado (message : String) (eventId : Nat)
  | diarioCreado (message : String) (diarioId : String)
  | recuerdoSubido (message : String) (recuerdoId : Nat) (url : Path) (thumbnailUrl : Option Path)
  | usuarioRegistrado (message : String) (userId : Nat)
  | evento (row : Evento)
  | recuerdo (row : Recuerdo)
  | eventos (eventos : List Evento) (total : Nat)
  | recuerdos (recuerdos : List Recuerdo) (total : Nat)
  | sharedUsers (rows : List (Nat × String × String × String))
  | misDiarios (diarios : List DiarioListado)
  | download (file : Path) (filename : String)
  deriving DecidableEq, Repr

/-- An HTTP response: `res.status(status).json(body)`; `res.json(body)` has
status 200. -/
structure Resp where
  status : Nat
  body : ResBody
  deriving DecidableEq, Repr

/-- What a middleware or controller did: sent a response, called `next()`,
called `next(error)`, or let an exception escape that nothing catches (thrown
in an event listener, outside every `try` block and promise), which ends the
process without a response. -/
inductive Outcome where
  | sent (res : Resp)
  | next
  | nextErr (error : Err)
  | uncaught (error : Err)
  deriving DecidableEq, Repr

/-- A simple email check, the `isEmail` of the sample environments: one `@`
with text on both sides. -/
def emailSencillo (s : String) : Bool :=
  match splitChar '@' s.toList with
  | [a, b] => !a.isEmpty && !b.isEmpty
  | _ => false

/-- A simple date check, the `isISO8601` of the sample environments: the
shape `YYYY-MM-DD`. -/
def fechaSencilla (s : String) : Bool :=
  match s.toList with
  | [y1, y2, y3, y4, '-', m1, m2, '-', d1, d2] =>
    [y1, y2, y3, y4, m1, m2, d1, d2].all Char.isDigit
  | _ => false

/-- What a request meets besides the store: the clock, the values `uuidv4()`
returns, the paths on which `fs.remove` rejects, whether `sharp` fails on the
uploaded image, the step of `exportDiario` that fails, if one does (1 staging
directories, 2 snapshot and JSON files, 3 media copy, 4 archive), whether the
statement `COMMIT` of `deleteDiario` is rejected, whether `NODE_ENV` is
`production`, and the checks `isEmail` and `isISO8601` of validator.js.  These
two functions are outside the repository, so the handlers take them from the
environment: what is proved for every environment holds for the functions the
library implements.  The defaults serve the sample requests. -/
structure Env where
  now : Nat := 0
  uuid : String := ""
  uuid2 : String := ""
  removeFails : List Path := []
  sharpFails : Bool := false
  exportFails : Option Nat := none
  commitFails : Bool := false
  production : Bool := false
  isEmail : String → Bool := emailSencillo
  isISO8601 : String → Bool := fechaSencilla

/-- The state shared by all requests: database and filesystem. -/
structure World where
  db : Db
  fs : Fs
  deriving DecidableEq, Repr

/-- The result of handling a request. -/
structure Result where
  world : World
  session : Session
  out : Outcome
  deriving DecidableEq, Repr

/-- Call `fs.remove(p)`: rejects on the paths of `env.removeFails` (leaving
the filesystem as it was), and otherwise removes `p` and all below it. -/
def fsRemove (env : Env) (fs : Fs) (p : Path) : Except Err Fs :=
  if p ∈ env.removeFails then .error { message := "EPERM: operation not permitted, unlink" }
  else .ok (fs.without p)

/-! ## Access middleware (`src/middlewares/diario.js`) -/

/-- The test `!req.session || !req.session.userId` negated: a user id is
present and truthy. -/
def Session.autenticado (s : Session) : Option Nat :=
  match s.userId with
  | some u => if u != 0 then some u else none
  | none => none

/-- Middleware `checkDiarioAccess`.  Returns the request, with `diarioId` and
`userRole` attached when access is granted, and the outcome: `next` or the
response sent. -/
def checkDiarioAccess (db : Db) (req : Req) : Req × Outcome :=
  let diarioId := (req.params.diarioId.or req.body.diario_id).or req.query.diario_id
  if !diarioId.truthy then
    (req, .sent ⟨400, .error "ID del diario no proporcionado en la petición."⟩)
  else
    match req.session.autenticado with
    | none => (req, .sent ⟨401, .error "No autorizado para esta acción."⟩)
    | some userId =>
      -- 1. owner?
      match db.diarios.find? (fun d => sqlTextEq d.id diarioId && d.user_id == userId) with
      | some _ => ({ req with diarioId := diarioId, userRole := .str "owner" }, .next)
      | none =>
        -- 2. shared access?
        match db.diarios_compartidos.find?
            (fun c => sqlTextEq c.diario_id diarioId && c.user_id == userId) with
        | some sharedAccess =>
          ({ req with diarioId := diarioId, userRole := .str sharedAccess.rol }, .next)
        | none =>
          -- 3. neither
          (req, .sent ⟨403, .error "Acceso denegado al diario especificado."⟩)

/-- A controller: from world, environment and request to a result. -/
abbrev Handler := World → Env → Req → Result

/-- A route `checkDiarioAccess, handler`: the handler runs only when the
middleware called `next()`, and then on the request the middleware left. -/
def conAcceso (handler : Handler) : Handler := fun w env req =>
  match checkDiarioAccess w.db req with
  | (req1, .next) => handler w env req1
  | (_, out) => { world := w, session := req.session, out := out }

/-! ## Global error handler (`src/app.js`) -/

/-- The error-handling middleware of `src/app.js` (for a response whose
headers are not sent yet). -/
def errorHandler (env : Env) (err : Err) : Resp :=
  match err.multerCode with
  | some code =>
    if code == "LIMIT_FILE_SIZE" then ⟨413, .error "Archivo demasiado grande. Límite: 25MB."⟩
    else ⟨400, .error ("Error de subida: " ++ err.message)⟩
  | none =>
    if jsIncludes err.message "Tipo de archivo no permitido" then ⟨400, .error err.message⟩
    else if jsIncludes err.message "ID del diario no proporcionado" then ⟨400, .error err.message⟩
    else
      ⟨(match err.status with | some s => if s != 0 then s else 500 | none => 500),
        .error (if env.production then "Ocurrió un error inesperado." else err.message)⟩

/-- The response the client gets: the one sent, or the error handler's. -/
def respuesta (env : Env) (r : Result) : Option Resp :=
  match r.out with
  | .sent res => some res
  | .nextErr e => some (errorHandler env e)
  | .next => none
  | .uncaught _ => none

/-! ## SQL building blocks -/

/-- The row id an AUTOINCREMENT table gives the next inserted row. -/
def nextId (seq : Nat) (ids : List Nat) : Nat := max seq (ids.foldl max 0) + 1

/-- A constraint violation reported by SQLite. -/
def sqliteConstraint (what : String) : Err := { message := "SQLITE_CONSTRAINT: " ++ what }

/-- The foreign key `diario_id REFERENCES diarios(id)`, checked on insert only
when the connection enforces foreign keys. -/
def fkDiario (db : Db) (diario_id : String) : Bool :=
  !db.foreign_keys || db.diarios.any (fun d => d.id == diario_id)

/-- Statement `DELETE FROM t WHERE p`: the rows left and `changes`. -/
def deleteWhere {α : Type} (rows : List α) (p : α → Bool) : List α × Nat :=
  (rows.filter (fun r => !p r), (rows.filter p).length)

/-- A handler's result with the given world, the session as it is. -/
def responder (w : World) (req : Req) (status : Nat) (body : ResBody) : Result :=
  { world := w, session := req.session, out := .sent ⟨status, body⟩ }

/-- A handler's `next(error)` with the given world. -/
def fallar (w : World) (req : Req) (e : Err) : Result :=
  { world := w, session := req.session, out := .nextErr e }

/-- The stored flag `favorito ? 1 : 0`. -/
def flag (v : JsVal) : Nat := if v.truthy then 1 else 0

/-! ## Events (`src/controllers/eventoController.js`) -/

/-- Statement `INSERT INTO eventos (...) VALUES (...)` of `createEvento`. -/
def insertEvento (db : Db) (now : Nat) (diarioId : JsVal) (b : Body) : Except Err (Db × Nat) :=
  match sqlText diarioId, b.fecha, b.hora, b.tipo with
  | some diario_id, some fecha, some hora, some tipo =>
    if !fkDiario db diario_id then .error (sqliteConstraint "FOREIGN KEY constraint failed")
    else
      let id := nextId db.seq_eventos (db.eventos.map (fun e => e.id))
      let row : Evento :=
        { id := id, diario_id := diario_id, fecha := fecha, hora := hora, tipo := tipo
          descripcion := b.descripcion, cantidad := b.cantidad, unidad := b.unidad
          notas := b.notas, favorito := flag b.favorito, fecha_creacion := now }
      .ok ({ db with eventos := db.eventos ++ [row], seq_eventos := id }, id)
  | none, _, _, _ => .error (sqliteConstraint "NOT NULL constraint failed: eventos.diario_id")
  | some _, none, _, _ => .error (sqliteConstraint "NOT NULL constraint failed: eventos.fecha")
  | some _, some _, none, _ => .error (sqliteConstraint "NOT NULL constraint failed: eventos.hora")
  | some _, some _, some _, none =>
    .error (sqliteConstraint "NOT NULL constraint failed: eventos.tipo")

/-- Controller `createEvento`. -/
def createEvento : Handler := fun w env req =>
  if req.userRole != .str "owner" && req.userRole != .str "editor" then
    responder w req 403 (.error "No tienes permiso para añadir eventos a este diario.")
  else if !req.validation.isEmpty then
    responder w req 400 (.errors req.validation)
  else
    match insertEvento w.db env.now req.diarioId req.body with
    | .ok (db1, id) => responder { w with db := db1 } req 201 (.eventoCreado "Evento creado con éxito." id)
    | .error e => fallar w req e

/-- The `WHERE id = ? AND diario_id = ?` clause on `eventos`. -/
def esEvento (req : Req) (e : Evento) : Bool :=
  sqlIntEq e.id req.params.id && sqlTextEq e.diario_id req.diarioId

/-- Controller `getEventoById`. -/
def getEventoById : Handler := fun w _ req =>
  match w.db.eventos.find? (esEvento req) with
  | none => responder w req 404 (.error "Evento no encontrado.")
  | some evento => responder w req 200 (.evento evento)

/-- Statement `UPDATE eventos SET ... WHERE id = ? AND diario_id = ?` of
`updateEvento`; the second component is `changes`. -/
def updateEventoRows (db : Db) (req : Req) : Except Err (Db × Nat) :=
  let changes := (db.eventos.filter (esEvento req)).length
  if changes == 0 then .ok (db, 0)
  else
    match req.body.fecha, req.body.hora, req.body.tipo with
    | some fecha, some hora, some tipo =>
      let b := req.body
      .ok ({ db with eventos := db.eventos.map (fun e =>
              if esEvento req e then
                { e with fecha := fecha, hora := hora, tipo := tipo, descripcion := b.descripcion
                         cantidad := b.cantidad, unidad := b.unidad, notas := b.notas
                         favorito := flag b.favorito }
              else e) }, changes)
    | none, _, _ => .error (sqliteConstraint "NOT NULL constraint failed: eventos.fecha")
    | some _, none, _ => .error (sqliteConstraint "NOT NULL constraint failed: eventos.hora")
    | some _, some _, none => .error (sqliteConstraint "NOT NULL constraint failed: eventos.tipo")

/-- Controller `updateEvento`. -/
def updateEvento : Handler := fun w _ req =>
  if req.userRole != .str "owner" && req.userRole != .str "editor" then
    responder w req 403 (.error "No tienes permiso para editar eventos en este diario.")
  else if !req.validation.isEmpty then
    responder w req 400 (.errors req.validation)
  else
    match updateEventoRows w.db req with
    | .ok (db1, changes) =>
      if changes == 0 then
        responder { w with db := db1 } req 404
          (.error "Evento no encontrado o no autorizado para actualizar.")
      else responder { w with db := db1 } req 200 (.message "Evento actualizado con éxito.")
    | .error e => fallar w req e

/-- Controller `deleteEvento`. -/
def deleteEvento : Handler := fun w _ req =>
  if req.userRole != .str "owner" && req.userRole != .str "editor" then
    responder w req 403 (.error "No tienes permiso para eliminar eventos en este diario.")
  else
    let (eventos1, changes) := deleteWhere w.db.eventos (esEvento req)
    let w1 : World := { w with db := { w.db with eventos := eventos1 } }
    if changes == 0 then
      responder w1 req 404 (.error "Evento no encontrado o no autorizado para eliminar.")
    else
      responder w1 req 200 (.message "Evento eliminado con éxito.")

/-- The conditions `getEventos` appends to its statements after
`WHERE diario_id = ?`. -/
inductive CondEvento where
  | tipo (tipo : String)
  | fechaDesde (fechaInicio : String)
  | fechaHasta (fechaFin : String)
  | favorito
  | busca (searchPattern : String)
  deriving DecidableEq, Repr

/-- Whether a row satisfies a condition: `tipo = ?`, `fecha >= ?`,
`fecha <= ?`, `favorito = 1`, `(descripcion LIKE ? OR notas LIKE ?)`. -/
def CondEvento.cumple : CondEvento → Evento → Bool
  | .tipo v, e => e.tipo == v
  | .fechaDesde v, e => textoLe v e.fecha
  | .fechaHasta v, e => textoLe e.fecha v
  | .favorito, e => e.favorito == 1
  | .busca v, e => sqlLike e.descripcion v || sqlLike e.notas v

/-- Statements of `getEventos` and `getRecuerdos` are lists of conditions; a
condition is appended when its query field is truthy. -/
def agregar {γ : Type} (campo : Option String) (c : String → γ) (sql : List γ) : List γ :=
  match campo with
  | some v => if v != "" then sql ++ [c v] else sql
  | none => sql

/-- The order `ORDER BY fecha DESC, hora DESC`: `a` may come before `b`. -/
def antesEvento (a b : Evento) : Prop :=
  toLex (b.fecha.toList, b.hora.toList) ≤ toLex (a.fecha.toList, a.hora.toList)

instance antesEvento.decidable : DecidableRel antesEvento := fun a b => by
  unfold antesEvento
  infer_instance

/-- The rows in the order `ORDER BY fecha DESC, hora DESC`; rows that tie are
left in table order (SQL leaves their order open). -/
def ordenarEventos (rows : List Evento) : List Evento := rows.insertionSort antesEvento

/-- Controller `getEventos`.  `sql` and `countSql` are built side by side;
the row query adds the order and the page, and fails with a datatype
mismatch when `limit` or `offset` is NaN or does not fit in 64 bits. -/
def getEventos : Handler := fun w _ req =>
  let q := req.query
  let sql : List CondEvento := []
  let countSql : List CondEvento := []
  let (sql, countSql) :=
    (agregar q.tipo CondEvento.tipo sql, agregar q.tipo CondEvento.tipo countSql)
  let (sql, countSql) :=
    (agregar q.fechaInicio CondEvento.fechaDesde sql,
      agregar q.fechaInicio CondEvento.fechaDesde countSql)
  let (sql, countSql) :=
    (agregar q.fechaFin CondEvento.fechaHasta sql, agregar q.fechaFin CondEvento.fechaHasta countSql)
  let (sql, countSql) :=
    if q.favorito == some "1" then (sql ++ [CondEvento.favorito], countSql ++ [CondEvento.favorito])
    else (sql, countSql)
  let (sql, countSql) :=
    (agregar q.searchQuery (fun s => CondEvento.busca ("%" ++ s ++ "%")) sql,
      agregar q.searchQuery (fun s => CondEvento.busca ("%" ++ s ++ "%")) countSql)
  match enteroDePagina (q.limit.getD "10"), enteroDePagina (q.offset.getD "0") with
  | some limit, some offset =>
    let eventos := limitOffset limit offset (ordenarEventos (w.db.eventos.filter
      (fun e => sqlTextEq e.diario_id req.diarioId && sql.all (fun c => c.cumple e))))
    let total := (w.db.eventos.filter
      (fun e => sqlTextEq e.diario_id req.diarioId && countSql.all (fun c => c.cumple e))).length
    responder w req 200 (.eventos eventos total)
  | _, _ => fallar w req { message := "SQLITE_MISMATCH: datatype mismatch" }

/-! ## Upload middleware (`src/middlewares/upload.js`) -/

/-- The media types `fileFilter` lets through. -/
def allowedTypes : List String :=
  ["image/jpeg", "image/png", "image/gif", "video/mp4", "video/quicktime"]

/-- The `fileSize` limit: 25 MB. -/
def fileSizeLimit : Nat := 25 * 1024 * 1024

/-- Middleware `uploadRecuerdo.single('media')`: multer with `mediaStorage`.
Without a `media` part it calls `next()` and leaves `req.file` unset.  With
one, it applies `fileFilter`, asks `destination` for the journal's directory
(created if missing), stores the file under the name `filename` builds, and
sets `req.file`; a file over the size limit is removed again and reported as
a `MulterError`. -/
def uploadRecuerdo (w : World) (env : Env) (req : Req) : World × Req × Outcome :=
  match req.media with
  | none => (w, req, .next)
  | some file =>
    if !allowedTypes.contains file.mimetype then
      (w, req, .nextErr { message :=
        "Tipo de archivo no permitido. Solo se permiten imágenes (JPEG, PNG, GIF) y videos (MP4, MOV)." })
    else if !req.diarioId.truthy then
      (w, req, .nextErr { message := "ID del diario no proporcionado para la subida." })
    else
      match req.diarioId with
      | .str diarioId =>
        let uploadPath := pathJoin directories_mediaUploads (segmentos diarioId)
        let fs1 := w.fs.ensureDir uploadPath
        let uniqueFilename := env.uuid ++ extname file.originalname
        let filePath := pathJoin uploadPath [uniqueFilename]
        if file.size > fileSizeLimit then
          ({ w with fs := fs1 }, req,
            .nextErr { message := "File too large", multerCode := some "LIMIT_FILE_SIZE" })
        else
          ({ w with fs := fs1.writeFile filePath },
            { req with file := some { mimetype := file.mimetype, path := filePath } }, .next)
      | _ =>
        (w, req, .nextErr { message := "The \"path\" argument must be of type string." })

/-! ## Memories (`src/controllers/recuerdoController.js`) -/

/-- Statement `INSERT INTO recuerdos (...) VALUES (...)` of `createRecuerdo`. -/
def insertRecuerdo (db : Db) (now : Nat) (diarioId : JsVal) (tipo : String) (url : Path)
    (thumbnailUrl : Option Path) (b : Body) : Except Err (Db × Nat) :=
  match sqlText diarioId, b.fecha with
  | some diario_id, some fecha =>
    if !fkDiario db diario_id then .error (sqliteConstraint "FOREIGN KEY constraint failed")
    else
      let id := nextId db.seq_recuerdos (db.recuerdos.map (fun r => r.id))
      let row : Recuerdo :=
        { id := id, diario_id := diario_id, tipo := tipo, url := url, thumbnail_url := thumbnailUrl
          fecha := fecha, descripcion := b.descripcion, favorito := flag b.favorito
          fecha_subida := now }
      .ok ({ db with recuerdos := db.recuerdos ++ [row], seq_recuerdos := id }, id)
  | none, _ => .error (sqliteConstraint "NOT NULL constraint failed: recuerdos.diario_id")
  | some _, none => .error (sqliteConstraint "NOT NULL constraint failed: recuerdos.fecha")

/-- The thumbnail step of `createRecuerdo` for a photo: the `thumbnails`
directory is ensured and `sharp` writes the thumbnail there. -/
def crearMiniatura (fs : Fs) (env : Env) (diarioId : JsVal) : Except Err (Fs × Path) :=
  match diarioId with
  | .str diarioId =>
    let thumbnailDir := pathJoin (pathJoin directories_mediaUploads (segmentos diarioId)) ["thumbnails"]
    let fs1 := fs.ensureDir thumbnailDir
    let thumbnailFilename := "thumb-" ++ env.uuid2 ++ ".webp"
    let thumbnailPath := pathJoin thumbnailDir [thumbnailFilename]
    if env.sharpFails then .error { message := "Input file contains unsupported image format" }
    else .ok (fs1.writeFile thumbnailPath, pathRelative directories_public thumbnailPath)
  | _ => .error { message := "The \"path\" argument must be of type string." }

/-- Controller `createRecuerdo`. -/
def createRecuerdo : Handler := fun w env req =>
  if req.userRole != .str "owner" && req.userRole != .str "editor" then
    responder w req 403 (.error "No tienes permiso para subir recuerdos a este diario.")
  else
    match req.file with
    | none => responder w req 400 (.error "No se ha subido ningún archivo.")
    | some file =>
      let tipo := if jsStartsWith file.mimetype "image/" then "foto" else "video"
      let url := pathRelative directories_public file.path
      match (if tipo == "foto" then
               (crearMiniatura w.fs env req.diarioId).map (fun (fs1, t) => (fs1, some t))
             else .ok (w.fs, none)) with
      | .error e => fallar w req e
      | .ok (fs1, thumbnailUrl) =>
        match insertRecuerdo w.db env.now req.diarioId tipo url thumbnailUrl req.body with
        | .error e => fallar { w with fs := fs1 } req e
        | .ok (db1, id) =>
          responder { db := db1, fs := fs1 } req 201
            (.recuerdoSubido "Recuerdo subido con éxito." id url thumbnailUrl)

/-- The `WHERE id = ? AND diario_id = ?` clause on `recuerdos`. -/
def esRecuerdo (req : Req) (r : Recuerdo) : Bool :=
  sqlIntEq r.id req.params.id && sqlTextEq r.diario_id req.diarioId

/-- Controller `getRecuerdoById`. -/
def getRecuerdoById : Handler := fun w _ req =>
  match w.db.recuerdos.find? (esRecuerdo req) with
  | none => responder w req 404 (.error "Recuerdo no encontrado.")
  | some recuerdo => responder w req 200 (.recuerdo recuerdo)

/-- The conditions `getRecuerdos` appends to its statements after
`WHERE diario_id = ?`. -/
inductive CondRecuerdo where
  | tipo (tipo : String)
  | favorito
  | busca (searchPattern : String)
  deriving DecidableEq, Repr

/-- Whether a row satisfies a condition: `tipo = ?`, `favorito = 1`,
`descripcion LIKE ?`. -/
def CondRecuerdo.cumple : CondRecuerdo → Recuerdo → Bool
  | .tipo v, r => r.tipo == v
  | .favorito, r => r.favorito == 1
  | .busca v, r => sqlLike r.descripcion v

/-- The order `ORDER BY fecha DESC, fecha_subida DESC`: `a` may come before
`b`. -/
def antesRecuerdo (a b : Recuerdo) : Prop :=
  toLex (b.fecha.toList, b.fecha_subida) ≤ toLex (a.fecha.toList, a.fecha_subida)

instance antesRecuerdo.decidable : DecidableRel antesRecuerdo := fun a b => by
  unfold antesRecuerdo
  infer_instance

/-- The rows in the order `ORDER BY fecha DESC, fecha_subida DESC`; rows that
tie are left in table order. -/
def ordenarRecuerdos (rows : List Recuerdo) : List Recuerdo := rows.insertionSort antesRecuerdo

/-- Controller `getRecuerdos`. -/
def getRecuerdos : Handler := fun w _ req =>
  let q := req.query
  let sql : List CondRecuerdo := []
  let countSql : List CondRecuerdo := []
  let (sql, countSql) :=
    (agregar q.tipo CondRecuerdo.tipo sql, agregar q.tipo CondRecuerdo.tipo countSql)
  let (sql, countSql) :=
    if q.favorito == some "1" then
      (sql ++ [CondRecuerdo.favorito], countSql ++ [CondRecuerdo.favorito])
    else (sql, countSql)
  let (sql, countSql) :=
    (agregar q.searchQuery (fun s => CondRecuerdo.busca ("%" ++ s ++ "%")) sql,
      agregar q.searchQuery (fun s => CondRecuerdo.busca ("%" ++ s ++ "%")) countSql)
  match enteroDePagina (q.limit.getD "12"), enteroDePagina (q.offset.getD "0") with
  | some limit, some offset =>
    let recuerdos := limitOffset limit offset (ordenarRecuerdos (w.db.recuerdos.filter
      (fun r => sqlTextEq r.diario_id req.diarioId && sql.all (fun c => c.cumple r))))
    let total := (w.db.recuerdos.filter
      (fun r => sqlTextEq r.diario_id req.diarioId && countSql.all (fun c => c.cumple r))).length
    responder w req 200 (.recuerdos recuerdos total)
  | _, _ => fallar w req { message := "SQLITE_MISMATCH: datatype mismatch" }

/-- Statement `UPDATE recuerdos SET fecha = ?, descripcion = ?, favorito = ?
WHERE id = ? AND diario_id = ?` of `updateRecuerdo`; the second component is
`changes`. -/
def updateRecuerdoRows (db : Db) (req : Req) : Except Err (Db × Nat) :=
  let changes := (db.recuerdos.filter (esRecuerdo req)).length
  if changes == 0 then .ok (db, 0)
  else
    match req.body.fecha with
    | some fecha =>
      .ok ({ db with recuerdos := db.recuerdos.map (fun r =>
              if esRecuerdo req r then
                { r with fecha := fecha, descripcion := req.body.descripcion
                         favorito := flag req.body.favorito }
              else r) }, changes)
    | none => .error (sqliteConstraint "NOT NULL constraint failed: recuerdos.fecha")

/-- Controller `updateRecuerdo`. -/
def updateRecuerdo : Handler := fun w _ req =>
  if req.userRole != .str "owner" && req.userRole != .str "editor" then
    responder w req 403 (.error "No tienes permiso para editar recuerdos en este diario.")
  else
    match updateRecuerdoRows w.db req with
    | .ok (db1, changes) =>
      if changes == 0 then
        responder { w with db := db1 } req 404
          (.error "Recuerdo no encontrado o no autorizado para actualizar.")
      else responder { w with db := db1 } req 200 (.message "Recuerdo actualizado con éxito.")
    | .error e => fallar w req e

/-- The two removals of `deleteRecuerdo`: the media file, then the thumbnail
when the row has one, each only if it exists.  On a rejection the second
component is the filesystem as the removals before it left it. -/
def eliminarArchivos (env : Env) (fs : Fs) (recuerdo : Recuerdo) : Option Err × Fs :=
  let filePath := pathJoin directories_public recuerdo.url
  match (if fs.existsSync filePath then fsRemove env fs filePath else .ok fs) with
  | .error e => (some e, fs)
  | .ok fs1 =>
    match recuerdo.thumbnail_url with
    | some thumbnail_url =>
      let thumbnailPath := pathJoin directories_public thumbnail_url
      match (if fs1.existsSync thumbnailPath then fsRemove env fs1 thumbnailPath else .ok fs1) with
      | .error e => (some e, fs1)
      | .ok fs2 => (none, fs2)
    | none => (none, fs1)

/-- Controller `deleteRecuerdo`.  The statements between `BEGIN TRANSACTION`
and `COMMIT` act on the database only: `ROLLBACK` restores the tables and
leaves the filesystem as the removals left it. -/
def deleteRecuerdo : Handler := fun w env req =>
  if req.userRole != .str "owner" && req.userRole != .str "editor" then
    responder w req 403 (.error "No tienes permiso para eliminar recuerdos en este diario.")
  else
    -- BEGIN TRANSACTION
    match w.db.recuerdos.find? (esRecuerdo req) with
    | none =>
      -- ROLLBACK
      fallar w req { message := "Recuerdo no encontrado o no autorizado para eliminar." }
    | some recuerdo =>
      match eliminarArchivos env w.fs recuerdo with
      | (some e, fs1) =>
        -- ROLLBACK
        fallar { db := w.db, fs := fs1 } req e
      | (none, fs1) =>
        let (recuerdos1, changes) := deleteWhere w.db.recuerdos (esRecuerdo req)
        if changes == 0 then
          -- ROLLBACK
          fallar { db := w.db, fs := fs1 } req
            { message := "La eliminación en la BD falló después de borrar archivos." }
        else
          -- COMMIT
          responder { db := { w.db with recuerdos := recuerdos1 }, fs := fs1 } req 200
            (.message "Recuerdo eliminado con éxito.")

/-! ## Journals and sharing (`src/controllers/diarioController.js`) -/

/-- Statement `INSERT INTO diarios (...) VALUES (...)` of `createDiario`. -/
def insertDiario (db : Db) (now : Nat) (diarioId : String) (userId : Option Nat) (b : Body) :
    Except Err Db :=
  match userId, b.nombre_diario_personalizado with
  | some user_id, some nombre =>
    if db.diarios.any (fun d => d.id == diarioId) then
      .error (sqliteConstraint "UNIQUE constraint failed: diarios.id")
    else if db.foreign_keys && !db.usuarios.any (fun u => u.id == user_id) then
      .error (sqliteConstraint "FOREIGN KEY constraint failed")
    else
      .ok { db with diarios := db.diarios ++
              [{ id := diarioId, user_id := user_id, nombre_diario_personalizado := nombre
                 fecha_creacion := now, fecha_nacimiento_bebe := b.fecha_nacimiento_bebe
                 genero_bebe := b.genero_bebe }] }
  | none, _ => .error (sqliteConstraint "NOT NULL constraint failed: diarios.user_id")
  | some _, none =>
    .error (sqliteConstraint "NOT NULL constraint failed: diarios.nombre_diario_personalizado")

/-- Controller `createDiario`. -/
def createDiario : Handler := fun w env req =>
  if !req.validation.isEmpty then
    responder w req 400 (.errors req.validation)
  else
    let diarioId := env.uuid
    match insertDiario w.db env.now diarioId req.session.userId req.body with
    | .error e => fallar w req e
    | .ok db1 =>
      { world := { w with db := db1 }
        session := { req.session with activeDiarioId := .str diarioId }
        out := .sent ⟨201, .diarioCreado "Diario creado con éxito." diarioId⟩ }

/-- The rows of `diarios d LEFT JOIN diarios_compartidos dc ON d.id =
dc.diario_id AND dc.user_id = ?`: each journal with each of its matching
shared rows, or once with NULL when it has none. -/
def joinCompartidos (db : Db) (userId : Option Nat) : List (DiarioRow × Option Compartido) :=
  db.diarios.flatMap (fun d =>
    match db.diarios_compartidos.filter
        (fun dc => d.id == dc.diario_id && some dc.user_id == userId) with
    | [] => [(d, none)]
    | dcs => dcs.map (fun dc => (d, some dc)))

/-- The statement of `getMisDiarios`: the joined rows with `d.user_id = ? OR
dc.user_id = ?`, in the order `d.fecha_creacion DESC`, with the column
`CASE WHEN d.user_id = ? THEN 'owner' ELSE dc.rol END AS rol_usuario`.  The
four parameters are all `req.session.userId`. -/
def misDiarios (db : Db) (userId : Option Nat) : List DiarioListado :=
  (((joinCompartidos db userId).filter (fun p =>
      some p.1.user_id == userId ||
        (match p.2 with
          | some dc => some dc.user_id == userId
          | none => false))).insertionSort
    (fun a b => b.1.fecha_creacion ≤ a.1.fecha_creacion)).map (fun p =>
      { id := p.1.id, nombre_diario_personalizado := p.1.nombre_diario_personalizado
        fecha_nacimiento_bebe := p.1.fecha_nacimiento_bebe, genero_bebe := p.1.genero_bebe
        rol_usuario := if some p.1.user_id == userId then some "owner" else p.2.map (fun dc => dc.rol) })

/-- Controller `getMisDiarios`. -/
def getMisDiarios : Handler := fun w _ req =>
  responder w req 200 (.misDiarios (misDiarios w.db req.session.userId))

/-- Statement `UPDATE diarios SET ... WHERE id = ?` of `updateDiario`. -/
def updateDiarioRows (db : Db) (req : Req) : Except Err Db :=
  if !db.diarios.any (fun d => sqlTextEq d.id req.diarioId) then .ok db
  else
    match req.body.nombre_diario_personalizado with
    | some nombre =>
      .ok { db with diarios := db.diarios.map (fun d =>
              if sqlTextEq d.id req.diarioId then
                { d with nombre_diario_personalizado := nombre
                         fecha_nacimiento_bebe := req.body.fecha_nacimiento_bebe
                         genero_bebe := req.body.genero_bebe }
              else d) }
    | none => .error (sqliteConstraint "NOT NULL constraint failed: diarios.nombre_diario_personalizado")

/-- Controller `updateDiario`. -/
def updateDiario : Handler := fun w _ req =>
  if req.userRole != .str "owner" && req.userRole != .str "editor" then
    responder w req 403 (.error "No tienes permiso para editar este diario.")
  else if !req.validation.isEmpty then
    responder w req 400 (.errors req.validation)
  else
    match updateDiarioRows w.db req with
    | .ok db1 => responder { w with db := db1 } req 200 (.message "Diario actualizado con éxito.")
    | .error e => fallar w req e

/-- Statement `DELETE FROM diarios WHERE id = ?`: the database left and
`changes`.  The rows of `diarios_compartidos`, `eventos` and `recuerdos` that
reference a deleted journal go with it (`ON DELETE CASCADE`) only when the
connection enforces foreign keys. -/
def deleteDiarioRows (db : Db) (diarioId : JsVal) : Db × Nat :=
  let (diarios1, changes) := deleteWhere db.diarios (fun d => sqlTextEq d.id diarioId)
  if db.foreign_keys then
    ({ db with
        diarios := diarios1
        diarios_compartidos := db.diarios_compartidos.filter (fun c => !sqlTextEq c.diario_id diarioId)
        eventos := db.eventos.filter (fun e => !sqlTextEq e.diario_id diarioId)
        recuerdos := db.recuerdos.filter (fun r => !sqlTextEq r.diario_id diarioId) }, changes)
  else ({ db with diarios := diarios1 }, changes)

/-- The media directory of a journal, `path.join(directories.mediaUploads,
req.diarioId)`; `path.join` throws on an argument that is not a string. -/
def mediaDirOf (diarioId : JsVal) : Except Err Path :=
  match diarioId with
  | .str s => .ok (pathJoin directories_mediaUploads (segmentos s))
  | _ => .error { message := "The \"path\" argument must be of type string." }

/-- Controller `deleteDiario`.  `ROLLBACK` restores the tables; the media
directory, once removed, stays removed, and so does the session's
`activeDiarioId`, which is deleted before `COMMIT` is awaited. -/
def deleteDiario : Handler := fun w env req =>
  if req.userRole != .str "owner" then
    responder w req 403 (.error "Solo el propietario puede eliminar un diario.")
  else
    -- BEGIN TRANSACTION
    match mediaDirOf req.diarioId with
    | .error e => fallar w req e
    | .ok mediaDir =>
      match (if w.fs.existsSync mediaDir then fsRemove env w.fs mediaDir else .ok w.fs) with
      | .error e => fallar w req e
      | .ok fs1 =>
        let (db1, changes) := deleteDiarioRows w.db req.diarioId
        if changes == 0 then
          -- ROLLBACK
          fallar { db := w.db, fs := fs1 } req
            { message := "Diario no encontrado o no autorizado para eliminar." }
        else
          let session1 := if req.session.activeDiarioId = req.diarioId then
            { req.session with activeDiarioId := .undefined } else req.session
          if env.commitFails then
            -- COMMIT rejected, ROLLBACK
            { world := { db := w.db, fs := fs1 }
              session := session1
              out := .nextErr { message := "SQLITE_BUSY: database is locked" } }
          else
            -- COMMIT
            { world := { db := db1, fs := fs1 }
              session := session1
              out := .sent ⟨200, .message "Diario eliminado con éxito."⟩ }

/-- JavaScript string conversion, as in a template literal. -/
def jsToString : JsVal → String
  | .undefined => "undefined"
  | .null => "null"
  | .bool b => if b then "true" else "false"
  | .num n => toString n
  | .str s => s

/-- Controller `setActiveDiario`. -/
def setActiveDiario : Handler := fun w _ req =>
  { world := w
    session := { req.session with activeDiarioId := req.diarioId }
    out := .sent ⟨200, .message ("Diario " ++ jsToString req.diarioId ++ " establecido como activo.")⟩ }

/-- The effect of `INSERT OR REPLACE` on `diarios_compartidos`: the rows with
the primary key `(diario_id, user_id)` of the new row are deleted, and the new
row is inserted. -/
def Db.replaceCompartido (db : Db) (row : Compartido) : Db :=
  { db with diarios_compartidos :=
      (db.diarios_compartidos.filter
        (fun c => !(c.diario_id == row.diario_id && c.user_id == row.user_id)) ++ [row]) }

/-- Statement `INSERT OR REPLACE INTO diarios_compartidos (diario_id, user_id,
rol) VALUES (?, ?, ?)`, with its NOT NULL and foreign-key checks. -/
def upsertCompartido (db : Db) (now : Nat) (diarioId : JsVal) (user_id : Nat)
    (rol : Option String) : Except Err Db :=
  match sqlText diarioId, rol with
  | some diario_id, some rol =>
    if !fkDiario db diario_id || (db.foreign_keys && !db.usuarios.any (fun u => u.id == user_id)) then
      .error (sqliteConstraint "FOREIGN KEY constraint failed")
    else
      .ok (db.replaceCompartido
        { diario_id := diario_id, user_id := user_id, rol := rol, fecha_compartido := now })
  | none, _ => .error (sqliteConstraint "NOT NULL constraint failed: diarios_compartidos.diario_id")
  | some _, none => .error (sqliteConstraint "NOT NULL constraint failed: diarios_compartidos.rol")

/-- Controller `shareDiario`. -/
def shareDiario : Handler := fun w env req =>
  if req.userRole != .str "owner" then
    responder w req 403 (.error "Solo el propietario puede compartir un diario.")
  else if !req.validation.isEmpty then
    responder w req 400 (.errors req.validation)
  else
    match w.db.usuarios.find? (fun u => some u.email == req.body.email_invitado) with
    | none => responder w req 404 (.error "El usuario invitado no existe.")
    | some invitado =>
      if some invitado.id == req.session.userId then
        responder w req 400 (.error "No puedes compartir un diario contigo mismo.")
      else
        match upsertCompartido w.db env.now req.diarioId invitado.id req.body.rol_asignado.sql with
        | .error e => fallar w req e
        | .ok db1 =>
          responder { w with db := db1 } req 200 (.message "Diario compartido/rol actualizado con éxito.")

/-- Controller `getSharedUsers`. -/
def getSharedUsers : Handler := fun w _ req =>
  if req.userRole != .str "owner" && req.userRole != .str "editor" then
    responder w req 403 (.error "No tienes permiso para ver los usuarios compartidos.")
  else
    responder w req 200 (.sharedUsers
      ((w.db.diarios_compartidos.filter (fun dc => sqlTextEq dc.diario_id req.diarioId)).flatMap
        (fun dc => (w.db.usuarios.filter (fun u => dc.user_id == u.id)).map
          (fun u => (u.id, u.nombre, u.email, dc.rol)))))

/-- Controller `unshareDiario`. -/
def unshareDiario : Handler := fun w _ req =>
  if req.userRole != .str "owner" then
    responder w req 403 (.error "Solo el propietario puede dejar de compartir un diario.")
  else
    let userIdToUnshare := req.params.userIdToUnshare
    if jsEqNumero ((parseInt10 userIdToUnshare).map aDoble) req.session.userId then
      responder w req 400 (.error "No puedes dejar de compartir el diario contigo mismo.")
    else
      let (compartidos1, _) := deleteWhere w.db.diarios_compartidos
        (fun c => sqlTextEq c.diario_id req.diarioId && sqlIntEq c.user_id userIdToUnshare)
      responder { w with db := { w.db with diarios_compartidos := compartidos1 } } req 200
        (.message "Diario dejado de compartir con el usuario.")

/-! ## Backup export (`src/controllers/backupController.js`) -/

/-- Call `fs.copy(src, dst)`: every path at or below `src` appears at the same
place below `dst`. -/
def Fs.copy (fs : Fs) (src dst : Path) : Fs :=
  (fs.paths.filter (fun q => src.isPrefixOf q)).foldl
    (fun acc q => acc.writeFile (dst ++ q.drop src.length)) fs

/-- Call `fs.remove(p).catch(log)`: a rejection is logged and dropped. -/
def fsRemoveCatch (env : Env) (fs : Fs) (p : Path) : Fs :=
  match fsRemove env fs p with
  | .ok fs1 => fs1
  | .error _ => fs

/-- Steps 1 to 3 of `exportDiario` and the opening of the archive file, up to
the step that throws (if any): the filesystem left and the error thrown. -/
def exportSteps (w : World) (env : Env) (diarioId : JsVal) (backupDir outputZipPath : Path) :
    Fs × Option Err :=
  let dataDir := pathJoin backupDir ["data"]
  let mediaBackupDir := pathJoin backupDir ["media"]
  if env.exportFails == some 1 then (w.fs, some { message := "EACCES: permission denied, mkdir" })
  else
    -- 1. staging directories
    let fs1 := (w.fs.ensureDir dataDir).ensureDir mediaBackupDir
    if env.exportFails == some 2 then (fs1, some { message := "ENOSPC: no space left on device, write" })
    else
      -- 2. rows to JSON files
      let fs2 := (((fs1.writeFile (pathJoin dataDir ["diario.json"])).writeFile
        (pathJoin dataDir ["eventos.json"])).writeFile
        (pathJoin dataDir ["recuerdos.json"])).writeFile (pathJoin dataDir ["diarios_compartidos.json"])
      if env.exportFails == some 3 then (fs2, some { message := "ENOSPC: no space left on device, copyfile" })
      else
        -- 3. media files
        match mediaDirOf diarioId with
        | .error e => (fs2, some e)
        | .ok sourceMediaDir =>
          let fs3 := if fs2.existsSync sourceMediaDir then fs2.copy sourceMediaDir mediaBackupDir else fs2
          -- 4. archive
          let fs4 := fs3.writeFile outputZipPath
          (fs4, none)

/-- Controller `exportDiario`, with the download callback run to its end.
When the archive fails it emits `error`, and the listener
`archive.on('error', (err) => { throw err; })` throws from inside the emitter,
outside the `try` block: nothing catches the exception, so no cleanup runs, no
response is sent and nothing reaches the error handler. -/
def exportDiario : Handler := fun w env req =>
  if req.userRole != .str "owner" then
    responder w req 403 (.error "Solo el propietario puede exportar el diario.")
  else
    let diarioId := req.diarioId
    let backupDir := pathJoin directories_temp
      (segmentos ("backup_" ++ jsToString diarioId ++ "_" ++ toString env.now))
    let zipName := "diario_backup_" ++ jsToString diarioId ++ ".zip"
    let outputZipPath := pathJoin directories_temp (segmentos zipName)
    match exportSteps w env diarioId backupDir outputZipPath with
    | (fs4, none) =>
      if env.exportFails == some 4 then
        { world := { w with fs := fs4 }, session := req.session
          out := .uncaught { message := "archiver: entry failed" } }
      else
        -- download callback: remove staging directory, then archive
        let fs6 := match fsRemove env fs4 backupDir with
          | .error _ => fs4
          | .ok fs5 => fsRemoveCatch env fs5 outputZipPath
        responder { w with fs := fs6 } req 200 (.download outputZipPath zipName)
    | (fs1, some error) =>
      fallar { w with fs := fsRemoveCatch env (fsRemoveCatch env fs1 backupDir) outputZipPath } req error

/-- The staging directory of an export started at time `now`:
`path.join(directories.temp, 'backup_' + diarioId + '_' + Date.now())`. -/
def backupDir (diarioId : JsVal) (now : Nat) : Path :=
  pathJoin directories_temp (segmentos ("backup_" ++ jsToString diarioId ++ "_" ++ toString now))

/-- The archive file of an export:
`path.join(directories.temp, 'diario_backup_' + diarioId + '.zip')`. -/
def outputZipPath (diarioId : JsVal) : Path :=
  pathJoin directories_temp (segmentos ("diario_backup_" ++ jsToString diarioId ++ ".zip"))

/-! ## Registration (`src/controllers/authController.js`) and settings -/

/-- Stand-in for `bcrypt.hash(password, 10)`; the stored text is used by no
handler modelled here. -/
def bcryptHash (password : String) : String := "$2b$10$" ++ password

/-- Controller `registerUser`. -/
def registerUser : Handler := fun w env req =>
  if !req.validation.isEmpty then
    responder w req 400 (.errors req.validation)
  else
    match w.db.configuracion_sitio.find? (fun c => c.id == 1) with
    | none => responder w req 403 (.error "El registro de nuevos usuarios está deshabilitado.")
    | some siteConfig =>
      if siteConfig.allow_new_registrations == 0 then
        responder w req 403 (.error "El registro de nuevos usuarios está deshabilitado.")
      else
        match req.body.nombre, req.body.email, req.body.password with
        | some nombre, some email, some password =>
          if w.db.usuarios.any (fun u => u.email == email) then
            responder w req 409 (.error "El email ya está registrado.")
          else
            let id := nextId w.db.seq_usuarios (w.db.usuarios.map (fun u => u.id))
            let row : Usuario :=
              { id := id, nombre := nombre, email := email, password := bcryptHash password
                rol := "usuario", fecha_registro := env.now }
            { world := { w with db := { w.db with usuarios := w.db.usuarios ++ [row], seq_usuarios := id } }
              session := { req.session with userId := some id }
              out := .sent ⟨201, .usuarioRegistrado "Usuario registrado con éxito." id⟩ }
        | _, _, none => fallar w req { message := "data and salt arguments required" }
        | none, _, some _ =>
          fallar w req (sqliteConstraint "NOT NULL constraint failed: usuarios.nombre")
        | some _, none, some _ =>
          fallar w req (sqliteConstraint "NOT NULL constraint failed: usuarios.email")

/-- Controller `updateUserConfig`: `INSERT OR REPLACE INTO
configuracion_usuario`.  The key `user_id` is an INTEGER PRIMARY KEY, so a
NULL bound for it is replaced by the next free row id. -/
def updateUserConfig : Handler := fun w _ req =>
  let user_id := match req.session.userId with
    | some u => u
    | none => nextId 0 (w.db.configuracion_usuario.map (fun c => c.user_id))
  if w.db.foreign_keys && !w.db.usuarios.any (fun u => u.id == user_id) then
    fallar w req (sqliteConstraint "FOREIGN KEY constraint failed")
  else
    let kept := w.db.configuracion_usuario.filter (fun c => c.user_id != user_id)
    responder { w with db := { w.db with configuracion_usuario :=
        (kept ++ [{ user_id := user_id, campos := req.body.apariencia }]) } } req 200
      (.message "Configuración de usuario guardada con éxito.")

/-- Controller `updateSiteSettings`. -/
def updateSiteSettings : Handler := fun w _ req =>
  if !req.validation.isEmpty then
    responder w req 400 (.errors req.validation)
  else
    responder { w with db := { w.db with configuracion_sitio := w.db.configuracion_sitio.map (fun c =>
        if c.id == 1 then
          { c with site_global_name := req.body.siteGlobalName
                   allow_new_registrations := flag req.body.allowNewRegistrations }
        else c) } } req 200 (.message "Configuración del sitio actualizada con éxito.")

/-! ## Validators and routes (`src/routes/`) -/

/-- A check of an express-validator chain: its message is recorded when the
check fails. -/
def validar (ok : Bool) (msg : String) (req : Req) : Req :=
  if ok then req else { req with validation := req.validation ++ [msg] }

/-- The pattern `/^([0-1]?[0-9]|2[0-3]):[0-5][0-9]$/` of the `hora` check. -/
def horaValida (s : String) : Bool :=
  match s.toList with
  | [h, ':', m1, m2] => h.isDigit && ('0' ≤ m1 && m1 ≤ '5') && m2.isDigit
  | [h1, h2, ':', m1, m2] =>
    (((h1 == '0' || h1 == '1') && h2.isDigit) || (h1 == '2' && '0' ≤ h2 && h2 ≤ '3')) &&
      ('0' ≤ m1 && m1 ≤ '5') && m2.isDigit
  | _ => false

/-- Chain `body('nombre_diario_personalizado').trim().notEmpty()`. -/
def validarNombreDiario (req : Req) : Req :=
  let v := recortar (req.body.nombre_diario_personalizado.getD "")
  validar (v != "") "El nombre del diario es requerido."
    { req with body := { req.body with nombre_diario_personalizado := some v } }

/-- The two chains of `POST /:diarioId/share`. -/
def validarShare (env : Env) (req : Req) : Req :=
  validar (req.body.rol_asignado.todos (fun v => ["editor", "lector"].contains v))
      "Rol asignado no válido."
    (validar (env.isEmail (req.body.email_invitado.getD "")) "El email del invitado no es válido."
      req)

/-- The three chains of the event routes. -/
def validarEvento (env : Env) (req : Req) : Req :=
  validar ((req.body.tipo.getD "") != "") "El tipo de evento es requerido."
    (validar (horaValida (req.body.hora.getD "")) "Formato de hora inválido."
      (validar (env.isISO8601 (req.body.fecha.getD "")) "Formato de fecha inválido." req))

/-- The three chains of `POST /registro`. -/
def validarRegistro (env : Env) (req : Req) : Req :=
  let v := recortar (req.body.nombre.getD "")
  validar ((req.body.password.getD "").length ≥ 8) "La contraseña debe tener al menos 8 caracteres."
    (validar (env.isEmail (req.body.email.getD "")) "El email no es válido."
      (validar (v != "") "El nombre es requerido."
        { req with body := { req.body with nombre := some v } }))

/-- The two chains of `PUT /site-settings`. -/
def validarSitio (req : Req) : Req :=
  let v := recortar (req.body.siteGlobalName.getD "")
  validar (["true", "false", "1", "0"].contains (jsToString req.body.allowNewRegistrations))
      "El valor para permitir nuevos registros debe ser booleano."
    (validar (v != "") "El nombre global del sitio es requerido."
      { req with body := { req.body with siteGlobalName := some v } })

/-- Middleware `isAuthenticated` in front of a handler. -/
def isAuthenticated (handler : Handler) : Handler := fun w env req =>
  match req.session.autenticado with
  | some _ => handler w env req
  | none => responder w req 401 (.error "No autorizado. Se requiere iniciar sesión.")

/-- Middleware `isAdmin` in front of a handler. -/
def isAdmin (handler : Handler) : Handler := fun w env req =>
  match w.db.usuarios.find? (fun u => some u.id == req.session.userId) with
  | some user =>
    if user.rol == "admin" then handler w env req
    else responder w req 403 (.error "Acceso denegado. Se requiere rol de administrador.")
  | none => responder w req 403 (.error "Acceso denegado. Se requiere rol de administrador.")

/-- A validator chain in front of a handler. -/
def conValidacion (v : Req → Req) (handler : Handler) : Handler := fun w env req =>
  handler w env (v req)

/-- A validator chain that calls validator.js, in front of a handler. -/
def conValidador (v : Env → Req → Req) (handler : Handler) : Handler := fun w env req =>
  handler w env (v env req)

/-- The upload middleware in front of a handler. -/
def conUpload (handler : Handler) : Handler := fun w env req =>
  match uploadRecuerdo w env req with
  | (w1, req1, .next) => handler w1 env req1
  | (w1, _, out) => { world := w1, session := req.session, out := out }

/-- The routes of the API that write to the store, the filesystem or the
session. -/
inductive Route where
  | registro
  | crearDiario
  | actualizarDiario
  | eliminarDiario
  | setActive
  | share
  | unshare
  | crearEvento
  | actualizarEvento
  | eliminarEvento
  | subirRecuerdo
  | actualizarRecuerdo
  | eliminarRecuerdo
  | exportar
  | configuracionUsuario
  | configuracionSitio
  deriving DecidableEq, Repr

/-- A request as it arrives: nothing attached by a middleware yet. -/
def Req.entrante (req : Req) : Req :=
  { req with validation := [], file := none, diarioId := .undefined, userRole := .undefined }

/-- The middleware stack of each route, as mounted in `src/routes/`. -/
def api (r : Route) : Handler := fun w env req =>
  let h : Handler := match r with
    | .registro => conValidador validarRegistro registerUser
    | .crearDiario => isAuthenticated (conValidacion validarNombreDiario createDiario)
    | .actualizarDiario =>
      isAuthenticated (conAcceso (conValidacion validarNombreDiario updateDiario))
    | .eliminarDiario => isAuthenticated (conAcceso deleteDiario)
    | .setActive => isAuthenticated (conAcceso setActiveDiario)
    | .share => isAuthenticated (conAcceso (conValidador validarShare shareDiario))
    | .unshare => isAuthenticated (conAcceso unshareDiario)
    | .crearEvento => isAuthenticated (conAcceso (conValidador validarEvento createEvento))
    | .actualizarEvento => isAuthenticated (conAcceso (conValidador validarEvento updateEvento))
    | .eliminarEvento => isAuthenticated (conAcceso deleteEvento)
    | .subirRecuerdo => isAuthenticated (conAcceso (conUpload createRecuerdo))
    | .actualizarRecuerdo => isAuthenticated (conAcceso updateRecuerdo)
    | .eliminarRecuerdo => isAuthenticated (conAcceso deleteRecuerdo)
    | .exportar => isAuthenticated (conAcceso exportDiario)
    | .configuracionUsuario => isAuthenticated updateUserConfig
    | .configuracionSitio => isAuthenticated (isAdmin (conValidacion validarSitio updateSiteSettings))
  h w env req.entrante

/-- The project root and the directories `initializeDirectories` creates at
start-up. -/
def initFs : Fs :=
  { paths := [[], ["db"], ["public"], ["public", "media"], ["public", "media", "diarios"], ["temp"]] }

/-- The world right after start-up on an empty installation. -/
def initWorld : World := { db := initDB, fs := initFs }

/-- The worlds the API can reach from start-up.  The index lists the values
`uuidv4()` has returned so far; each request draws values that were never
returned before. -/
inductive Reachable : List String → World → Prop where
  | init : Reachable [] initWorld
  | step {used : List String} {w : World} (r : Route) (env : Env) (req : Req) :
      Reachable used w → env.uuid ∉ used → env.uuid2 ∉ used → env.uuid ≠ env.uuid2 →
      Reachable (env.uuid :: env.uuid2 :: used) (api r w env req).world

/-! ## What the listings are to return -/

/-- The rows of `eventos` a listing request asks for: those of journal `J`
that satisfy every supplied filter of the query (a filter is supplied when
its field is present and not empty): `tipo` equal, `fecha` not before
`fechaInicio`, `fecha` not after `fechaFin`, `favorito = 1` when the field
`favorito` is `'1'`, and the search text found in `descripcion` or in `notas`
by `LIKE '%text%'`. -/
def coincideEvento (J : String) (q : Query) (e : Evento) : Bool :=
  e.diario_id == J &&
    (match q.tipo with
      | some t => t == "" || e.tipo == t
      | none => true) &&
    (match q.fechaInicio with
      | some f => f == "" || textoLe f e.fecha
      | none => true) &&
    (match q.fechaFin with
      | some f => f == "" || textoLe e.fecha f
      | none => true) &&
    (q.favorito != some "1" || e.favorito == 1) &&
    (match q.searchQuery with
      | some t => t == "" ||
          (sqlLike e.descripcion ("%" ++ t ++ "%") || sqlLike e.notas ("%" ++ t ++ "%"))
      | none => true)

/-- The rows of `recuerdos` a listing request asks for: those of journal `J`
that satisfy every supplied filter: `tipo` equal, `favorito = 1` when the
field `favorito` is `'1'`, and the search text found in `descripcion` by
`LIKE '%text%'`. -/
def coincideRecuerdo (J : String) (q : Query) (r : Recuerdo) : Bool :=
  r.diario_id == J &&
    (match q.tipo with
      | some t => t == "" || r.tipo == t
      | none => true) &&
    (q.favorito != some "1" || r.favorito == 1) &&
    (match q.searchQuery with
      | some t => t == "" || sqlLike r.descripcion ("%" ++ t ++ "%")
      | none => true)

/-- The request with the page fields `limit` and `offset` of its query
replaced. -/
def Req.conPagina (req : Req) (limit offset : Option String) : Req :=
  { req with query := { req.query with limit := limit, offset := offset } }

/-! ## The sharing invariant -/

/-- The invariant of the sharing tables, relative to the journal ids issued so
far: every shared role is `editor`, `lector` or the text `[object Object]`
(what is stored for a role sent as an array); `(diario_id, user_id)` is a
key of `diarios_compartidos`; no shared row names the owner of its journal;
`id` is a key of `diarios`; and every journal id in either table was issued
by `uuidv4()`. -/
structure Inv (used : List String) (db : Db) : Prop where
  roles : ∀ c ∈ db.diarios_compartidos,
    c.rol = "editor" ∨ c.rol = "lector" ∨ c.rol = "[object Object]"
  key : db.diarios_compartidos.Pairwise
    (fun a b => ¬ (a.diario_id = b.diario_id ∧ a.user_id = b.user_id))
  notOwner : ∀ c ∈ db.diarios_compartidos, ∀ d ∈ db.diarios,
    d.id = c.diario_id → d.user_id ≠ c.user_id
  diarioKey : db.diarios.Pairwise (fun a b => a.id ≠ b.id)
  issued : ∀ d ∈ db.diarios, d.id ∈ used
  issuedShared : ∀ c ∈ db.diarios_compartidos, c.diario_id ∈ used

/-- A handler that leaves `diarios` and `diarios_compartidos` as they are. -/
def Keeps (h : Handler) : Prop :=
  ∀ w env req, (h w env req).world.db.diarios = w.db.diarios ∧
    (h w env req).world.db.diarios_compartidos = w.db.diarios_compartidos

/-- What `checkDiarioAccess` has established when it hands a request on with
the role `owner`: the requester owns the journal bound to the request. -/
def OwnerChecked (db : Db) (req : Req) : Prop :=
  req.userRole = .str "owner" →
    ∃ d ∈ db.diarios, sqlTextEq d.id req.diarioId = true ∧ req.session.userId = some d.user_id

/-! ## Sample data -/

/-- Event 1 of the sample journal. -/
def eventoEjemplo : Evento :=
  { id := 1, diario_id := "j1", fecha := "2024-01-05", hora := "08:30", tipo := "comida"
    descripcion := none, cantidad := none, unidad := none, notas := none, favorito := 0
    fecha_creacion := 5 }

/-- Memory 1 of the sample journal: a photo with its thumbnail. -/
def recuerdoEjemplo : Recuerdo :=
  { id := 1, diario_id := "j1", tipo := "foto", url := ["media", "diarios", "j1", "f1.jpg"]
    thumbnail_url := some ["media", "diarios", "j1", "thumbnails", "thumb-f2.webp"]
    fecha := "2024-01-05", descripcion := none, favorito := 0, fecha_subida := 6 }

/-- User 2 of the sample store. -/
def usuarioLuis : Usuario :=
  { id := 2, nombre := "Luis", email := "luis@example.com", password := "$2b$10$secreto456"
    rol := "usuario", fecha_registro := 2 }

/-- A store with two users, one journal of user 1 shared with user 2 as
`lector`, one event and one photo with its thumbnail. -/
def dbEjemplo : Db :=
  { initDB with
    usuarios :=
      [{ id := 1, nombre := "Ana", email := "ana@example.com", password := "$2b$10$secreto123"
         rol := "usuario", fecha_registro := 1 }, usuarioLuis]
    diarios :=
      [{ id := "j1", user_id := 1, nombre_diario_personalizado := "Diario de Leo"
         fecha_creacion := 3, fecha_nacimiento_bebe := none, genero_bebe := none }]
    diarios_compartidos := [{ diario_id := "j1", user_id := 2, rol := "lector", fecha_compartido := 4 }]
    eventos := [eventoEjemplo]
    recuerdos := [recuerdoEjemplo]
    seq_usuarios := 2
    seq_eventos := 1
    seq_recuerdos := 1 }

/-- The filesystem that goes with `dbEjemplo`. -/
def fsEjemplo : Fs :=
  { paths := initFs.paths ++
      [["public", "media", "diarios", "j1"],
       ["public", "media", "diarios", "j1", "f1.jpg"],
       ["public", "media", "diarios", "j1", "thumbnails"],
       ["public", "media", "diarios", "j1", "thumbnails", "thumb-f2.webp"]] }

/-- The sample world. -/
def mundoEjemplo : World := { db := dbEjemplo, fs := fsEjemplo }

/-- A request of user `u` on the journal `j` of the sample world. -/
def reqDe (u : Nat) (j : String) : Req :=
  { session := { userId := some u }, params := { diarioId := .str j } }

/-- The requests that lead from start-up to the sample world, each with the
route it goes to and the environment it meets: Ana and Luis register, Ana
creates the journal `j1`, shares it with Luis as `lector`, logs an event and
uploads a photo. -/
def guionEjemplo : List (Route × Env × Req) :=
  [(.registro, { now := 1, uuid := "a1", uuid2 := "a2" },
      { body := { nombre := some "Ana", email := some "ana@example.com"
                  password := some "secreto123" } }),
   (.registro, { now := 2, uuid := "b1", uuid2 := "b2" },
      { body := { nombre := some "Luis", email := some "luis@example.com"
                  password := some "secreto456" } }),
   (.crearDiario, { now := 3, uuid := "j1", uuid2 := "c2" },
      { session := { userId := some 1 }
        body := { nombre_diario_personalizado := some "Diario de Leo" } }),
   (.share, { now := 4, uuid := "d1", uuid2 := "d2" },
      { reqDe 1 "j1" with
        body := { email_invitado := some "luis@example.com", rol_asignado := .texto "lector" } }),
   (.crearEvento, { now := 5, uuid := "e1", uuid2 := "e2" },
      { reqDe 1 "j1" with
        body := { fecha := some "2024-01-05", hora := some "08:30", tipo := some "comida" } }),
   (.subirRecuerdo, { now := 6, uuid := "f1", uuid2 := "f2" },
      { reqDe 1 "j1" with
        body := { fecha := some "2024-01-05" }
        media := some { mimetype := "image/jpeg", originalname := "leo.jpg", size := 1000 } })]

/-- The world after a list of requests. -/
def correr (w : World) : List (Route × Env × Req) → World
  | [] => w
  | (r, env, req) :: rest => correr (api r w env req).world rest

/-- The journal ids drawn by a list of requests, latest first. -/
def emitidos (used : List String) : List (Route × Env × Req) → List String
  | [] => used
  | (_, env, _) :: rest => emitidos (env.uuid :: env.uuid2 :: used) rest

/-- User 2, who holds `lector` on `j1`, uploads a JPEG to `j1`. -/
def reqSubidaLector : Req :=
  { reqDe 2 "j1" with media := some { mimetype := "image/jpeg", originalname := "b.jpg", size := 1000 } }

/-- The environment of that upload: `uuidv4()` returns `u1`, then `u2`. -/
def envSubida : Env := { now := 5, uuid := "u1", uuid2 := "u2" }

/-- User 1, the owner of `j1`, asks to delete memory 1. -/
def reqBorrarRecuerdo : Req :=
  { reqDe 1 "j1" with params := { diarioId := .str "j1", id := "1" } }

/-- An environment in which removing the thumbnail of memory 1 is rejected. -/
def envMiniaturaBloqueada : Env :=
  { removeFails := [["public", "media", "diarios", "j1", "thumbnails", "thumb-f2.webp"]] }

/-- User 2 reads event 1 of `j1`. -/
def reqLeerEvento : Req :=
  { reqDe 2 "j1" with params := { diarioId := .str "j1", id := "1" } }

/-- The request `reqBorrarRecuerdo` as `checkDiarioAccess` hands it on. -/
def reqBorrarRecuerdoOwner : Req :=
  { reqBorrarRecuerdo with diarioId := .str "j1", userRole := .str "owner" }

/-- The owner of `j1` shares it with the user of the given email and role. -/
def reqCompartir (email rol : String) : Req :=
  { reqDe 1 "j1" with body := { email_invitado := some email, rol_asignado := .texto rol } }

/-- The owner of `j1` shares it with Luis and sends the role as the array
`["editor", "lector"]`. -/
def reqCompartirLista : Req :=
  { reqDe 1 "j1" with
    body := { email_invitado := some "luis@example.com"
              rol_asignado := .lista ["editor", "lector"] } }

/-- The requests of `guionEjemplo`, followed by that share. -/
def guionRolLista : List (Route × Env × Req) :=
  guionEjemplo ++ [(.share, { now := 7, uuid := "g1", uuid2 := "g2" }, reqCompartirLista)]

/-- The owner of `j1` asks to delete memory 99, which does not exist. -/
def reqBorrarAusente : Req :=
  { reqDe 1 "j1" with params := { diarioId := .str "j1", id := "99" } }

/-- The request `reqBorrarAusente` as `checkDiarioAccess` hands it on. -/
def reqBorrarAusenteOwner : Req :=
  { reqBorrarAusente with diarioId := .str "j1", userRole := .str "owner" }

/-- The sample world once the journal `j1` has been deleted by its owner. -/
def mundoSinDiario : World := (api .eliminarDiario mundoEjemplo {} (reqDe 1 "j1")).world

/-- A delete request for `j1` whose owner role was resolved while the
`diarios` row still existed. -/
def reqBorrarDiarioOwner : Req :=
  { reqDe 1 "j1" with diarioId := .str "j1", userRole := .str "owner" }

/-- The owner of `j1` asks to update event 99, which does not exist, with an
empty body. -/
def reqActualizarEventoVacio : Req :=
  { reqDe 1 "j1" with params := { diarioId := .str "j1", id := "99" } }

/-- The owner of `j1` asks to delete event 1, as `checkDiarioAccess` hands the
request on. -/
def reqBorrarEventoOwner : Req :=
  { reqDe 1 "j1" with
    params := { diarioId := .str "j1", id := "1" }, diarioId := .str "j1", userRole := .str "owner" }

/-- The owner of `j1` asks to stop sharing it with the user whose id is the
text `t`, as `checkDiarioAccess` hands the request on. -/
def reqDejarDeCompartir (t : String) : Req :=
  { reqDe 1 "j1" with
    params := { diarioId := .str "j1", userIdToUnshare := t }
    diarioId := .str "j1", userRole := .str "owner" }

/-- The owner of `j1` asks to update memory 1 with the given body, as
`checkDiarioAccess` hands the request on. -/
def reqActualizarRecuerdo (b : Body) : Req :=
  { reqDe 1 "j1" with
    params := { diarioId := .str "j1", id := "1" }, body := b
    diarioId := .str "j1", userRole := .str "owner" }

/-- The owner of `j1` uploads a JPEG without a `fecha` field. -/
def reqSubidaSinFecha : Req :=
  { reqDe 1 "j1" with media := some { mimetype := "image/jpeg", originalname := "c.jpg", size := 1000 } }

/-- The owner of `j1` uploads a file of the given media type with a `fecha`,
as the upload middleware hands the request on. -/
def reqSubida (mimetype nombre : String) : Req :=
  { reqDe 1 "j1" with
    body := { fecha := some "2024-03-01" }
    file := some { mimetype := mimetype, path := ["public", "media", "diarios", "j1", nombre] }
    diarioId := .str "j1", userRole := .str "owner" }

/-- User 2, a `lector` of `j1`, lists its events or memories with the given
query, as `checkDiarioAccess` hands the request on. -/
def reqListar (q : Query) : Req :=
  { reqDe 2 "j1" with query := q, diarioId := .str "j1", userRole := .str "lector" }

/-- An environment in which removing the media directory of `j1` is
rejected. -/
def envMediaBloqueada : Env := { removeFails := [["public", "media", "diarios", "j1"]] }

/-- The owner of `j1`, whose session has `j1` as the active journal, asks to
delete it. -/
def reqBorrarDiarioActivo : Req :=
  { reqDe 1 "j1" with session := { userId := some 1, activeDiarioId := .str "j1" } }

/-- The journal id `checkDiarioAccess` reads from a request:
`req.params.diarioId || req.body.diario_id || req.query.diario_id`. -/
def diarioIdPedido (req : Req) : JsVal :=
  (req.params.diarioId.or req.body.diario_id).or req.query.diario_id

/-- A request without session whose path names no journal, with the given
`diario_id` fields in body and query. -/
def reqSinRuta (cuerpo consulta : JsVal) : Req :=
  { body := { diario_id := cuerpo }, query := { diario_id := consulta } }

/-- The owner of `j1` uploads a JPEG whose multipart field `favorito` is the
text `false`. -/
def reqSubidaFavoritoTexto : Req :=
  { reqDe 1 "j1" with
    body := { fecha := some "2024-03-01", favorito := .str "false" }
    media := some { mimetype := "image/jpeg", originalname := "d.jpg", size := 1000 } }

/-- The owner of `j1` updates event 1 with a JSON body whose `favorito` is
the given value. -/
def reqActualizarEventoFavorito (v : JsVal) : Req :=
  { reqDe 1 "j1" with
    params := { diarioId := .str "j1", id := "1" }
    body := { fecha := some "2024-01-05", hora := some "08:30", tipo := some "comida"
              favorito := v } }

/-- The route `GET /api/diarios/:diarioId/eventos`: `isAuthenticated`,
`checkDiarioAccess`, `getEventos`. -/
def listarEventos : Handler := fun w env req =>
  isAuthenticated (conAcceso getEventos) w env req.entrante

/-- The time of day a value of `hora` of the shape `H:MM` or `HH:MM` denotes,
in minutes after midnight.  This is the reading of "time of day" the listing
order is compared with; the code never computes it. -/
def minutosDelDia (hora : String) : Option Nat :=
  match hora.toList with
  | [h, ':', m1, m2] => some (valorDigitos [h] * 60 + valorDigitos [m1, m2])
  | [h1, h2, ':', m1, m2] => some (valorDigitos [h1, h2] * 60 + valorDigitos [m1, m2])
  | _ => none

/-- Whether the text `s` occurs in `text` as a substring, up to the case of
ASCII letters.  This is the reading of "substring search" the search filter
is compared with; the code never computes it. -/
def ocurreEn (s : String) (text : Option String) : Bool :=
  match text with
  | some t => decide (s.toList.map pliegue <:+: t.toList.map pliegue)
  | none => false

/-- The owner of `j1` logs a feed on 2024-02-01 at the given time, with the
given description. -/
def reqToma (hora : String) (descripcion : Option String) : Req :=
  { reqDe 1 "j1" with
    body := { fecha := some "2024-02-01", hora := some hora, tipo := some "toma"
              descripcion := descripcion } }

/-- The row `createEvento` stores for `reqToma`, with the id and the creation
time it gets. -/
def tomaEjemplo (id now : Nat) (hora : String) (descripcion : Option String) : Evento :=
  { id := id, diario_id := "j1", fecha := "2024-02-01", hora := hora, tipo := "toma"
    descripcion := descripcion, cantidad := none, unidad := none, notas := none, favorito := 0
    fecha_creacion := now }

/-- The sample world after the owner has logged two feeds on the same day,
one at `9:30` and one at `10:00`. -/
def mundoDosHoras : World :=
  correr mundoEjemplo
    [(.crearEvento, { now := 7, uuid := "g1", uuid2 := "g2" }, reqToma "9:30" none),
     (.crearEvento, { now := 8, uuid := "h1", uuid2 := "h2" }, reqToma "10:00" none)]

/-- The sample world after the owner has logged a feed described as
`biberon de 500 ml`. -/
def mundoBiberon : World :=
  correr mundoEjemplo
    [(.crearEvento, { now := 7, uuid := "g1", uuid2 := "g2" },
      reqToma "10:00" (some "biberon de 500 ml"))]

/-- User 2 searches the events of `j1` for the text `s`. -/
def reqBuscar (s : String) : Req :=
  { reqDe 2 "j1" with query := { searchQuery := some s } }

/-- The sample world while an export of `j1` started at time 100 is sending
its archive: steps 1 to 4 are done, the download callback has not run yet. -/
def mundoExportando : World :=
  { mundoEjemplo with
    fs := (exportSteps mundoEjemplo { now := 100 } (.str "j1") (backupDir (.str "j1") 100)
      (outputZipPath (.str "j1"))).1 }

/-- An export at time 100 whose step 2 fails, while the removal of its staging
directory is rejected. -/
def envExportBloqueado : Env :=
  { now := 100, exportFails := some 2, removeFails := [["temp", "backup_j1_100"]] }

/-- The owner of `j1` asks for an export, as `checkDiarioAccess` hands the
request on. -/
def reqExportarOwner : Req :=
  { reqDe 1 "j1" with diarioId := .str "j1", userRole := .str "owner" }

/-- The route `GET /api/diarios`: `isAuthenticated`, `getMisDiarios`. -/
def listarMisDiarios : Handler := fun w env req =>
  isAuthenticated getMisDiarios w env req.entrante

/-- The role `checkDiarioAccess` attaches when user `U` asks for the journal
id `J` in the path, or `none` when it does not hand the request on. -/
def rolConcedido (db : Db) (U : Nat) (J : String) : Option JsVal :=
  match checkDiarioAccess db (reqDe U J) with
  | (req1, .next) => some req1.userRole
  | _ => none

/-! # Properties -/

/-! ## Helper lemmas -/

theorem sqlTextEq_str (col s : String) : sqlTextEq col (.str s) = true ↔ col = s := by
  simp only [sqlTextEq, sqlText, beq_iff_eq, Option.some.injEq]
  exact eq_comm

theorem truthy_str {s : String} (h : s ≠ "") : (JsVal.str s).truthy = true := by
  simp [JsVal.truthy, h]

theorem autenticado_some {s : Session} {u : Nat} (h : s.userId = some u) (h0 : u ≠ 0) :
    s.autenticado = some u := by
  simp [Session.autenticado, h, h0]

theorem find?_of_unique {α : Type} (p : α → Bool) (l : List α) (a : α) (ha : a ∈ l)
    (hp : p a = true) (huniq : ∀ b ∈ l, p b = true → b = a) : l.find? p = some a := by
  have hsome : (l.find? p).isSome := by
    rw [List.find?_isSome]
    exact ⟨a, ha, hp⟩
  obtain ⟨b, hb⟩ := Option.isSome_iff_exists.mp hsome
  rw [hb, huniq b (List.mem_of_find?_eq_some hb) (List.find?_some hb)]

theorem mem_without (fs : Fs) (q p : Path) :
    p ∈ (fs.without q).paths ↔ p ∈ fs.paths ∧ ¬ q <+: p := by
  simp only [Fs.without, List.mem_filter, Bool.not_eq_true', and_congr_right_iff]
  intro _
  rw [← List.isPrefixOf_iff_prefix, Bool.not_eq_true]

theorem existsSync_iff (fs : Fs) (p : Path) : fs.existsSync p = true ↔ p ∈ fs.paths := by
  simp [Fs.existsSync]

/-- What one guarded removal `if (fs.existsSync(q)) await fs.remove(q)` does
when the removal is not rejected. -/
theorem guarded_remove (env : Env) (fs : Fs) (q : Path) (hq : q ∉ env.removeFails) :
    ∃ fs1, (if fs.existsSync q then fsRemove env fs q else .ok fs) = .ok fs1 ∧
      q ∉ fs1.paths ∧ (∀ p, p ∈ fs1.paths → p ∈ fs.paths) ∧
      (∀ p, ¬ q <+: p → (p ∈ fs1.paths ↔ p ∈ fs.paths)) := by
  by_cases he : fs.existsSync q = true
  · refine ⟨fs.without q, by simp [he, fsRemove, hq], ?_, ?_, ?_⟩
    · simp [mem_without]
    · intro p hp
      exact ((mem_without fs q p).mp hp).1
    · intro p hp
      simp [mem_without, hp]
  · refine ⟨fs, by simp [he], ?_, fun p hp => hp, fun p _ => Iff.rfl⟩
    simpa [existsSync_iff] using he

/-- The owner branch of `checkDiarioAccess` for a journal id given in the
path. -/
theorem acceso_owner (db : Db) (req : Req) (U : Nat) (J : String)
    (hU : req.session.userId = some U) (hU0 : U ≠ 0) (hJ : J ≠ "")
    (hparam : req.params.diarioId = .str J)
    (howner : ∃ d ∈ db.diarios, d.id = J ∧ d.user_id = U) :
    checkDiarioAccess db req
      = ({ req with diarioId := .str J, userRole := .str "owner" }, .next) := by
  obtain ⟨d, hd, hdJ, hdU⟩ := howner
  have hid : (req.params.diarioId.or req.body.diario_id).or req.query.diario_id = .str J := by
    simp [hparam, JsVal.or, truthy_str hJ]
  have hsome : (db.diarios.find? (fun d => sqlTextEq d.id (.str J) && d.user_id == U)).isSome := by
    rw [List.find?_isSome]
    exact ⟨d, hd, by simp [sqlTextEq_str, hdJ, hdU]⟩
  obtain ⟨d1, hd1⟩ := Option.isSome_iff_exists.mp hsome
  simp only [checkDiarioAccess, hid, truthy_str hJ, autenticado_some hU hU0, hd1]
  rfl

/-- The route `POST /:diarioId/share` when the owner sends a valid body whose
email resolves to another user: the row is upserted and the success response
goes out. -/
theorem api_share_ok (w : World) (env : Env) (req : Req) (U : Nat) (J email rol : String)
    (u : Usuario)
    (hU : req.session.userId = some U) (hU0 : U ≠ 0) (hJ : J ≠ "")
    (hparam : req.params.diarioId = .str J)
    (howner : ∃ d ∈ w.db.diarios, d.id = J ∧ d.user_id = U)
    (hemail : req.body.email_invitado = some email) (hvalid : env.isEmail email = true)
    (hrol : req.body.rol_asignado = .texto rol) (hrolv : rol = "editor" ∨ rol = "lector")
    (hinv : w.db.usuarios.find? (fun u => some u.email == some email) = some u)
    (hne : u.id ≠ U) :
    api .share w env req
      = { world := { w with db := (w.db.replaceCompartido
            { diario_id := J, user_id := u.id, rol := rol, fecha_compartido := env.now }) }
          session := req.session
          out := .sent ⟨200, .message "Diario compartido/rol actualizado con éxito."⟩ } := by
  have hacc := acceso_owner w.db req.entrante U J hU hU0 hJ hparam howner
  have hfk : fkDiario w.db J = true := by
    obtain ⟨d, hd, hdJ, _⟩ := howner
    simp only [fkDiario, Bool.or_eq_true, Bool.not_eq_true', List.any_eq_true, beq_iff_eq]
    exact Or.inr ⟨d, hd, hdJ⟩
  simp only [api, isAuthenticated, Req.entrante, autenticado_some hU hU0, conAcceso] at hacc ⊢
  rw [hacc]
  have hinv1 : List.find? (fun u => u.email == email) w.db.usuarios = some u := by
    simpa using hinv
  have huser1 : ¬ (w.db.foreign_keys = true ∧ ∀ x ∈ w.db.usuarios, ¬x.id = u.id) := by
    rintro ⟨_, h⟩
    exact h u (List.mem_of_find?_eq_some hinv) rfl
  simp [conValidador, validarShare, validar, hemail, hvalid, hrol, hrolv, shareDiario,
    hinv1, hU, hne, upsertCompartido, sqlText, hfk, huser1, responder, Campo.todos, Campo.sql]

/-! ## C1: role resolution -/

/-- C1: `checkDiarioAccess`, for every store, every authenticated requester `U`
and every non-empty journal id `J` (the first truthy value among path, body and
query): when `diarios` has a row `(J, U)` the route continues with
`req.diarioId = J` and `req.userRole = 'owner'`, whether or not a
`diarios_compartidos` row for `(J, U)` exists; otherwise, when
`diarios_compartidos` has a row for `(J, U)`, it continues with
`req.diarioId = J` and the `rol` of such a row as `req.userRole`; otherwise the
response is 403 and the handler behind the middleware is not run (the result is
the same for every handler, and the world is untouched). -/
theorem checkDiarioAccess_resolves (db : Db) (req : Req) (U : Nat) (J : String)
    (hU : req.session.userId = some U) (hU0 : U ≠ 0) (hJ : J ≠ "")
    (hid : (req.params.diarioId.or req.body.diario_id).or req.query.diario_id = .str J) :
    ((∃ d ∈ db.diarios, d.id = J ∧ d.user_id = U) →
      checkDiarioAccess db req
        = ({ req with diarioId := .str J, userRole := .str "owner" }, .next)) ∧
    ((¬ ∃ d ∈ db.diarios, d.id = J ∧ d.user_id = U) →
      (∃ c ∈ db.diarios_compartidos, c.diario_id = J ∧ c.user_id = U) →
      ∃ c ∈ db.diarios_compartidos, c.diario_id = J ∧ c.user_id = U ∧
        checkDiarioAccess db req
          = ({ req with diarioId := .str J, userRole := .str c.rol }, .next)) ∧
    ((¬ ∃ d ∈ db.diarios, d.id = J ∧ d.user_id = U) →
      (¬ ∃ c ∈ db.diarios_compartidos, c.diario_id = J ∧ c.user_id = U) →
      checkDiarioAccess db req
          = (req, .sent ⟨403, .error "Acceso denegado al diario especificado."⟩) ∧
        ∀ (handler : Handler) (w : World) (env : Env), w.db = db →
          conAcceso handler w env req
            = responder w req 403 (.error "Acceso denegado al diario especificado.")) := by
  have hauth := autenticado_some hU hU0
  have htruthy := truthy_str hJ
  refine ⟨?_, ?_, ?_⟩
  · rintro ⟨d, hd, hdJ, hdU⟩
    have hsome : (db.diarios.find? (fun d => sqlTextEq d.id (.str J) && d.user_id == U)).isSome := by
      rw [List.find?_isSome]
      exact ⟨d, hd, by simp [sqlTextEq_str, hdJ, hdU]⟩
    obtain ⟨d1, hd1⟩ := Option.isSome_iff_exists.mp hsome
    simp only [checkDiarioAccess, hid, htruthy, hauth, hd1]
    rfl
  · intro hno ⟨c, hc, hcJ, hcU⟩
    have hnone : db.diarios.find? (fun d => sqlTextEq d.id (.str J) && d.user_id == U) = none := by
      rw [List.find?_eq_none]
      intro d hd hp
      simp [sqlTextEq_str] at hp
      exact hno ⟨d, hd, hp.1, hp.2⟩
    have hsome : (db.diarios_compartidos.find?
        (fun c => sqlTextEq c.diario_id (.str J) && c.user_id == U)).isSome := by
      rw [List.find?_isSome]
      exact ⟨c, hc, by simp [sqlTextEq_str, hcJ, hcU]⟩
    obtain ⟨c1, hc1⟩ := Option.isSome_iff_exists.mp hsome
    have hp := List.find?_some hc1
    simp [sqlTextEq_str] at hp
    refine ⟨c1, List.mem_of_find?_eq_some hc1, hp.1, hp.2, ?_⟩
    simp only [checkDiarioAccess, hid, htruthy, hauth, hnone, hc1]
    rfl
  · intro hno hnoc
    have hnone : db.diarios.find? (fun d => sqlTextEq d.id (.str J) && d.user_id == U) = none := by
      rw [List.find?_eq_none]
      intro d hd hp
      simp [sqlTextEq_str] at hp
      exact hno ⟨d, hd, hp.1, hp.2⟩
    have hnonec : db.diarios_compartidos.find?
        (fun c => sqlTextEq c.diario_id (.str J) && c.user_id == U) = none := by
      rw [List.find?_eq_none]
      intro c hc hp
      simp [sqlTextEq_str] at hp
      exact hnoc ⟨c, hc, hp.1, hp.2⟩
    have hres : checkDiarioAccess db req
        = (req, .sent ⟨403, .error "Acceso denegado al diario especificado."⟩) := by
      simp only [checkDiarioAccess, hid, htruthy, hauth, hnone, hnonec]
      rfl
    refine ⟨hres, ?_⟩
    intro handler w env hw
    subst hw
    simp only [conAcceso, hres, responder]

/-- Witness of C1 on the sample store: user 1 owns `j1`, user 2 holds the
shared role `lector`, and user 3 is turned away with 403. -/
theorem checkDiarioAccess_resolves_witness :
    checkDiarioAccess dbEjemplo (reqDe 1 "j1")
        = ({ reqDe 1 "j1" with diarioId := .str "j1", userRole := .str "owner" }, .next) ∧
      (∃ c ∈ dbEjemplo.diarios_compartidos, c.diario_id = "j1" ∧ c.user_id = 2 ∧
        checkDiarioAccess dbEjemplo (reqDe 2 "j1")
          = ({ reqDe 2 "j1" with diarioId := .str "j1", userRole := .str c.rol }, .next)) ∧
      conAcceso getEventoById mundoEjemplo {} (reqDe 3 "j1")
        = responder mundoEjemplo (reqDe 3 "j1") 403 (.error "Acceso denegado al diario especificado.") :=
  ⟨(checkDiarioAccess_resolves dbEjemplo (reqDe 1 "j1") 1 "j1" rfl (by decide) (by decide) rfl).1
      (by decide),
    (checkDiarioAccess_resolves dbEjemplo (reqDe 2 "j1") 2 "j1" rfl (by decide) (by decide) rfl).2.1
      (by decide) (by decide),
    ((checkDiarioAccess_resolves dbEjemplo (reqDe 3 "j1") 3 "j1" rfl (by decide) (by decide) rfl).2.2
      (by decide) (by decide)).2 getEventoById mundoEjemplo {} rfl⟩

/-! ## C2 and C3: the role guards come first -/

/-- C2: for every world, environment and request whose resolved role is neither
`'owner'` nor `'editor'` (for instance `'lector'`), each of `createEvento`,
`updateEvento`, `deleteEvento`, `updateRecuerdo`, `deleteRecuerdo`,
`updateDiario` and `getSharedUsers` answers 403 and returns the world (every
table and the filesystem) and the session exactly as they were, whatever the
body, the validation result and the ids of the request. -/
theorem write_guard_forbids (w : World) (env : Env) (req : Req)
    (hOwner : req.userRole ≠ .str "owner") (hEditor : req.userRole ≠ .str "editor") :
    ∀ h ∈ ([createEvento, updateEvento, deleteEvento, updateRecuerdo, deleteRecuerdo,
        updateDiario, getSharedUsers] : List Handler),
      (h w env req).world = w ∧ (h w env req).session = req.session ∧
        ∃ msg, (h w env req).out = .sent ⟨403, .error msg⟩ := by
  intro h hh
  simp only [List.mem_cons, List.mem_singleton, List.not_mem_nil, or_false] at hh
  rcases hh with rfl | rfl | rfl | rfl | rfl | rfl | rfl <;>
    simp [createEvento, updateEvento, deleteEvento, updateRecuerdo, deleteRecuerdo, updateDiario,
      getSharedUsers, responder, hOwner, hEditor]

/-- Witness of C2: user 2, who holds `lector` on `j1`, asks to delete event 1. -/
theorem write_guard_forbids_witness :
    (deleteEvento mundoEjemplo {}
        { reqDe 2 "j1" with diarioId := .str "j1", userRole := .str "lector" }).world = mundoEjemplo ∧
      (deleteEvento mundoEjemplo {}
        { reqDe 2 "j1" with diarioId := .str "j1", userRole := .str "lector" }).session
          = (reqDe 2 "j1").session ∧
      ∃ msg, (deleteEvento mundoEjemplo {}
        { reqDe 2 "j1" with diarioId := .str "j1", userRole := .str "lector" }).out
          = .sent ⟨403, .error msg⟩ :=
  write_guard_forbids mundoEjemplo {}
    { reqDe 2 "j1" with diarioId := .str "j1", userRole := .str "lector" }
    (by decide) (by decide) deleteEvento (by simp)

/-- C3: for every world, environment and request whose resolved role is not
`'owner'` (for instance `'editor'` or `'lector'`), each of `deleteDiario`,
`shareDiario`, `unshareDiario` and `exportDiario` answers 403 and returns the
world (every table, every file and directory, so no staging directory either)
and the session, with its active journal, exactly as they were. -/
theorem owner_guard_forbids (w : World) (env : Env) (req : Req)
    (hOwner : req.userRole ≠ .str "owner") :
    ∀ h ∈ ([deleteDiario, shareDiario, unshareDiario, exportDiario] : List Handler),
      (h w env req).world = w ∧ (h w env req).session = req.session ∧
        ∃ msg, (h w env req).out = .sent ⟨403, .error msg⟩ := by
  intro h hh
  simp only [List.mem_cons, List.mem_singleton, List.not_mem_nil, or_false] at hh
  rcases hh with rfl | rfl | rfl | rfl <;>
    simp [deleteDiario, shareDiario, unshareDiario, exportDiario, responder, hOwner]

/-- Witness of C3: an editor asks to export the journal. -/
theorem owner_guard_forbids_witness :
    (exportDiario mundoEjemplo {}
        { reqDe 2 "j1" with diarioId := .str "j1", userRole := .str "editor" }).world = mundoEjemplo ∧
      (exportDiario mundoEjemplo {}
        { reqDe 2 "j1" with diarioId := .str "j1", userRole := .str "editor" }).session
          = (reqDe 2 "j1").session ∧
      ∃ msg, (exportDiario mundoEjemplo {}
        { reqDe 2 "j1" with diarioId := .str "j1", userRole := .str "editor" }).out
          = .sent ⟨403, .error msg⟩ :=
  owner_guard_forbids mundoEjemplo {}
    { reqDe 2 "j1" with diarioId := .str "j1", userRole := .str "editor" }
    (by decide) exportDiario (by simp)

/-! ## C5: reads by id are scoped to the journal -/

/-- C5: `getEventoById` and `getRecuerdoById`, for every world, every request
(whatever its resolved role), every journal `J` bound to the request and every
id parameter whose comparison with the row ids is exact (`numeralExacto`: any
text that is no numeral, any numeral written as an integer, and the numerals
written as reals up to 15 significant digits): when a row with that id and
`diario_id = J` exists, the response is 200 and carries such a row of the
table; when none exists, the response is 404 with the fixed error body, so an
id that only belongs to rows of other journals yields 404 and nothing of those
rows. -/
theorem getById_scoped (w : World) (env : Env) (req : Req) (J : String)
    (hJ : req.diarioId = .str J) (_hexacto : numeralExacto req.params.id = true) :
    (((∃ e ∈ w.db.eventos, sqlIntEq e.id req.params.id = true ∧ e.diario_id = J) →
        ∃ e ∈ w.db.eventos, sqlIntEq e.id req.params.id = true ∧ e.diario_id = J ∧
          getEventoById w env req = responder w req 200 (.evento e)) ∧
      ((¬ ∃ e ∈ w.db.eventos, sqlIntEq e.id req.params.id = true ∧ e.diario_id = J) →
        getEventoById w env req = responder w req 404 (.error "Evento no encontrado."))) ∧
    (((∃ r ∈ w.db.recuerdos, sqlIntEq r.id req.params.id = true ∧ r.diario_id = J) →
        ∃ r ∈ w.db.recuerdos, sqlIntEq r.id req.params.id = true ∧ r.diario_id = J ∧
          getRecuerdoById w env req = responder w req 200 (.recuerdo r)) ∧
      ((¬ ∃ r ∈ w.db.recuerdos, sqlIntEq r.id req.params.id = true ∧ r.diario_id = J) →
        getRecuerdoById w env req = responder w req 404 (.error "Recuerdo no encontrado."))) := by
  refine ⟨⟨?_, ?_⟩, ⟨?_, ?_⟩⟩
  · rintro ⟨e, he, hid, hd⟩
    have hsome : (w.db.eventos.find? (esEvento req)).isSome := by
      rw [List.find?_isSome]
      exact ⟨e, he, by simp [esEvento, hid, hJ, sqlTextEq_str, hd]⟩
    obtain ⟨e1, he1⟩ := Option.isSome_iff_exists.mp hsome
    have hp := List.find?_some he1
    simp only [esEvento, hJ, Bool.and_eq_true, sqlTextEq_str] at hp
    exact ⟨e1, List.mem_of_find?_eq_some he1, hp.1, hp.2, by simp [getEventoById, he1]⟩
  · intro hno
    have hnone : w.db.eventos.find? (esEvento req) = none := by
      rw [List.find?_eq_none]
      intro e he hp
      simp only [esEvento, hJ, Bool.and_eq_true, sqlTextEq_str] at hp
      exact hno ⟨e, he, hp.1, hp.2⟩
    simp [getEventoById, hnone]
  · rintro ⟨r, hr, hid, hd⟩
    have hsome : (w.db.recuerdos.find? (esRecuerdo req)).isSome := by
      rw [List.find?_isSome]
      exact ⟨r, hr, by simp [esRecuerdo, hid, hJ, sqlTextEq_str, hd]⟩
    obtain ⟨r1, hr1⟩ := Option.isSome_iff_exists.mp hsome
    have hp := List.find?_some hr1
    simp only [esRecuerdo, hJ, Bool.and_eq_true, sqlTextEq_str] at hp
    exact ⟨r1, List.mem_of_find?_eq_some hr1, hp.1, hp.2, by simp [getRecuerdoById, hr1]⟩
  · intro hno
    have hnone : w.db.recuerdos.find? (esRecuerdo req) = none := by
      rw [List.find?_eq_none]
      intro r hr hp
      simp only [esRecuerdo, hJ, Bool.and_eq_true, sqlTextEq_str] at hp
      exact hno ⟨r, hr, hp.1, hp.2⟩
    simp [getRecuerdoById, hnone]

/-- Witness of C5: event 1 read under journal `j1` is returned, also when the
id is written `1.0`; read under another journal `j2` the same id yields
404. -/
theorem getById_scoped_witness :
    (∃ e ∈ mundoEjemplo.db.eventos, sqlIntEq e.id "1" = true ∧ e.diario_id = "j1" ∧
        getEventoById mundoEjemplo {}
            { reqDe 2 "j1" with params := { diarioId := .str "j1", id := "1" }, diarioId := .str "j1" }
          = responder mundoEjemplo
            { reqDe 2 "j1" with params := { diarioId := .str "j1", id := "1" }, diarioId := .str "j1" }
            200 (.evento e)) ∧
      (∃ e ∈ mundoEjemplo.db.eventos, sqlIntEq e.id "1.0" = true ∧ e.diario_id = "j1" ∧
        getEventoById mundoEjemplo {}
            { reqDe 2 "j1" with params := { diarioId := .str "j1", id := "1.0" }, diarioId := .str "j1" }
          = responder mundoEjemplo
            { reqDe 2 "j1" with params := { diarioId := .str "j1", id := "1.0" }, diarioId := .str "j1" }
            200 (.evento e)) ∧
      getEventoById mundoEjemplo {}
          { reqDe 2 "j2" with params := { diarioId := .str "j2", id := "1" }, diarioId := .str "j2" }
        = responder mundoEjemplo
          { reqDe 2 "j2" with params := { diarioId := .str "j2", id := "1" }, diarioId := .str "j2" }
          404 (.error "Evento no encontrado.") :=
  ⟨(getById_scoped mundoEjemplo {}
      { reqDe 2 "j1" with params := { diarioId := .str "j1", id := "1" }, diarioId := .str "j1" }
      "j1" rfl (by decide)).1.1 (by decide),
    (getById_scoped mundoEjemplo {}
      { reqDe 2 "j1" with params := { diarioId := .str "j1", id := "1.0" }, diarioId := .str "j1" }
      "j1" rfl (by decide)).1.1 (by decide),
    (getById_scoped mundoEjemplo {}
      { reqDe 2 "j2" with params := { diarioId := .str "j2", id := "1" }, diarioId := .str "j2" }
      "j2" rfl (by decide)).1.2 (by decide)⟩

/-! ## C4: an upload by a reader -/

/-- C4 (the code at the failing input): on the route `POST .../recuerdos`
(`checkDiarioAccess`, then `uploadRecuerdo.single('media')`, then
`createRecuerdo`) a requester whose role is `lector` gets 403 and no
`recuerdos` row is inserted, but the upload middleware, which runs before the
role check of the controller, has already stored the file under the journal's
media directory, and it stays there. -/
theorem upload_by_lector_leaves_file :
    (api .subirRecuerdo mundoEjemplo envSubida reqSubidaLector).out
        = .sent ⟨403, .error "No tienes permiso para subir recuerdos a este diario."⟩ ∧
      (api .subirRecuerdo mundoEjemplo envSubida reqSubidaLector).world.db = mundoEjemplo.db ∧
      ["public", "media", "diarios", "j1", "u1.jpg"] ∉ mundoEjemplo.fs.paths ∧
      ["public", "media", "diarios", "j1", "u1.jpg"]
        ∈ (api .subirRecuerdo mundoEjemplo envSubida reqSubidaLector).world.fs.paths := by
  decide

/-! ## C7: deleting a journal -/

/-- C7 (the code at the failing input): the owner deletes `j1` and gets the
success response; the `diarios` row and the media directory are gone, but the
`eventos`, `recuerdos` and `diarios_compartidos` rows of `j1` are all still in
the store, because the connection never enables foreign keys and the
`ON DELETE CASCADE` clauses of the schema do not fire; user 2, whose shared
row survives, still reads event 1 of the deleted journal with status 200. -/
theorem deleteDiario_leaves_dependents :
    (api .eliminarDiario mundoEjemplo {} (reqDe 1 "j1")).out
        = .sent ⟨200, .message "Diario eliminado con éxito."⟩ ∧
      (api .eliminarDiario mundoEjemplo {} (reqDe 1 "j1")).world.db.diarios = [] ∧
      ["public", "media", "diarios", "j1"]
        ∉ (api .eliminarDiario mundoEjemplo {} (reqDe 1 "j1")).world.fs.paths ∧
      (api .eliminarDiario mundoEjemplo {} (reqDe 1 "j1")).world.db.eventos
        = mundoEjemplo.db.eventos ∧
      (api .eliminarDiario mundoEjemplo {} (reqDe 1 "j1")).world.db.recuerdos
        = mundoEjemplo.db.recuerdos ∧
      (api .eliminarDiario mundoEjemplo {} (reqDe 1 "j1")).world.db.diarios_compartidos
        = mundoEjemplo.db.diarios_compartidos ∧
      (∃ e ∈ mundoEjemplo.db.eventos, e.diario_id = "j1" ∧
        (isAuthenticated (conAcceso getEventoById)
            (api .eliminarDiario mundoEjemplo {} (reqDe 1 "j1")).world {} reqLeerEvento).out
          = .sent ⟨200, .evento e⟩) := by
  decide

/-! ## C10: deleting a memory when a removal fails -/

/-- C10 (the code at the failing input): the owner deletes memory 1 while the
removal of its thumbnail is rejected.  The handler reports the failure (the
error goes to the error handler, which answers 500), the row and the thumbnail
are as before, but the media file, removed before the failure, is gone. -/
theorem deleteRecuerdo_partial_on_failure :
    (∃ e, (api .eliminarRecuerdo mundoEjemplo envMiniaturaBloqueada reqBorrarRecuerdo).out
        = .nextErr e ∧ (errorHandler envMiniaturaBloqueada e).status = 500) ∧
      (api .eliminarRecuerdo mundoEjemplo envMiniaturaBloqueada reqBorrarRecuerdo).world.db
        = mundoEjemplo.db ∧
      ["public", "media", "diarios", "j1", "thumbnails", "thumb-f2.webp"]
        ∈ (api .eliminarRecuerdo mundoEjemplo envMiniaturaBloqueada reqBorrarRecuerdo).world.fs.paths ∧
      ["public", "media", "diarios", "j1", "f1.jpg"] ∈ mundoEjemplo.fs.paths ∧
      ["public", "media", "diarios", "j1", "f1.jpg"]
        ∉ (api .eliminarRecuerdo mundoEjemplo envMiniaturaBloqueada reqBorrarRecuerdo).world.fs.paths := by
  refine ⟨⟨{ message := "EPERM: operation not permitted, unlink" }, ?_, ?_⟩, ?_, ?_, ?_, ?_⟩ <;>
    decide

/-! ## C9: deleting a memory when every removal succeeds -/

/-- The removals of `deleteRecuerdo` when none is rejected: both paths are
gone, nothing was created, and every path that is neither one of the two nor
below one of them exists exactly when it did. -/
theorem eliminarArchivos_ok (env : Env) (fs : Fs) (r : Recuerdo)
    (hok1 : pathJoin directories_public r.url ∉ env.removeFails)
    (hok2 : ∀ t, r.thumbnail_url = some t → pathJoin directories_public t ∉ env.removeFails) :
    ∃ fs1, eliminarArchivos env fs r = (none, fs1) ∧
      pathJoin directories_public r.url ∉ fs1.paths ∧
      (∀ t, r.thumbnail_url = some t → pathJoin directories_public t ∉ fs1.paths) ∧
      (∀ p, p ∈ fs1.paths → p ∈ fs.paths) ∧
      (∀ p, ¬ pathJoin directories_public r.url <+: p →
        (∀ t, r.thumbnail_url = some t → ¬ pathJoin directories_public t <+: p) →
        (p ∈ fs1.paths ↔ p ∈ fs.paths)) := by
  obtain ⟨fs1, h1, hgone1, hsub1, hsame1⟩ := guarded_remove env fs _ hok1
  cases ht : r.thumbnail_url with
  | none =>
    refine ⟨fs1, by simp [eliminarArchivos, h1, ht], hgone1, by simp, hsub1, ?_⟩
    intro p hp _
    exact hsame1 p hp
  | some t =>
    obtain ⟨fs2, h2, hgone2, hsub2, hsame2⟩ := guarded_remove env fs1 _ (hok2 t ht)
    refine ⟨fs2, by simp [eliminarArchivos, h1, ht, h2], ?_, ?_, ?_, ?_⟩
    · exact fun h => hgone1 (hsub2 _ h)
    · intro t1 ht1
      cases ht1
      exact hgone2
    · exact fun p hp => hsub1 p (hsub2 p hp)
    · intro p hp hpt
      rw [hsame2 p (hpt t rfl), hsame1 p hp]

/-- C9: `deleteRecuerdo` by an owner or editor, for an id whose row `r` exists
in the journal `J` of the request (`r` is the only row with its id, the
primary key), when no filesystem removal is rejected: the response is the
success response; afterwards the file at the row's `url` does not exist, the
file at `thumbnail_url` (when the row has one) does not exist, and the row is
gone; every other `recuerdos` row, every other table and every other path
(neither one of the two files nor below them) is as before, and no path was
created; in particular, when the two paths are files (nothing exists below
them), every path other than the two exists exactly when it did. -/
theorem deleteRecuerdo_removes (w : World) (env : Env) (req : Req) (J : String) (r : Recuerdo)
    (hrole : req.userRole = .str "owner" ∨ req.userRole = .str "editor")
    (hJ : req.diarioId = .str J)
    (hr : r ∈ w.db.recuerdos) (hid : sqlIntEq r.id req.params.id = true) (hrJ : r.diario_id = J)
    (hpk : ∀ r1 ∈ w.db.recuerdos, r1.id = r.id → r1 = r)
    (hok1 : pathJoin directories_public r.url ∉ env.removeFails)
    (hok2 : ∀ t, r.thumbnail_url = some t → pathJoin directories_public t ∉ env.removeFails) :
    (deleteRecuerdo w env req).out = .sent ⟨200, .message "Recuerdo eliminado con éxito."⟩ ∧
      pathJoin directories_public r.url ∉ (deleteRecuerdo w env req).world.fs.paths ∧
      (∀ t, r.thumbnail_url = some t →
        pathJoin directories_public t ∉ (deleteRecuerdo w env req).world.fs.paths) ∧
      r ∉ (deleteRecuerdo w env req).world.db.recuerdos ∧
      (deleteRecuerdo w env req).world.db
        = { w.db with recuerdos := w.db.recuerdos.filter (fun r1 => decide (r1 ≠ r)) } ∧
      (∀ p, p ∈ (deleteRecuerdo w env req).world.fs.paths → p ∈ w.fs.paths) ∧
      (∀ p, ¬ pathJoin directories_public r.url <+: p →
        (∀ t, r.thumbnail_url = some t → ¬ pathJoin directories_public t <+: p) →
        (p ∈ (deleteRecuerdo w env req).world.fs.paths ↔ p ∈ w.fs.paths)) ∧
      ((∀ q ∈ w.fs.paths, pathJoin directories_public r.url <+: q →
          q = pathJoin directories_public r.url) →
        (∀ t, r.thumbnail_url = some t → ∀ q ∈ w.fs.paths,
          pathJoin directories_public t <+: q → q = pathJoin directories_public t) →
        ∀ p, p ≠ pathJoin directories_public r.url →
          (∀ t, r.thumbnail_url = some t → p ≠ pathJoin directories_public t) →
          (p ∈ (deleteRecuerdo w env req).world.fs.paths ↔ p ∈ w.fs.paths)) := by
  have hmatch : ∀ r1 ∈ w.db.recuerdos, esRecuerdo req r1 = true ↔ r1 = r := by
    intro r1 hr1
    constructor
    · intro h
      simp only [esRecuerdo, sqlIntEq, Bool.and_eq_true, beq_iff_eq] at h hid
      exact hpk r1 hr1 (Option.some.inj (h.1.symm.trans hid))
    · rintro rfl
      simp [esRecuerdo, hid, hJ, sqlTextEq_str, hrJ]
  have hfind : w.db.recuerdos.find? (esRecuerdo req) = some r :=
    find?_of_unique _ _ r hr ((hmatch r hr).mpr rfl) (fun b hb hp => (hmatch b hb).mp hp)
  have hguard : (req.userRole != .str "owner" && req.userRole != .str "editor") = false := by
    rcases hrole with h | h <;> simp [h]
  obtain ⟨fs1, hfs, hgone1, hgone2, hsub, hsame⟩ := eliminarArchivos_ok env w.fs r hok1 hok2
  have hfilter : w.db.recuerdos.filter (fun r1 => !esRecuerdo req r1)
      = w.db.recuerdos.filter (fun r1 => decide (r1 ≠ r)) := by
    apply List.filter_congr
    intro r1 hr1
    by_cases h : r1 = r
    · simp [h, (hmatch r hr).mpr rfl]
    · have : esRecuerdo req r1 = false := by
        cases hc : esRecuerdo req r1
        · rfl
        · exact absurd ((hmatch r1 hr1).mp hc) h
      simp [h, this]
  have hchanges : (w.db.recuerdos.filter (esRecuerdo req)).length ≠ 0 := by
    have : r ∈ w.db.recuerdos.filter (esRecuerdo req) :=
      List.mem_filter.mpr ⟨hr, (hmatch r hr).mpr rfl⟩
    intro h0
    rw [List.length_eq_zero] at h0
    rw [h0] at this
    exact absurd this (List.not_mem_nil _)
  have hres : deleteRecuerdo w env req
      = responder { db := { w.db with recuerdos := w.db.recuerdos.filter (fun r1 => decide (r1 ≠ r)) },
                    fs := fs1 } req 200 (.message "Recuerdo eliminado con éxito.") := by
    simp only [deleteRecuerdo, hguard, hfind, hfs, deleteWhere, hfilter]
    simp [hchanges]
  rw [hres]
  refine ⟨rfl, hgone1, hgone2, ?_, rfl, hsub, hsame, ?_⟩
  · simp [responder, List.mem_filter]
  · intro hleaf1 hleaf2 p hp1 hp2
    by_cases hb1 : pathJoin directories_public r.url <+: p
    · have hnot : p ∉ w.fs.paths := fun hin => hp1 (hleaf1 p hin hb1)
      exact ⟨fun hin => absurd (hsub p hin) hnot, fun hin => absurd hin hnot⟩
    · by_cases hb2 : ∀ t, r.thumbnail_url = some t → ¬ pathJoin directories_public t <+: p
      · exact hsame p hb1 hb2
      · simp only [not_forall, Classical.not_not] at hb2
        obtain ⟨t, ht, hbt⟩ := hb2
        have hnot : p ∉ w.fs.paths := fun hin => hp2 t ht (hleaf2 t ht p hin hbt)
        exact ⟨fun hin => absurd (hsub p hin) hnot, fun hin => absurd hin hnot⟩

/-- Witness of C9: the owner deletes memory 1 of the sample world; the success
response goes out and the photo is no longer on disk. -/
theorem deleteRecuerdo_removes_witness :
    (deleteRecuerdo mundoEjemplo {} reqBorrarRecuerdoOwner).out
        = .sent ⟨200, .message "Recuerdo eliminado con éxito."⟩ ∧
      pathJoin directories_public recuerdoEjemplo.url
        ∉ (deleteRecuerdo mundoEjemplo {} reqBorrarRecuerdoOwner).world.fs.paths ∧
      recuerdoEjemplo ∉ (deleteRecuerdo mundoEjemplo {} reqBorrarRecuerdoOwner).world.db.recuerdos :=
  ⟨(deleteRecuerdo_removes mundoEjemplo {} reqBorrarRecuerdoOwner "j1" recuerdoEjemplo
      (Or.inl rfl) rfl (by decide) (by decide) rfl (by decide) (by decide)
      (fun _ _ => List.not_mem_nil _)).1,
    (deleteRecuerdo_removes mundoEjemplo {} reqBorrarRecuerdoOwner "j1" recuerdoEjemplo
      (Or.inl rfl) rfl (by decide) (by decide) rfl (by decide) (by decide)
      (fun _ _ => List.not_mem_nil _)).2.1,
    (deleteRecuerdo_removes mundoEjemplo {} reqBorrarRecuerdoOwner "j1" recuerdoEjemplo
      (Or.inl rfl) rfl (by decide) (by decide) rfl (by decide) (by decide)
      (fun _ _ => List.not_mem_nil _)).2.2.2.1⟩

/-! ## C8: sharing twice -/

theorem filter_key_replace (l : List Compartido) (row : Compartido) :
    (l.filter (fun c => !(c.diario_id == row.diario_id && c.user_id == row.user_id)) ++ [row]).filter
        (fun c => c.diario_id == row.diario_id && c.user_id == row.user_id) = [row] := by
  simp [List.filter_append, List.filter_filter]

theorem filter_others_replace (l : List Compartido) (row : Compartido) :
    (l.filter (fun c => !(c.diario_id == row.diario_id && c.user_id == row.user_id)) ++ [row]).filter
        (fun c => !(c.diario_id == row.diario_id && c.user_id == row.user_id))
      = l.filter (fun c => !(c.diario_id == row.diario_id && c.user_id == row.user_id)) := by
  simp [List.filter_append, List.filter_filter]

/-- C8: `shareDiario` called twice on the route `POST /:diarioId/share` by the
owner `U` of journal `J`, with the same invitee (the user `u` the email
resolves to, another user than `U`), first with role `r1` and then with role
`r2`: both calls answer with the success response; afterwards
`diarios_compartidos` holds exactly one row for `(J, u)` and its `rol` is
`r2`; the rows of every other (journal, user) pair are, after each of the two
calls, the same rows in the same order as before. -/
theorem shareDiario_twice (w : World) (env1 env2 : Env) (req1 req2 : Req) (U : Nat)
    (J email r1 r2 : String) (u : Usuario)
    (hU1 : req1.session.userId = some U) (hU2 : req2.session.userId = some U) (hU0 : U ≠ 0)
    (hJ : J ≠ "")
    (hp1 : req1.params.diarioId = .str J) (hp2 : req2.params.diarioId = .str J)
    (howner : ∃ d ∈ w.db.diarios, d.id = J ∧ d.user_id = U)
    (he1 : req1.body.email_invitado = some email) (he2 : req2.body.email_invitado = some email)
    (hvalid1 : env1.isEmail email = true) (hvalid2 : env2.isEmail email = true)
    (hr1 : req1.body.rol_asignado = .texto r1) (hr1v : r1 = "editor" ∨ r1 = "lector")
    (hr2 : req2.body.rol_asignado = .texto r2) (hr2v : r2 = "editor" ∨ r2 = "lector")
    (hinv : w.db.usuarios.find? (fun u => some u.email == some email) = some u)
    (hne : u.id ≠ U) :
    (api .share w env1 req1).out
        = .sent ⟨200, .message "Diario compartido/rol actualizado con éxito."⟩ ∧
      (api .share (api .share w env1 req1).world env2 req2).out
        = .sent ⟨200, .message "Diario compartido/rol actualizado con éxito."⟩ ∧
      (api .share (api .share w env1 req1).world env2 req2).world.db.diarios_compartidos.filter
          (fun c => c.diario_id == J && c.user_id == u.id)
        = [{ diario_id := J, user_id := u.id, rol := r2, fecha_compartido := env2.now }] ∧
      (api .share w env1 req1).world.db.diarios_compartidos.filter
          (fun c => !(c.diario_id == J && c.user_id == u.id))
        = w.db.diarios_compartidos.filter (fun c => !(c.diario_id == J && c.user_id == u.id)) ∧
      (api .share (api .share w env1 req1).world env2 req2).world.db.diarios_compartidos.filter
          (fun c => !(c.diario_id == J && c.user_id == u.id))
        = w.db.diarios_compartidos.filter (fun c => !(c.diario_id == J && c.user_id == u.id)) := by
  have h1 := api_share_ok w env1 req1 U J email r1 u hU1 hU0 hJ hp1 howner he1 hvalid1 hr1 hr1v
    hinv hne
  have h2 := api_share_ok (api .share w env1 req1).world env2 req2 U J email r2 u hU2 hU0 hJ hp2
    (by rw [h1]; exact howner) he2 hvalid2 hr2 hr2v (by rw [h1]; exact hinv) hne
  have hk1 := filter_key_replace w.db.diarios_compartidos
    { diario_id := J, user_id := u.id, rol := r1, fecha_compartido := env1.now }
  have ho1 := filter_others_replace w.db.diarios_compartidos
    { diario_id := J, user_id := u.id, rol := r1, fecha_compartido := env1.now }
  have hk2 := filter_key_replace (api .share w env1 req1).world.db.diarios_compartidos
    { diario_id := J, user_id := u.id, rol := r2, fecha_compartido := env2.now }
  have ho2 := filter_others_replace (api .share w env1 req1).world.db.diarios_compartidos
    { diario_id := J, user_id := u.id, rol := r2, fecha_compartido := env2.now }
  have hmid : (api .share w env1 req1).world.db.diarios_compartidos.filter
      (fun c => !(c.diario_id == J && c.user_id == u.id))
      = w.db.diarios_compartidos.filter (fun c => !(c.diario_id == J && c.user_id == u.id)) := by
    rw [h1]
    exact ho1
  refine ⟨by rw [h1], by rw [h2], ?_, hmid, ?_⟩
  · rw [h2]
    exact hk2
  · rw [h2]
    exact ho2.trans hmid

/-- Witness of C8: the owner of `j1` shares it with Luis as `editor` and then
as `lector`; one row for `(j1, 2)` is left, with `rol` equal to `lector`. -/
theorem shareDiario_twice_witness :
    (api .share (api .share mundoEjemplo { now := 7 } (reqCompartir "luis@example.com" "editor")).world
          { now := 8 } (reqCompartir "luis@example.com" "lector")).world.db.diarios_compartidos.filter
        (fun c => c.diario_id == "j1" && c.user_id == 2)
      = [{ diario_id := "j1", user_id := 2, rol := "lector", fecha_compartido := 8 }] :=
  (shareDiario_twice mundoEjemplo { now := 7 } { now := 8 }
    (reqCompartir "luis@example.com" "editor") (reqCompartir "luis@example.com" "lector") 1
    "j1" "luis@example.com" "editor" "lector"
    usuarioLuis
    rfl rfl (by decide) (by decide) rfl rfl (by decide) rfl rfl (by decide) (by decide) rfl
    (Or.inl rfl) rfl (Or.inr rfl) (by decide) (by decide)).2.2.1

/-! ## C6: the sharing invariant holds in every reachable store -/

theorem Inv.mono {used used1 : List String} {db : Db} (h : Inv used db)
    (hsub : ∀ x ∈ used, x ∈ used1) : Inv used1 db :=
  { roles := h.roles, key := h.key, notOwner := h.notOwner, diarioKey := h.diarioKey
    issued := fun d hd => hsub _ (h.issued d hd)
    issuedShared := fun c hc => hsub _ (h.issuedShared c hc) }

theorem Inv.of_eq {used : List String} {db db1 : Db} (h : Inv used db)
    (hd : db1.diarios = db.diarios) (hc : db1.diarios_compartidos = db.diarios_compartidos) :
    Inv used db1 := by
  constructor
  · rw [hc]; exact h.roles
  · rw [hc]; exact h.key
  · rw [hc, hd]; exact h.notOwner
  · rw [hd]; exact h.diarioKey
  · rw [hd]; exact h.issued
  · rw [hc]; exact h.issuedShared

theorem Keeps.isAuthenticated {h : Handler} (hk : Keeps h) : Keeps (isAuthenticated h) := by
  intro w env req
  unfold Diario.isAuthenticated
  split
  · exact hk w env req
  · exact ⟨rfl, rfl⟩

theorem Keeps.conAcceso {h : Handler} (hk : Keeps h) : Keeps (conAcceso h) := by
  intro w env req
  unfold Diario.conAcceso
  split
  · exact hk w env _
  · exact ⟨rfl, rfl⟩

theorem Keeps.conValidacion {h : Handler} (v : Req → Req) (hk : Keeps h) :
    Keeps (conValidacion v h) := fun w env req => hk w env (v req)

theorem Keeps.conValidador {h : Handler} (v : Env → Req → Req) (hk : Keeps h) :
    Keeps (conValidador v h) := fun w env req => hk w env (v env req)

theorem uploadRecuerdo_db (w : World) (env : Env) (req : Req) :
    (uploadRecuerdo w env req).1.db = w.db := by
  unfold uploadRecuerdo
  repeat' split
  all_goals rfl

theorem Keeps.conUpload {h : Handler} (hk : Keeps h) : Keeps (conUpload h) := by
  intro w env req
  have hdb := uploadRecuerdo_db w env req
  unfold Diario.conUpload
  split
  next w1 req1 heq =>
    rw [heq] at hdb
    have := hk w1 env req1
    simp only at hdb
    rw [hdb] at this
    exact this
  next w1 _ out _ heq =>
    rw [heq] at hdb
    simp only at hdb
    simp [hdb]

theorem Keeps.isAdmin {h : Handler} (hk : Keeps h) : Keeps (isAdmin h) := by
  intro w env req
  unfold Diario.isAdmin
  repeat' split
  all_goals first | exact hk w env req | exact ⟨rfl, rfl⟩

theorem insertEvento_keeps {db db1 : Db} {now : Nat} {v : JsVal} {b : Body} {id : Nat}
    (h : insertEvento db now v b = .ok (db1, id)) :
    db1.diarios = db.diarios ∧ db1.diarios_compartidos = db.diarios_compartidos := by
  unfold insertEvento at h
  split at h
  · split at h
    · cases h
    · cases h
      exact ⟨rfl, rfl⟩
  all_goals cases h

theorem createEvento_keeps : Keeps createEvento := by
  intro w env req
  unfold createEvento
  split
  · exact ⟨rfl, rfl⟩
  · split
    · exact ⟨rfl, rfl⟩
    · split
      next db1 id heq => exact insertEvento_keeps heq
      next => exact ⟨rfl, rfl⟩

theorem updateEventoRows_keeps {db db1 : Db} {req : Req} {n : Nat}
    (h : updateEventoRows db req = .ok (db1, n)) :
    db1.diarios = db.diarios ∧ db1.diarios_compartidos = db.diarios_compartidos := by
  unfold updateEventoRows at h
  simp only at h
  split at h
  · cases h
    exact ⟨rfl, rfl⟩
  · split at h
    · cases h
      exact ⟨rfl, rfl⟩
    all_goals cases h

theorem updateEvento_keeps : Keeps updateEvento := by
  intro w env req
  unfold updateEvento
  split
  · exact ⟨rfl, rfl⟩
  · split
    · exact ⟨rfl, rfl⟩
    · split
      next db1 n heq =>
        split <;> exact updateEventoRows_keeps heq
      next => exact ⟨rfl, rfl⟩

theorem deleteEvento_keeps : Keeps deleteEvento := by
  intro w env req
  unfold deleteEvento
  split
  · exact ⟨rfl, rfl⟩
  · simp only [deleteWhere]
    split <;> exact ⟨rfl, rfl⟩

theorem insertRecuerdo_keeps {db db1 : Db} {now : Nat} {v : JsVal} {tipo : String} {url : Path}
    {t : Option Path} {b : Body} {id : Nat}
    (h : insertRecuerdo db now v tipo url t b = .ok (db1, id)) :
    db1.diarios = db.diarios ∧ db1.diarios_compartidos = db.diarios_compartidos := by
  unfold insertRecuerdo at h
  split at h
  · split at h
    · cases h
    · cases h
      exact ⟨rfl, rfl⟩
  · cases h
  · cases h

theorem createRecuerdo_keeps : Keeps createRecuerdo := by
  intro w env req
  unfold createRecuerdo
  split
  · exact ⟨rfl, rfl⟩
  · split
    · exact ⟨rfl, rfl⟩
    · simp only
      split
      · exact ⟨rfl, rfl⟩
      · split
        · exact ⟨rfl, rfl⟩
        next db1 id heq => exact insertRecuerdo_keeps heq

theorem updateRecuerdoRows_keeps {db db1 : Db} {req : Req} {n : Nat}
    (h : updateRecuerdoRows db req = .ok (db1, n)) :
    db1.diarios = db.diarios ∧ db1.diarios_compartidos = db.diarios_compartidos := by
  unfold updateRecuerdoRows at h
  simp only at h
  split at h
  · cases h
    exact ⟨rfl, rfl⟩
  · split at h
    · cases h
      exact ⟨rfl, rfl⟩
    · cases h

theorem updateRecuerdo_keeps : Keeps updateRecuerdo := by
  intro w env req
  unfold updateRecuerdo
  split
  · exact ⟨rfl, rfl⟩
  · split
    next db1 n heq =>
      split <;> exact updateRecuerdoRows_keeps heq
    next => exact ⟨rfl, rfl⟩

theorem deleteRecuerdo_keeps : Keeps deleteRecuerdo := by
  intro w env req
  unfold deleteRecuerdo
  split
  · exact ⟨rfl, rfl⟩
  · split
    · exact ⟨rfl, rfl⟩
    · split
      · exact ⟨rfl, rfl⟩
      · simp only [deleteWhere]
        split <;> exact ⟨rfl, rfl⟩

theorem exportDiario_keeps : Keeps exportDiario := by
  intro w env req
  unfold exportDiario
  split
  · exact ⟨rfl, rfl⟩
  · simp only
    split
    · split <;> exact ⟨rfl, rfl⟩
    · exact ⟨rfl, rfl⟩

theorem setActiveDiario_keeps : Keeps setActiveDiario := fun _ _ _ => ⟨rfl, rfl⟩

theorem registerUser_keeps : Keeps registerUser := by
  intro w env req
  unfold registerUser
  repeat' split
  all_goals exact ⟨rfl, rfl⟩

theorem updateUserConfig_keeps : Keeps updateUserConfig := by
  intro w env req
  unfold updateUserConfig
  simp only
  split <;> exact ⟨rfl, rfl⟩

theorem updateSiteSettings_keeps : Keeps updateSiteSettings := by
  intro w env req
  unfold updateSiteSettings
  repeat' split
  all_goals exact ⟨rfl, rfl⟩

theorem Inv.sublist {used : List String} {db db1 : Db} (h : Inv used db)
    (hd : db1.diarios.Sublist db.diarios)
    (hc : db1.diarios_compartidos.Sublist db.diarios_compartidos) : Inv used db1 :=
  { roles := fun c hc1 => h.roles c (hc.subset hc1)
    key := h.key.sublist hc
    notOwner := fun c hc1 d hd1 => h.notOwner c (hc.subset hc1) d (hd.subset hd1)
    diarioKey := h.diarioKey.sublist hd
    issued := fun d hd1 => h.issued d (hd.subset hd1)
    issuedShared := fun c hc1 => h.issuedShared c (hc.subset hc1) }

theorem autenticado_userId {s : Session} {u : Nat} (h : s.autenticado = some u) :
    s.userId = some u := by
  unfold Session.autenticado at h
  split at h
  · split at h
    · cases h
      assumption
    · cases h
  · cases h

theorem checkDiarioAccess_next {used : List String} {db : Db} {req req1 : Req}
    (hinv : Inv used db) (h : checkDiarioAccess db req = (req1, .next)) :
    OwnerChecked db req1 := by
  unfold checkDiarioAccess at h
  simp only at h
  split at h
  · cases h
  · split at h
    · cases h
    next userId hauth =>
      split at h
      next d hd =>
        cases h
        intro _
        have hp := List.find?_some hd
        simp only [Bool.and_eq_true, beq_iff_eq] at hp
        exact ⟨d, List.mem_of_find?_eq_some hd, hp.1, by rw [autenticado_userId hauth, hp.2]⟩
      next =>
        split at h
        next c hc =>
          cases h
          intro hrole
          have hrol := hinv.roles c (List.mem_of_find?_eq_some hc)
          simp only [JsVal.str.injEq] at hrole
          rw [hrole] at hrol
          rcases hrol with h1 | h1 <;> exact absurd h1 (by decide)
        next => cases h

/-- A route `checkDiarioAccess, handler` keeps the invariant when the handler
does so on requests for which the owner role was really established. -/
theorem conAcceso_inv {h : Handler} {used used1 : List String} (w : World) (env : Env)
    (req : Req) (hinv : Inv used w.db) (hw : Inv used1 w.db)
    (hh : ∀ req1, OwnerChecked w.db req1 → Inv used1 (h w env req1).world.db) :
    Inv used1 (conAcceso h w env req).world.db := by
  unfold conAcceso
  split
  next req1 heq => exact hh req1 (checkDiarioAccess_next hinv heq)
  next => exact hw

theorem isAuthenticated_inv {h : Handler} {used1 : List String} (w : World) (env : Env)
    (req : Req) (hw : Inv used1 w.db) (hh : Inv used1 (h w env req).world.db) :
    Inv used1 (isAuthenticated h w env req).world.db := by
  unfold isAuthenticated
  split
  · exact hh
  · exact hw

theorem Keeps.inv {h : Handler} (hk : Keeps h) {used : List String} (w : World) (env : Env)
    (req : Req) (hinv : Inv used w.db) : Inv used (h w env req).world.db :=
  hinv.of_eq (hk w env req).1 (hk w env req).2

theorem deleteDiario_inv {used : List String} (w : World) (env : Env) (req : Req)
    (hinv : Inv used w.db) : Inv used (deleteDiario w env req).world.db := by
  unfold deleteDiario
  split
  · exact hinv
  · split
    · exact hinv
    · split
      · exact hinv
      · simp only [deleteDiarioRows, deleteWhere]
        split
        · split
          · exact hinv
          · split
            · exact hinv
            · exact hinv.sublist (List.filter_sublist _) (List.filter_sublist _)
        · split
          · exact hinv
          · split
            · exact hinv
            · exact hinv.sublist (List.filter_sublist _) (List.Sublist.refl _)

theorem unshareDiario_inv {used : List String} (w : World) (env : Env) (req : Req)
    (hinv : Inv used w.db) : Inv used (unshareDiario w env req).world.db := by
  unfold unshareDiario
  split
  · exact hinv
  · simp only [deleteWhere]
    split
    · exact hinv
    · exact hinv.sublist (List.Sublist.refl _) (List.filter_sublist _)

theorem insertDiario_inv {used : List String} {db db1 : Db} {now : Nat} {id : String}
    {u : Option Nat} {b : Body} (hinv : Inv used db) (hfresh : id ∉ used)
    (h : insertDiario db now id u b = .ok db1) : Inv (id :: used) db1 := by
  unfold insertDiario at h
  split at h
  next user_id nombre =>
    split at h
    · cases h
    · split at h
      · cases h
      · cases h
        have hnew : ∀ d ∈ db.diarios, d.id ≠ id := fun d hd he => hfresh (he ▸ hinv.issued d hd)
        constructor
        · exact hinv.roles
        · exact hinv.key
        · intro c hc d hd hdc
          simp only [List.mem_append, List.mem_singleton] at hd
          rcases hd with hd | rfl
          · exact hinv.notOwner c hc d hd hdc
          · have h1 : id = c.diario_id := hdc
            exact absurd (h1 ▸ hinv.issuedShared c hc) hfresh
        · simp only [List.pairwise_append, List.pairwise_singleton, List.mem_singleton,
            forall_eq, and_true]
          exact ⟨hinv.diarioKey, trivial, hnew⟩
        · intro d hd
          simp only [List.mem_append, List.mem_singleton] at hd
          rcases hd with hd | rfl
          · exact List.mem_cons_of_mem _ (hinv.issued d hd)
          · exact List.mem_cons_self _ _
        · exact fun c hc => List.mem_cons_of_mem _ (hinv.issuedShared c hc)
  all_goals cases h

theorem createDiario_inv {used : List String} (w : World) (env : Env) (req : Req)
    (hinv : Inv used w.db) (hfresh : env.uuid ∉ used) :
    Inv (env.uuid :: used) (createDiario w env req).world.db := by
  unfold createDiario
  split
  · exact hinv.mono (fun x hx => List.mem_cons_of_mem _ hx)
  · simp only
    split
    · exact hinv.mono (fun x hx => List.mem_cons_of_mem _ hx)
    next db1 heq => exact insertDiario_inv hinv hfresh heq

theorem updateDiarioRows_inv {used : List String} {db db1 : Db} {req : Req}
    (hinv : Inv used db) (h : updateDiarioRows db req = .ok db1) : Inv used db1 := by
  unfold updateDiarioRows at h
  split at h
  · cases h
    exact hinv
  · split at h
    next nombre _ =>
      cases h
      have hmem : ∀ d1 ∈ db.diarios.map (fun d =>
          if sqlTextEq d.id req.diarioId then
            { d with nombre_diario_personalizado := nombre
                     fecha_nacimiento_bebe := req.body.fecha_nacimiento_bebe
                     genero_bebe := req.body.genero_bebe }
          else d), ∃ d ∈ db.diarios, d1.id = d.id ∧ d1.user_id = d.user_id := by
        intro d1 hd1
        obtain ⟨d, hd, rfl⟩ := List.mem_map.mp hd1
        refine ⟨d, hd, ?_⟩
        split <;> exact ⟨rfl, rfl⟩
      constructor
      · exact hinv.roles
      · exact hinv.key
      · intro c hc d1 hd1 hdc
        obtain ⟨d, hd, hid, huid⟩ := hmem d1 hd1
        rw [huid]
        exact hinv.notOwner c hc d hd (hid ▸ hdc)
      · simp only [List.pairwise_map]
        refine hinv.diarioKey.imp ?_
        intro a b hab
        split <;> split <;> exact hab
      · intro d1 hd1
        obtain ⟨d, hd, hid, _⟩ := hmem d1 hd1
        rw [hid]
        exact hinv.issued d hd
      · exact hinv.issuedShared
    · cases h

theorem updateDiario_inv {used : List String} (w : World) (env : Env) (req : Req)
    (hinv : Inv used w.db) : Inv used (updateDiario w env req).world.db := by
  unfold updateDiario
  split
  · exact hinv
  · split
    · exact hinv
    · split
      next db1 heq => exact updateDiarioRows_inv hinv heq
      next => exact hinv

theorem eq_of_pairwise_ne {α β : Type} (f : α → β) {l : List α}
    (h : l.Pairwise (fun a b => f a ≠ f b)) {a b : α} (ha : a ∈ l) (hb : b ∈ l)
    (hab : f a = f b) : a = b := by
  induction l with
  | nil => cases ha
  | cons x xs ih =>
    rw [List.pairwise_cons] at h
    rcases List.mem_cons.mp ha with rfl | ha1
    · rcases List.mem_cons.mp hb with rfl | hb1
      · rfl
      · exact absurd hab (h.1 b hb1)
    · rcases List.mem_cons.mp hb with rfl | hb1
      · exact absurd hab.symm (h.1 a ha1)
      · exact ih h.2 ha1 hb1

theorem replaceCompartido_inv {used : List String} {db : Db} (row : Compartido)
    (hinv : Inv used db)
    (hrol : row.rol = "editor" ∨ row.rol = "lector" ∨ row.rol = "[object Object]")
    (hown : ∃ d0 ∈ db.diarios, d0.id = row.diario_id ∧ d0.user_id ≠ row.user_id) :
    Inv used (db.replaceCompartido row) := by
  obtain ⟨d0, hd0, hid0, hne0⟩ := hown
  have hsub : (db.diarios_compartidos.filter
      (fun c => !(c.diario_id == row.diario_id && c.user_id == row.user_id))).Sublist
      db.diarios_compartidos := List.filter_sublist _
  constructor
  · intro c hc
    simp only [Db.replaceCompartido, List.mem_append, List.mem_singleton] at hc
    rcases hc with hc | rfl
    · exact hinv.roles c (hsub.subset hc)
    · exact hrol
  · simp only [Db.replaceCompartido, List.pairwise_append, List.pairwise_singleton,
      List.mem_singleton, forall_eq, and_true]
    refine ⟨hinv.key.sublist hsub, trivial, ?_⟩
    intro a ha
    have hp := (List.mem_filter.mp ha).2
    simp only [Bool.not_eq_true', Bool.and_eq_false_iff, beq_eq_false_iff_ne, ne_eq] at hp
    rintro ⟨h1, h2⟩
    rcases hp with h | h
    · exact h h1
    · exact h h2
  · intro c hc d hd hdc
    simp only [Db.replaceCompartido, List.mem_append, List.mem_singleton] at hc
    rcases hc with hc | rfl
    · exact hinv.notOwner c (hsub.subset hc) d hd hdc
    · have : d = d0 := eq_of_pairwise_ne (fun x => x.id) hinv.diarioKey hd hd0 (hdc.trans hid0.symm)
      rw [this]
      exact hne0
  · exact hinv.diarioKey
  · exact hinv.issued
  · intro c hc
    simp only [Db.replaceCompartido, List.mem_append, List.mem_singleton] at hc
    rcases hc with hc | rfl
    · exact hinv.issuedShared c (hsub.subset hc)
    · exact hid0 ▸ hinv.issued d0 hd0

theorem shareDiario_inv {used : List String} (w : World) (env : Env) (req : Req)
    (hown : OwnerChecked w.db req)
    (hval : req.validation = [] → ∀ rol, req.body.rol_asignado.sql = some rol →
      rol = "editor" ∨ rol = "lector" ∨ rol = "[object Object]")
    (hinv : Inv used w.db) : Inv used (shareDiario w env req).world.db := by
  unfold shareDiario
  split
  · exact hinv
  next hguard =>
    have hrole : req.userRole = .str "owner" := by simpa using hguard
    obtain ⟨d0, hd0, hid0, hU⟩ := hown hrole
    split
    · exact hinv
    next hv =>
      have hvalid := hval (by simpa using hv)
      split
      · exact hinv
      next invitado _ =>
        split
        · exact hinv
        next hself =>
          split
          · exact hinv
          next db1 heq =>
            have hne : d0.user_id ≠ invitado.id := by
              intro he
              apply hself
              rw [hU, he]
              simp
            unfold upsertCompartido at heq
            split at heq
            next t rol ht hr =>
              split at heq
              · cases heq
              · cases heq
                have htid : d0.id = t := by
                  simp only [sqlTextEq, ht, beq_iff_eq, Option.some.injEq] at hid0
                  exact hid0.symm
                exact replaceCompartido_inv _ hinv (hvalid rol hr) ⟨d0, hd0, htid, hne⟩
            all_goals cases heq

theorem validarShare_spec (env : Env) (req : Req) :
    (validarShare env req).userRole = req.userRole ∧
      (validarShare env req).diarioId = req.diarioId ∧
      (validarShare env req).session = req.session ∧ (validarShare env req).body = req.body ∧
      ((validarShare env req).validation = [] → ∀ rol, req.body.rol_asignado.sql = some rol →
        rol = "editor" ∨ rol = "lector" ∨ rol = "[object Object]") := by
  unfold validarShare validar
  split <;> split <;> simp_all
  all_goals
    cases hr : req.body.rol_asignado <;> simp_all [Campo.todos, Campo.sql]
  all_goals
    intro _
    tauto

/-- Every route keeps the sharing invariant, given that the journal id drawn
by the request was never issued before. -/
theorem api_inv (r : Route) (w : World) (env : Env) (req : Req) {used : List String}
    (hinv : Inv used w.db) (hfresh : env.uuid ∉ used) :
    Inv (env.uuid :: env.uuid2 :: used) (api r w env req).world.db := by
  have hmono : ∀ x ∈ used, x ∈ env.uuid :: env.uuid2 :: used :=
    fun x hx => List.mem_cons_of_mem _ (List.mem_cons_of_mem _ hx)
  have hw := hinv.mono hmono
  cases r with
  | registro => exact ((Keeps.conValidador _ registerUser_keeps).inv w env _ hinv).mono hmono
  | crearDiario =>
    refine isAuthenticated_inv w env _ hw ?_
    refine (createDiario_inv w env _ hinv hfresh).mono ?_
    intro x hx
    rcases List.mem_cons.mp hx with rfl | hx
    · exact List.mem_cons_self _ _
    · exact hmono x hx
  | actualizarDiario =>
    refine isAuthenticated_inv w env _ hw (conAcceso_inv w env _ hinv hw ?_)
    exact fun req1 _ => updateDiario_inv w env _ hw
  | eliminarDiario =>
    refine isAuthenticated_inv w env _ hw (conAcceso_inv w env _ hinv hw ?_)
    exact fun req1 _ => deleteDiario_inv w env _ hw
  | setActive => exact ((setActiveDiario_keeps.conAcceso.isAuthenticated).inv w env _ hinv).mono hmono
  | share =>
    refine isAuthenticated_inv w env _ hw (conAcceso_inv w env _ hinv hw ?_)
    intro req1 hown
    obtain ⟨h1, h2, h3, _, h5⟩ := validarShare_spec env req1
    refine shareDiario_inv w env _ ?_ ?_ hw
    · intro hrole
      rw [h1] at hrole
      rw [h2, h3]
      exact hown hrole
    · intro hv
      obtain ⟨_, _, _, h4, _⟩ := validarShare_spec env req1
      rw [h4]
      exact h5 hv
  | unshare =>
    refine isAuthenticated_inv w env _ hw (conAcceso_inv w env _ hinv hw ?_)
    exact fun req1 _ => unshareDiario_inv w env _ hw
  | crearEvento =>
    exact (((Keeps.conValidador _ createEvento_keeps).conAcceso.isAuthenticated).inv w env _
      hinv).mono hmono
  | actualizarEvento =>
    exact (((Keeps.conValidador _ updateEvento_keeps).conAcceso.isAuthenticated).inv w env _
      hinv).mono hmono
  | eliminarEvento =>
    exact ((deleteEvento_keeps.conAcceso.isAuthenticated).inv w env _ hinv).mono hmono
  | subirRecuerdo =>
    exact ((createRecuerdo_keeps.conUpload.conAcceso.isAuthenticated).inv w env _ hinv).mono hmono
  | actualizarRecuerdo =>
    exact ((updateRecuerdo_keeps.conAcceso.isAuthenticated).inv w env _ hinv).mono hmono
  | eliminarRecuerdo =>
    exact ((deleteRecuerdo_keeps.conAcceso.isAuthenticated).inv w env _ hinv).mono hmono
  | exportar => exact ((exportDiario_keeps.conAcceso.isAuthenticated).inv w env _ hinv).mono hmono
  | configuracionUsuario =>
    exact ((updateUserConfig_keeps.isAuthenticated).inv w env _ hinv).mono hmono
  | configuracionSitio =>
    exact (((Keeps.conValidacion _ updateSiteSettings_keeps).isAdmin.isAuthenticated).inv w env _
      hinv).mono hmono

theorem reachable_inv {used : List String} {w : World} (h : Reachable used w) : Inv used w.db := by
  induction h with
  | init =>
    constructor <;> simp [initWorld, initDB]
  | step r env req _ hfresh _ _ ih => exact api_inv r _ env req ih hfresh

theorem length_filter_key_le_one {l : List Compartido}
    (h : l.Pairwise (fun a b => ¬ (a.diario_id = b.diario_id ∧ a.user_id = b.user_id)))
    (J : String) (U : Nat) :
    (l.filter (fun c => c.diario_id == J && c.user_id == U)).length ≤ 1 := by
  have hp : (l.filter (fun c => c.diario_id == J && c.user_id == U)).Pairwise
      (fun a b => ¬ (a.diario_id = b.diario_id ∧ a.user_id = b.user_id)) :=
    h.sublist (List.filter_sublist _)
  have hall : ∀ c ∈ l.filter (fun c => c.diario_id == J && c.user_id == U),
      c.diario_id = J ∧ c.user_id = U := by
    intro c hc
    simpa using (List.mem_filter.mp hc).2
  cases hl : l.filter (fun c => c.diario_id == J && c.user_id == U) with
  | nil => simp
  | cons a rest =>
    cases rest with
    | nil => simp
    | cons b rest1 =>
      rw [hl] at hp hall
      have ha := hall a (List.mem_cons_self _ _)
      have hb := hall b (List.mem_cons_of_mem _ (List.mem_cons_self _ _))
      rw [List.pairwise_cons] at hp
      exact absurd ⟨ha.1.trans hb.1.symm, ha.2.trans hb.2.symm⟩ (hp.1 b (List.mem_cons_self _ _))

theorem reachable_correr {used : List String} {w : World} (h : Reachable used w) :
    ∀ (guion : List (Route × Env × Req)),
      ((emitidos used guion).Nodup) → (∀ x ∈ guion, x.2.1.uuid ≠ x.2.1.uuid2) →
      used.Nodup → Reachable (emitidos used guion) (correr w guion) := by
  intro guion
  induction guion generalizing used w with
  | nil => exact fun _ _ _ => h
  | cons x rest ih =>
    obtain ⟨r, env, req⟩ := x
    intro hnodup hne hused
    have hsub : ∀ (l : List String) (g : List (Route × Env × Req)), l.Sublist (emitidos l g) := by
      intro l g
      induction g generalizing l with
      | nil => exact List.Sublist.refl _
      | cons y g1 ihg =>
        exact ((List.sublist_cons_self _ _).trans (List.sublist_cons_self _ _)).trans (ihg _)
    have hhead : (env.uuid :: env.uuid2 :: used).Nodup := hnodup.sublist (hsub _ rest)
    rw [List.nodup_cons, List.nodup_cons] at hhead
    have h1 : env.uuid ∉ used := fun hx => hhead.1 (List.mem_cons_of_mem _ hx)
    have h2 : env.uuid2 ∉ used := hhead.2.1
    have h3 : env.uuid ≠ env.uuid2 := hne _ (List.mem_cons_self _ _)
    have hnd : (env.uuid :: env.uuid2 :: used).Nodup :=
      List.nodup_cons.mpr ⟨hhead.1, List.nodup_cons.mpr ⟨hhead.2.1, hhead.2.2⟩⟩
    exact ih (Reachable.step r env req h h1 h2 h3) hnodup
      (fun y hy => hne y (List.mem_cons_of_mem _ hy)) hnd

/-- The sample world is reached from start-up by the requests of
`guionEjemplo`. -/
theorem mundoEjemplo_reachable : Reachable (emitidos [] guionEjemplo) mundoEjemplo := by
  have h := reachable_correr Reachable.init guionEjemplo (by decide) (by decide) (by decide)
  have he : correr initWorld guionEjemplo = mundoEjemplo := by decide
  rw [he] at h
  exact h

theorem checkDiarioAccess_role {used : List String} {db : Db} (hinv : Inv used db) (req : Req) :
    (∃ res, checkDiarioAccess db req = (req, .sent res)) ∨
      (∃ req1 role, checkDiarioAccess db req = (req1, .next) ∧ req1.userRole = .str role ∧
        (role = "owner" ∨ role = "editor" ∨ role = "lector" ∨ role = "[object Object]")) := by
  unfold checkDiarioAccess
  simp only
  split
  · exact Or.inl ⟨_, rfl⟩
  · split
    · exact Or.inl ⟨_, rfl⟩
    · split
      · exact Or.inr ⟨_, "owner", rfl, rfl, Or.inl rfl⟩
      · split
        next c hc =>
          refine Or.inr ⟨_, c.rol, rfl, rfl, Or.inr ?_⟩
          exact hinv.roles c (List.mem_of_find?_eq_some hc)
        next => exact Or.inl ⟨_, rfl⟩

/-- What does hold of the sharing tables in every world reachable from
start-up through the routes of the API (each request drawing journal ids
`uuidv4()` never returned before), for every journal `J` and user `U`:
`diarios_compartidos` holds at most one row for `(J, U)`; every `rol` in it is
`'editor'`, `'lector'` or the text `[object Object]`; no row names the owner
of its journal; and `checkDiarioAccess` either rejects the request or hands
it on with a role that is one of `owner`, `editor`, `lector` and
`[object Object]`. -/
theorem sharing_invariant (used : List String) (w : World) (h : Reachable used w) :
    (∀ (J : String) (U : Nat),
        (w.db.diarios_compartidos.filter
          (fun c => c.diario_id == J && c.user_id == U)).length ≤ 1) ∧
      (∀ c ∈ w.db.diarios_compartidos,
        c.rol = "editor" ∨ c.rol = "lector" ∨ c.rol = "[object Object]") ∧
      (∀ c ∈ w.db.diarios_compartidos, ∀ d ∈ w.db.diarios,
        d.id = c.diario_id → d.user_id ≠ c.user_id) ∧
      (∀ req : Req,
        (∃ res, checkDiarioAccess w.db req = (req, .sent res)) ∨
          (∃ req1 role, checkDiarioAccess w.db req = (req1, .next) ∧ req1.userRole = .str role ∧
            (role = "owner" ∨ role = "editor" ∨ role = "lector" ∨
              role = "[object Object]"))) := by
  have hinv := reachable_inv h
  exact ⟨length_filter_key_le_one hinv.key, hinv.roles, hinv.notOwner,
    checkDiarioAccess_role hinv⟩

/-- The sample world, reached by the requests of `guionEjemplo`, as an
instance of `sharing_invariant`. -/
theorem sharing_invariant_ejemplo :
    (∀ (J : String) (U : Nat),
        (mundoEjemplo.db.diarios_compartidos.filter
          (fun c => c.diario_id == J && c.user_id == U)).length ≤ 1) ∧
      (∀ c ∈ mundoEjemplo.db.diarios_compartidos,
        c.rol = "editor" ∨ c.rol = "lector" ∨ c.rol = "[object Object]") ∧
      (∀ c ∈ mundoEjemplo.db.diarios_compartidos, ∀ d ∈ mundoEjemplo.db.diarios,
        d.id = c.diario_id → d.user_id ≠ c.user_id) ∧
      (∀ req : Req,
        (∃ res, checkDiarioAccess mundoEjemplo.db req = (req, .sent res)) ∨
          (∃ req1 role, checkDiarioAccess mundoEjemplo.db req = (req1, .next) ∧
            req1.userRole = .str role ∧
            (role = "owner" ∨ role = "editor" ∨ role = "lector" ∨
              role = "[object Object]"))) :=
  sharing_invariant (emitidos [] guionEjemplo) mundoEjemplo mundoEjemplo_reachable

/-- C6 fails in a reachable world: after the requests of `guionEjemplo` the
owner of `j1` shares it with Luis and sends the role as the array
`["editor", "lector"]`.  The check `isIn` passes on each element, the array is
bound as the text `[object Object]`, and that text is the stored `rol`;
`checkDiarioAccess` then hands a request of Luis on with that role, which is
none of `owner`, `editor`, `lector`. -/
theorem sharing_invariant_array_role :
    Reachable (emitidos [] guionRolLista) (correr initWorld guionRolLista) ∧
      (correr initWorld guionRolLista).db.diarios_compartidos
        = [{ diario_id := "j1", user_id := 2, rol := "[object Object]", fecha_compartido := 7 }] ∧
      checkDiarioAccess (correr initWorld guionRolLista).db (reqDe 2 "j1")
        = ({ reqDe 2 "j1" with diarioId := .str "j1", userRole := .str "[object Object]" },
            .next) :=
  ⟨reachable_correr Reachable.init guionRolLista (by decide) (by decide) (by decide),
    by decide, by decide⟩

/-! ## The cascade the schema declares -/

/-- What `DELETE FROM diarios WHERE id = ?` does on a connection that enforces
foreign keys: no row of `diarios`, `diarios_compartidos`, `eventos` or
`recuerdos` for the journal is left. -/
theorem deleteDiarioRows_cascades (db : Db) (J : String) (hfk : db.foreign_keys = true) :
    (∀ d ∈ (deleteDiarioRows db (.str J)).1.diarios, d.id ≠ J) ∧
      (∀ c ∈ (deleteDiarioRows db (.str J)).1.diarios_compartidos, c.diario_id ≠ J) ∧
      (∀ e ∈ (deleteDiarioRows db (.str J)).1.eventos, e.diario_id ≠ J) ∧
      (∀ r ∈ (deleteDiarioRows db (.str J)).1.recuerdos, r.diario_id ≠ J) := by
  simp only [deleteDiarioRows, deleteWhere, hfk, if_true]
  refine ⟨?_, ?_, ?_, ?_⟩ <;>
    · intro x hx hJ
      have hp := (List.mem_filter.mp hx).2
      rw [hJ, Bool.not_eq_true', (sqlTextEq_str J J).mpr rfl] at hp
      exact absurd hp (by decide)

/-! ## C11, C12: deleting a memory that is not in the journal -/

theorem find?_none_of_absent {α : Type} (p : α → Bool) (l : List α)
    (h : ¬ ∃ a ∈ l, p a = true) : l.find? p = none := by
  rw [List.find?_eq_none]
  intro a ha hp
  exact h ⟨a, ha, hp⟩

theorem esRecuerdo_iff (req : Req) (J : String) (hJ : req.diarioId = .str J) (r : Recuerdo) :
    esRecuerdo req r = true ↔ sqlIntEq r.id req.params.id = true ∧ r.diario_id = J := by
  simp only [esRecuerdo, hJ, Bool.and_eq_true, sqlTextEq_str]

theorem esEvento_iff (req : Req) (J : String) (hJ : req.diarioId = .str J) (e : Evento) :
    esEvento req e = true ↔ sqlIntEq e.id req.params.id = true ∧ e.diario_id = J := by
  simp only [esEvento, hJ, Bool.and_eq_true, sqlTextEq_str]

/-- C11: `deleteRecuerdo` by an owner or editor, for an id that no `recuerdos`
row of the journal `J` of the request carries (no row has the id, or only rows
of other journals have it), the id being a text whose comparison with the row
ids is exact (`numeralExacto`): whatever the environment, the handler returns
the world exactly as it was (no path removed, no row of any table deleted) and
hands the not-found error to the error handler. -/
theorem deleteRecuerdo_absent (w : World) (env : Env) (req : Req) (J : String)
    (hrole : req.userRole = .str "owner" ∨ req.userRole = .str "editor")
    (hJ : req.diarioId = .str J) (_hexacto : numeralExacto req.params.id = true)
    (hno : ¬ ∃ r ∈ w.db.recuerdos, sqlIntEq r.id req.params.id = true ∧ r.diario_id = J) :
    (deleteRecuerdo w env req).world = w ∧ (deleteRecuerdo w env req).session = req.session ∧
      (deleteRecuerdo w env req).out
        = .nextErr { message := "Recuerdo no encontrado o no autorizado para eliminar." } := by
  have hguard : (req.userRole != .str "owner" && req.userRole != .str "editor") = false := by
    rcases hrole with h | h <;> simp [h]
  have hnone : w.db.recuerdos.find? (esRecuerdo req) = none := by
    apply find?_none_of_absent
    rintro ⟨r, hr, hp⟩
    exact hno ⟨r, hr, (esRecuerdo_iff req J hJ r).mp hp⟩
  simp [deleteRecuerdo, hguard, hnone, fallar]

/-- Witness of C11: the owner asks to delete memory 99 of `j1` while every
removal would be rejected; nothing changes. -/
theorem deleteRecuerdo_absent_witness :
    (deleteRecuerdo mundoEjemplo { removeFails := mundoEjemplo.fs.paths }
        reqBorrarAusenteOwner).world = mundoEjemplo :=
  (deleteRecuerdo_absent mundoEjemplo { removeFails := mundoEjemplo.fs.paths }
    reqBorrarAusenteOwner "j1" (Or.inl rfl) rfl (by decide) (by decide)).1

/-- C12 (the code at the failing input): the owner asks to delete memory 99,
which journal `j1` does not have.  `deleteRecuerdo` throws a plain `Error`
without a `status` field, so the error handler answers 500, with the message
of the error outside production and the generic message in production; the
sibling `updateRecuerdo` answers the same request with 404. -/
theorem deleteRecuerdo_absent_is_500 :
    respuesta {} (api .eliminarRecuerdo mundoEjemplo {} reqBorrarAusente)
        = some ⟨500, .error "Recuerdo no encontrado o no autorizado para eliminar."⟩ ∧
      respuesta { production := true }
          (api .eliminarRecuerdo mundoEjemplo { production := true } reqBorrarAusente)
        = some ⟨500, .error "Ocurrió un error inesperado."⟩ ∧
      respuesta {}
          (api .actualizarRecuerdo mundoEjemplo {}
            { reqBorrarAusente with body := { fecha := some "2024-02-01" } })
        = some ⟨404, .error "Recuerdo no encontrado o no autorizado para actualizar."⟩ := by
  decide

/-! ## C13: deleting a journal whose row is already gone -/

/-- C13 (the code at the failing input): `deleteDiario` runs with the owner
role resolved for `j1` on a store whose `diarios` row `j1` is already gone, so
the DELETE affects zero rows.  The handler throws a plain `Error` without a
`status` field and the error handler answers 500, in production with the
generic message; the sibling `getDiarioById` answers 404 when the row is
missing. -/
theorem deleteDiario_zero_rows_is_500 :
    mundoSinDiario.db.diarios = [] ∧
      respuesta {} (deleteDiario mundoSinDiario {} reqBorrarDiarioOwner)
        = some ⟨500, .error "Diario no encontrado o no autorizado para eliminar."⟩ ∧
      respuesta { production := true }
          (deleteDiario mundoSinDiario { production := true } reqBorrarDiarioOwner)
        = some ⟨500, .error "Ocurrió un error inesperado."⟩ := by
  decide

/-! ## C17: updating and deleting events by id -/

theorem filter_not_of_absent {α : Type} (p : α → Bool) (l : List α)
    (h : ¬ ∃ a ∈ l, p a = true) : l.filter (fun a => !p a) = l := by
  rw [List.filter_eq_self]
  intro a ha
  cases hp : p a
  · rfl
  · exact absurd ⟨a, ha, hp⟩ h

theorem filter_of_absent {α : Type} (p : α → Bool) (l : List α)
    (h : ¬ ∃ a ∈ l, p a = true) : l.filter p = [] := by
  rw [List.filter_eq_nil_iff]
  intro a ha hp
  exact h ⟨a, ha, hp⟩

/-- C17 as stated fails for `updateEvento`: the owner asks to update event 99,
which `j1` does not have, with a body that does not pass validation, and the
answer is 400 with the validation messages, not 404. -/
theorem updateEvento_invalid_body_is_400 :
    (¬ ∃ e ∈ mundoEjemplo.db.eventos, sqlIntEq e.id "99" = true ∧ e.diario_id = "j1") ∧
      (api .actualizarEvento mundoEjemplo {} reqActualizarEventoVacio).out
        = .sent ⟨400, .errors ["Formato de fecha inválido.", "Formato de hora inválido.",
            "El tipo de evento es requerido."]⟩ := by
  decide

/-- C17 (amended): by an owner or editor of journal `J`, for an id that is a
text whose comparison with the row ids is exact (`numeralExacto`).
`updateEvento` with a body that failed validation answers 400 with the
validation messages and returns the world unchanged, whether or not a row
exists.  For an id that no `eventos` row with `diario_id = J` carries (absent,
or only in other journals), `deleteEvento`, and `updateEvento` when the body
passed validation, answer 404 and return the world unchanged, so every
`eventos` row, also those of other journals with that id, is as before.  For
an id whose row `e` is in `J` (the only row with its id, the primary key),
`deleteEvento` answers with success and removes exactly `e`: the other rows,
the other tables and the filesystem are as before. -/
theorem evento_by_id_scoped (w : World) (env : Env) (req : Req) (J : String)
    (hrole : req.userRole = .str "owner" ∨ req.userRole = .str "editor")
    (hJ : req.diarioId = .str J) (_hexacto : numeralExacto req.params.id = true) :
    (req.validation ≠ [] →
      updateEvento w env req = responder w req 400 (.errors req.validation)) ∧
    ((¬ ∃ e ∈ w.db.eventos, sqlIntEq e.id req.params.id = true ∧ e.diario_id = J) →
      (req.validation = [] →
        updateEvento w env req
          = responder w req 404 (.error "Evento no encontrado o no autorizado para actualizar.")) ∧
      deleteEvento w env req
        = responder w req 404 (.error "Evento no encontrado o no autorizado para eliminar.")) ∧
    (∀ e ∈ w.db.eventos, sqlIntEq e.id req.params.id = true → e.diario_id = J →
      (∀ e1 ∈ w.db.eventos, e1.id = e.id → e1 = e) →
      deleteEvento w env req
        = responder { w with db := { w.db with eventos := w.db.eventos.filter (fun e1 => decide (e1 ≠ e)) } }
            req 200 (.message "Evento eliminado con éxito.")) := by
  have hguard : (req.userRole != .str "owner" && req.userRole != .str "editor") = false := by
    rcases hrole with h | h <;> simp [h]
  refine ⟨?_, ?_, ?_⟩
  · intro hval
    have hv : req.validation.isEmpty = false := by
      cases hl : req.validation with
      | nil => exact absurd hl hval
      | cons a l => rfl
    simp [updateEvento, hguard, hv]
  · intro hno
    have hno1 : ¬ ∃ e ∈ w.db.eventos, esEvento req e = true := by
      rintro ⟨e, he, hp⟩
      exact hno ⟨e, he, (esEvento_iff req J hJ e).mp hp⟩
    refine ⟨?_, ?_⟩
    · intro hval
      simp [updateEvento, hguard, hval, updateEventoRows, filter_of_absent _ _ hno1, responder]
    · simp [deleteEvento, hguard, deleteWhere, filter_of_absent _ _ hno1,
        filter_not_of_absent _ _ hno1, responder]
  · intro e he hid heJ hpk
    have hmatch : ∀ e1 ∈ w.db.eventos, esEvento req e1 = true ↔ e1 = e := by
      intro e1 he1
      constructor
      · intro h
        have h1 := (esEvento_iff req J hJ e1).mp h
        simp only [sqlIntEq, beq_iff_eq] at h1 hid
        exact hpk e1 he1 (Option.some.inj (h1.1.symm.trans hid))
      · rintro rfl
        exact (esEvento_iff req J hJ e1).mpr ⟨hid, heJ⟩
    have hfilter : w.db.eventos.filter (fun e1 => !esEvento req e1)
        = w.db.eventos.filter (fun e1 => decide (e1 ≠ e)) := by
      apply List.filter_congr
      intro e1 he1
      by_cases h : e1 = e
      · simp [h, (hmatch e he).mpr rfl]
      · have : esEvento req e1 = false := by
          cases hc : esEvento req e1
          · rfl
          · exact absurd ((hmatch e1 he1).mp hc) h
        simp [h, this]
    have hchanges : (w.db.eventos.filter (esEvento req)).length ≠ 0 := by
      have : e ∈ w.db.eventos.filter (esEvento req) :=
        List.mem_filter.mpr ⟨he, (hmatch e he).mpr rfl⟩
      intro h0
      rw [List.length_eq_zero] at h0
      rw [h0] at this
      exact absurd this (List.not_mem_nil _)
    simp only [deleteEvento, hguard, deleteWhere, hfilter]
    simp [hchanges]

/-- Witness of C17 (amended): the owner deletes event 1 of `j1`; the table of
events is empty afterwards and the answer is the success message.  An update
of event 1 with a body that failed validation is answered 400. -/
theorem evento_by_id_scoped_witness :
    deleteEvento mundoEjemplo {} reqBorrarEventoOwner
        = responder
            { mundoEjemplo with
              db := { mundoEjemplo.db with
                eventos := mundoEjemplo.db.eventos.filter (fun e1 => decide (e1 ≠ eventoEjemplo)) } }
            reqBorrarEventoOwner 200 (.message "Evento eliminado con éxito.") ∧
      updateEvento mundoEjemplo {}
          { reqBorrarEventoOwner with validation := ["Formato de hora inválido."] }
        = responder mundoEjemplo
            { reqBorrarEventoOwner with validation := ["Formato de hora inválido."] } 400
            (.errors ["Formato de hora inválido."]) :=
  ⟨(evento_by_id_scoped mundoEjemplo {} reqBorrarEventoOwner "j1" (Or.inl rfl) rfl
      (by decide)).2.2 eventoEjemplo (by decide) (by decide) rfl (by decide),
    (evento_by_id_scoped mundoEjemplo {}
      { reqBorrarEventoOwner with validation := ["Formato de hora inválido."] } "j1"
      (Or.inl rfl) rfl (by decide)).1 (by decide)⟩

/-! ## C18: sharing when the invitee is unknown or is the requester -/

/-- The route `POST /:diarioId/share` when the owner sends a body that passes
validation: the controller runs on the request with the owner role attached. -/
theorem api_share_owner (w : World) (env : Env) (req : Req) (U : Nat) (J email rol : String)
    (hU : req.session.userId = some U) (hU0 : U ≠ 0) (hJ : J ≠ "")
    (hparam : req.params.diarioId = .str J)
    (howner : ∃ d ∈ w.db.diarios, d.id = J ∧ d.user_id = U)
    (hemail : req.body.email_invitado = some email) (hvalid : env.isEmail email = true)
    (hrol : req.body.rol_asignado = .texto rol) (hrolv : rol = "editor" ∨ rol = "lector") :
    api .share w env req
      = shareDiario w env { req.entrante with diarioId := .str J, userRole := .str "owner" } := by
  have hacc := acceso_owner w.db req.entrante U J hU hU0 hJ hparam howner
  simp only [api, isAuthenticated, Req.entrante, autenticado_some hU hU0, conAcceso] at hacc ⊢
  rw [hacc]
  simp [conValidador, validarShare, validar, hemail, hvalid, hrol, hrolv, Campo.todos]

/-- C18 fails for a validated body whose role is an array: the owner of `j1`
shares it with Luis and sends `rol_asignado` as `["editor", "lector"]`.  Both
checks pass, the answer is the success message, and `diarios_compartidos`
maps (`j1`, Luis) to the text `[object Object]`, not to the requested role. -/
theorem shareDiario_array_role_stored :
    (validarShare {} reqCompartirLista).validation = [] ∧
      (api .share mundoEjemplo { now := 7 } reqCompartirLista).out
        = .sent ⟨200, .message "Diario compartido/rol actualizado con éxito."⟩ ∧
      (api .share mundoEjemplo { now := 7 } reqCompartirLista).world.db.diarios_compartidos
        = [{ diario_id := "j1", user_id := 2, rol := "[object Object]", fecha_compartido := 7 }] := by
  refine ⟨by decide, by decide, by decide⟩

/-- The outcomes of `shareDiario` on the route `POST /:diarioId/share`, called
by the owner `U` of journal `J` with a body whose email the check `isEmail`
accepts and whose role is the text `editor` or `lector`: when no
`usuarios` row has the invitee email the answer is 404; when the row found for
the email is the requester the answer is 400; in both cases the world, and so
`diarios_compartidos`, is unchanged; otherwise the answer is the success
message and `diarios_compartidos` afterwards holds exactly one row for
(`J`, invitee), with the requested role. -/
theorem shareDiario_outcomes (w : World) (env : Env) (req : Req) (U : Nat)
    (J email rol : String)
    (hU : req.session.userId = some U) (hU0 : U ≠ 0) (hJ : J ≠ "")
    (hparam : req.params.diarioId = .str J)
    (howner : ∃ d ∈ w.db.diarios, d.id = J ∧ d.user_id = U)
    (hemail : req.body.email_invitado = some email) (hvalid : env.isEmail email = true)
    (hrol : req.body.rol_asignado = .texto rol) (hrolv : rol = "editor" ∨ rol = "lector") :
    ((∀ u ∈ w.db.usuarios, u.email ≠ email) →
      api .share w env req
        = { world := w, session := req.session
            out := .sent ⟨404, .error "El usuario invitado no existe."⟩ }) ∧
    (∀ u, w.db.usuarios.find? (fun u => some u.email == some email) = some u → u.id = U →
      api .share w env req
        = { world := w, session := req.session
            out := .sent ⟨400, .error "No puedes compartir un diario contigo mismo."⟩ }) ∧
    (∀ u, w.db.usuarios.find? (fun u => some u.email == some email) = some u → u.id ≠ U →
      (api .share w env req).out
          = .sent ⟨200, .message "Diario compartido/rol actualizado con éxito."⟩ ∧
        (api .share w env req).world.db.diarios_compartidos.filter
            (fun c => c.diario_id == J && c.user_id == u.id)
          = [{ diario_id := J, user_id := u.id, rol := rol, fecha_compartido := env.now }]) := by
  have hred := api_share_owner w env req U J email rol hU hU0 hJ hparam howner hemail hvalid
    hrol hrolv
  refine ⟨?_, ?_, ?_⟩
  · intro hno
    have hnone : List.find? (fun u => u.email == email) w.db.usuarios = none := by
      rw [List.find?_eq_none]
      intro u hu hp
      exact hno u hu (by simpa using hp)
    rw [hred]
    simp [shareDiario, Req.entrante, hemail, hnone, responder]
  · intro u hfind hself
    have hfind1 : List.find? (fun u => u.email == email) w.db.usuarios = some u := by
      simpa using hfind
    rw [hred]
    simp [shareDiario, Req.entrante, hemail, hfind1, hU, hself, responder]
  · intro u hfind hne
    have hok := api_share_ok w env req U J email rol u hU hU0 hJ hparam howner hemail hvalid
      hrol hrolv hfind hne
    rw [hok]
    exact ⟨rfl, filter_key_replace w.db.diarios_compartidos
      { diario_id := J, user_id := u.id, rol := rol, fecha_compartido := env.now }⟩

/-- The owner of `j1` shares it with an email nobody has, and with the
owner's own email. -/
theorem shareDiario_outcomes_ejemplo :
    api .share mundoEjemplo {} (reqCompartir "nadie@example.com" "editor")
        = { world := mundoEjemplo, session := (reqCompartir "nadie@example.com" "editor").session
            out := .sent ⟨404, .error "El usuario invitado no existe."⟩ } ∧
      api .share mundoEjemplo {} (reqCompartir "ana@example.com" "editor")
        = { world := mundoEjemplo, session := (reqCompartir "ana@example.com" "editor").session
            out := .sent ⟨400, .error "No puedes compartir un diario contigo mismo."⟩ } :=
  ⟨(shareDiario_outcomes mundoEjemplo {} (reqCompartir "nadie@example.com" "editor") 1 "j1"
      "nadie@example.com" "editor" rfl (by decide) (by decide) rfl (by decide) rfl (by decide)
      rfl (Or.inl rfl)).1 (by decide),
    (shareDiario_outcomes mundoEjemplo {} (reqCompartir "ana@example.com" "editor") 1 "j1"
      "ana@example.com" "editor" rfl (by decide) (by decide) rfl (by decide) rfl (by decide)
      rfl (Or.inl rfl)).2.1
      { id := 1, nombre := "Ana", email := "ana@example.com", password := "$2b$10$secreto123"
        rol := "usuario", fecha_registro := 1 } (by decide) rfl⟩

/-! ## C19: revoking a share -/

/-- C19: `unshareDiario` by the owner `U` of journal `J` with the target user
id given as the text `t`: when `parseInt(t, 10)`, as a JavaScript number, is
`U` the answer is 400 and the world, and so `diarios_compartidos`, is
unchanged; otherwise the answer is the success message, afterwards no
`diarios_compartidos` row has `diario_id = J` and a `user_id` equal to `t`
under SQLite's comparison of the INTEGER column with the text (whether or not
one existed), the rows of every other journal or user are the same rows in the
same order, and nothing else in the world changed.  The text `t` is taken in
the region where that comparison is modelled exactly (`numeralExacto`). -/
theorem unshareDiario_outcomes (w : World) (env : Env) (req : Req) (U : Nat) (J : String)
    (hrole : req.userRole = .str "owner") (hJ : req.diarioId = .str J)
    (hU : req.session.userId = some U)
    (_hexacto : numeralExacto req.params.userIdToUnshare = true) :
    ((parseInt10 req.params.userIdToUnshare).map aDoble = some (U : Int) →
      unshareDiario w env req
        = responder w req 400 (.error "No puedes dejar de compartir el diario contigo mismo.")) ∧
    ((parseInt10 req.params.userIdToUnshare).map aDoble ≠ some (U : Int) →
      unshareDiario w env req
          = responder
              { w with db := { w.db with diarios_compartidos :=
                  (w.db.diarios_compartidos.filter
                    (fun c => !(c.diario_id == J && sqlIntEq c.user_id req.params.userIdToUnshare))) } }
              req 200 (.message "Diario dejado de compartir con el usuario.") ∧
        (∀ c ∈ (unshareDiario w env req).world.db.diarios_compartidos,
          ¬ (c.diario_id = J ∧ sqlIntEq c.user_id req.params.userIdToUnshare = true)) ∧
        (∀ c, ¬ (c.diario_id = J ∧ sqlIntEq c.user_id req.params.userIdToUnshare = true) →
          (c ∈ (unshareDiario w env req).world.db.diarios_compartidos
            ↔ c ∈ w.db.diarios_compartidos))) := by
  have hguard : (req.userRole != .str "owner") = false := by simp [hrole]
  have hpred : (fun c : Compartido =>
      !(sqlTextEq c.diario_id (.str J) && sqlIntEq c.user_id req.params.userIdToUnshare))
      = (fun c => !(c.diario_id == J && sqlIntEq c.user_id req.params.userIdToUnshare)) := by
    funext c
    have : sqlTextEq c.diario_id (.str J) = (c.diario_id == J) := by
      rw [Bool.eq_iff_iff, sqlTextEq_str, beq_iff_eq]
    rw [this]
  refine ⟨?_, ?_⟩
  · intro hp
    simp [unshareDiario, hguard, hp, hU, jsEqNumero, responder]
  · intro hp
    have hne : jsEqNumero ((parseInt10 req.params.userIdToUnshare).map aDoble) (some U)
        = false := by
      cases hpi : (parseInt10 req.params.userIdToUnshare).map aDoble with
      | none => rfl
      | some n =>
        have : n ≠ (U : Int) := fun h => hp (by rw [hpi, h])
        simp [jsEqNumero, this]
    have hres : unshareDiario w env req
        = responder
            { w with db := { w.db with diarios_compartidos :=
                (w.db.diarios_compartidos.filter
                  (fun c => !(c.diario_id == J && sqlIntEq c.user_id req.params.userIdToUnshare))) } }
            req 200 (.message "Diario dejado de compartir con el usuario.") := by
      simp only [unshareDiario, hguard, hU, hne, deleteWhere, hJ, hpred]
      rfl
    rw [hres]
    refine ⟨rfl, ?_, ?_⟩
    · intro c hc
      have := (List.mem_filter.mp hc).2
      simp only [Bool.not_eq_true', Bool.and_eq_false_iff, beq_eq_false_iff_ne, ne_eq] at this
      rintro ⟨h1, h2⟩
      rcases this with h | h
      · exact h h1
      · rw [h2] at h
        exact absurd h (by decide)
    · intro c hc
      simp only [responder, List.mem_filter]
      constructor
      · exact fun h => h.1
      · intro h
        refine ⟨h, ?_⟩
        simp only [Bool.not_eq_true', Bool.and_eq_false_iff, beq_eq_false_iff_ne, ne_eq]
        by_cases h1 : c.diario_id = J
        · right
          cases h2 : sqlIntEq c.user_id req.params.userIdToUnshare
          · rfl
          · exact absurd ⟨h1, h2⟩ hc
        · exact Or.inl h1

/-- Witness of C19: the owner of `j1` (user 1) revokes the share of user 2,
and is refused when the target is the owner, user 1. -/
theorem unshareDiario_outcomes_witness :
    unshareDiario mundoEjemplo {} (reqDejarDeCompartir "1")
        = responder mundoEjemplo (reqDejarDeCompartir "1") 400
            (.error "No puedes dejar de compartir el diario contigo mismo.") ∧
      ∀ c ∈ (unshareDiario mundoEjemplo {} (reqDejarDeCompartir "2")).world.db.diarios_compartidos,
        ¬ (c.diario_id = "j1" ∧ sqlIntEq c.user_id (reqDejarDeCompartir "2").params.userIdToUnshare
          = true) :=
  ⟨(unshareDiario_outcomes mundoEjemplo {} (reqDejarDeCompartir "1") 1 "j1" rfl rfl rfl
      (by decide)).1 (by decide),
    ((unshareDiario_outcomes mundoEjemplo {} (reqDejarDeCompartir "2") 1 "j1" rfl rfl rfl
      (by decide)).2 (by decide)).2.1⟩

/-! ## C20: updating a memory -/

/-- C20 as stated fails in two ways.  When the submitted `fecha` is null or
absent: the owner asks to update memory 1 with a description only; the UPDATE
violates `fecha TEXT NOT NULL`, the error goes to the error handler and the
row keeps its old description instead of the submitted one.  And when the
submitted `favorito` is not a boolean: the owner submits the text `false`,
which is truthy, and the row afterwards holds the flag 1, not the submitted
value. -/
theorem updateRecuerdo_null_fecha_fails :
    (updateRecuerdo mundoEjemplo {} (reqActualizarRecuerdo { descripcion := some "primer baño" })).out
        = .nextErr (sqliteConstraint "NOT NULL constraint failed: recuerdos.fecha") ∧
      (updateRecuerdo mundoEjemplo {}
        (reqActualizarRecuerdo { descripcion := some "primer baño" })).world.db.recuerdos
        = [recuerdoEjemplo] ∧
      recuerdoEjemplo.descripcion ≠ some "primer baño" ∧
      (updateRecuerdo mundoEjemplo {}
        (reqActualizarRecuerdo
          { fecha := some "2024-02-01", favorito := .str "false" })).world.db.recuerdos
        = [{ recuerdoEjemplo with fecha := "2024-02-01", descripcion := none, favorito := 1 }] := by
  decide

/-- C20 (amended): `updateRecuerdo` by an owner or editor, for an id whose row
`r` exists in the journal `J` of the request (the only row with its id, the
primary key), with a submitted `fecha` that is not null: the answer is the
success message; afterwards the row is `r` with `fecha` and `descripcion` set
to the submitted values and `favorito` set to 1 when the submitted `favorito`
is truthy and to 0 otherwise, so its `id`, `diario_id`, `tipo`, `url`,
`thumbnail_url` and `fecha_subida` are those of `r`; every other row, every
other table and the filesystem are exactly as before.  With a submitted
`fecha` that is null or absent the violation of `fecha TEXT NOT NULL` goes to
the error handler and the world, so the row, is exactly as before. -/
theorem updateRecuerdo_frame (w : World) (env : Env) (req : Req) (J : String)
    (r : Recuerdo)
    (hrole : req.userRole = .str "owner" ∨ req.userRole = .str "editor")
    (hJ : req.diarioId = .str J)
    (hr : r ∈ w.db.recuerdos) (hid : sqlIntEq r.id req.params.id = true) (hrJ : r.diario_id = J)
    (hpk : ∀ r1 ∈ w.db.recuerdos, r1.id = r.id → r1 = r) :
    (∀ fecha, req.body.fecha = some fecha →
      updateRecuerdo w env req
        = responder
            { w with db := { w.db with recuerdos := w.db.recuerdos.map (fun r1 =>
                if r1 = r then
                  { r with fecha := fecha, descripcion := req.body.descripcion
                           favorito := flag req.body.favorito }
                else r1) } }
            req 200 (.message "Recuerdo actualizado con éxito.")) ∧
    (req.body.fecha = none →
      updateRecuerdo w env req
        = fallar w req (sqliteConstraint "NOT NULL constraint failed: recuerdos.fecha")) := by
  have hguard : (req.userRole != .str "owner" && req.userRole != .str "editor") = false := by
    rcases hrole with h | h <;> simp [h]
  have hmatch : ∀ r1 ∈ w.db.recuerdos, esRecuerdo req r1 = true ↔ r1 = r := by
    intro r1 hr1
    constructor
    · intro h
      have h1 := (esRecuerdo_iff req J hJ r1).mp h
      simp only [sqlIntEq, beq_iff_eq] at h1 hid
      exact hpk r1 hr1 (Option.some.inj (h1.1.symm.trans hid))
    · rintro rfl
      exact (esRecuerdo_iff req J hJ r1).mpr ⟨hid, hrJ⟩
  have hchanges : (w.db.recuerdos.filter (esRecuerdo req)).length ≠ 0 := by
    have : r ∈ w.db.recuerdos.filter (esRecuerdo req) :=
      List.mem_filter.mpr ⟨hr, (hmatch r hr).mpr rfl⟩
    intro h0
    rw [List.length_eq_zero] at h0
    rw [h0] at this
    exact absurd this (List.not_mem_nil _)
  have hmap : ∀ fecha : String, w.db.recuerdos.map (fun r1 =>
      if esRecuerdo req r1 = true then
        { r1 with fecha := fecha, descripcion := req.body.descripcion
                  favorito := flag req.body.favorito }
      else r1)
      = w.db.recuerdos.map (fun r1 =>
        if r1 = r then
          { r with fecha := fecha, descripcion := req.body.descripcion
                   favorito := flag req.body.favorito }
        else r1) := by
    intro fecha
    apply List.map_congr_left
    intro r1 hr1
    by_cases h : r1 = r
    · rw [if_pos ((hmatch r1 hr1).mpr h), if_pos h, h]
    · have hn : ¬ esRecuerdo req r1 = true := fun hc => h ((hmatch r1 hr1).mp hc)
      rw [if_neg hn, if_neg h]
  refine ⟨?_, ?_⟩
  · intro fecha hfecha
    simp only [updateRecuerdo, hguard, updateRecuerdoRows, hfecha, hmap]
    simp [hchanges]
  · intro hfecha
    simp only [updateRecuerdo, hguard, updateRecuerdoRows, hfecha]
    simp [hchanges]

/-- Witness of C20 (amended): the owner sets date, description and the
favourite mark of memory 1. -/
theorem updateRecuerdo_frame_witness :
    (updateRecuerdo mundoEjemplo {}
        (reqActualizarRecuerdo
          { fecha := some "2024-02-01", descripcion := some "primer baño"
            favorito := .bool true })).world.db.recuerdos
      = [{ recuerdoEjemplo with
            fecha := "2024-02-01", descripcion := some "primer baño", favorito := 1 }] :=
  congrArg (fun res => res.world.db.recuerdos)
    ((updateRecuerdo_frame mundoEjemplo {}
      (reqActualizarRecuerdo
        { fecha := some "2024-02-01", descripcion := some "primer baño", favorito := .bool true })
      "j1" recuerdoEjemplo (Or.inl rfl) rfl (by decide) (by decide) rfl (by decide)).1
      "2024-02-01" rfl)

/-! ## C16: creating a memory -/

theorem normalizar_snoc (a : Path) (seg : String) (h1 : seg ≠ ".") (h2 : seg ≠ "..") :
    normalizar (a ++ [seg]) = normalizar a ++ [seg] := by
  simp [normalizar, List.foldl_append, h1, h2]

theorem thumbName_plain (u : String) :
    "thumb-" ++ u ++ ".webp" ≠ "." ∧ "thumb-" ++ u ++ ".webp" ≠ ".." := by
  have hlen : ("thumb-" ++ u ++ ".webp").length = 6 + u.length + 5 := by
    rw [String.length_append, String.length_append]
    rfl
  constructor <;>
    · intro h
      have h1 := congrArg String.length h
      rw [hlen] at h1
      have h2 : 6 + u.length + 5 ≥ 11 := by omega
      revert h1
      simp only [String.length]
      intro h1
      simp at h1

/-- The thumbnail path `createRecuerdo` builds when the journal's media
directory is the folder `J` of the uploads directory. -/
theorem thumbnailPath_plain (J u : String) (hseg : segmentos J = [J]) (h1 : J ≠ ".")
    (h2 : J ≠ "..") :
    pathJoin (pathJoin (pathJoin directories_mediaUploads (segmentos J)) ["thumbnails"])
        ["thumb-" ++ u ++ ".webp"]
      = ["public", "media", "diarios", J, "thumbnails", "thumb-" ++ u ++ ".webp"] := by
  have hdir : pathJoin directories_mediaUploads (segmentos J) = ["public", "media", "diarios", J] := by
    rw [hseg, pathJoin, normalizar_snoc _ _ h1 h2]
    rfl
  have hth : pathJoin ["public", "media", "diarios", J] ["thumbnails"]
      = ["public", "media", "diarios", J, "thumbnails"] := by
    have := normalizar_snoc ["public", "media", "diarios", J] "thumbnails" (by decide) (by decide)
    have hJn : normalizar ["public", "media", "diarios", J] = ["public", "media", "diarios", J] := by
      have := normalizar_snoc ["public", "media", "diarios"] J h1 h2
      simpa [normalizar] using this
    rw [pathJoin, this, hJn]
    rfl
  have hJt : normalizar ["public", "media", "diarios", J, "thumbnails"]
      = ["public", "media", "diarios", J, "thumbnails"] := by
    have := hth
    rw [pathJoin] at this
    simp only [List.cons_append, List.nil_append] at this
    exact this
  rw [hdir, hth, pathJoin, normalizar_snoc _ _ (thumbName_plain u).1 (thumbName_plain u).2, hJt]
  rfl

/-- The URL of a file stored directly in the journal's media directory is not
the URL of a thumbnail. -/
theorem url_ne_thumbnail (J nombre u : String) (hseg : segmentos J = [J]) (h1 : J ≠ ".")
    (h2 : J ≠ "..") :
    pathRelative directories_public
        (pathJoin (pathJoin directories_mediaUploads (segmentos J)) [nombre])
      ≠ ["media", "diarios", J, "thumbnails", "thumb-" ++ u ++ ".webp"] := by
  have hdir : pathJoin directories_mediaUploads (segmentos J) = ["public", "media", "diarios", J] := by
    rw [hseg, pathJoin, normalizar_snoc _ _ h1 h2]
    rfl
  have hJn : normalizar ["public", "media", "diarios", J] = ["public", "media", "diarios", J] := by
    have := normalizar_snoc ["public", "media", "diarios"] J h1 h2
    simpa [normalizar] using this
  have hstep : pathJoin ["public", "media", "diarios", J] [nombre]
      = if nombre == "." then ["public", "media", "diarios", J]
        else if nombre == ".." then ["public", "media", "diarios"]
        else ["public", "media", "diarios", J, nombre] := by
    have : normalizar (["public", "media", "diarios", J] ++ [nombre])
        = if nombre == "." then normalizar ["public", "media", "diarios", J]
          else if nombre == ".." then (normalizar ["public", "media", "diarios", J]).dropLast
          else normalizar ["public", "media", "diarios", J] ++ [nombre] := by
      simp only [normalizar, List.foldl_append, List.foldl_cons, List.foldl_nil]
    rw [pathJoin, this, hJn]
    rfl
  rw [hdir, hstep]
  split
  · simp [pathRelative, directories_public]
  · split <;> simp [pathRelative, directories_public]

/-- C16 as stated fails when the upload carries no `fecha`: the owner uploads
a JPEG without that field; the file and its thumbnail are written, the INSERT
violates `fecha TEXT NOT NULL`, the error goes to the error handler and no
`recuerdos` row is inserted.  It also fails when `sharp` rejects the image:
the owner uploads a file declared `image/png` with a `fecha`, the thumbnail
step throws, and no row is inserted. -/
theorem createRecuerdo_without_fecha_inserts_nothing :
    (api .subirRecuerdo mundoEjemplo envSubida reqSubidaSinFecha).out
        = .nextErr (sqliteConstraint "NOT NULL constraint failed: recuerdos.fecha") ∧
      (api .subirRecuerdo mundoEjemplo envSubida reqSubidaSinFecha).world.db.recuerdos
        = mundoEjemplo.db.recuerdos ∧
      (createRecuerdo mundoEjemplo { envSubida with sharpFails := true }
          (reqSubida "image/png" "u1.png")).out
        = .nextErr { message := "Input file contains unsupported image format" } ∧
      (createRecuerdo mundoEjemplo { envSubida with sharpFails := true }
          (reqSubida "image/png" "u1.png")).world.db.recuerdos
        = mundoEjemplo.db.recuerdos := by
  decide

/-- C16 (amended): `createRecuerdo` by an owner or editor of journal `J`.
Without a file it answers 400 and returns the world unchanged.  With a file
and a submitted `fecha` that is not null (and the journal row present or
foreign keys not enforced), it answers 201 and appends exactly one `recuerdos`
row, whose `diario_id` is `J` and whose `url` is the public path of the file:
when the declared media type starts with `image/` and `sharp` writes the
thumbnail, `tipo` is `'foto'` and `thumbnail_url` is the public path of
`thumb-<uuid>.webp` in the `thumbnails` folder of the journal's media
directory, which for a journal id that is a plain folder name is
`/media/diarios/J/thumbnails/thumb-<uuid>.webp` and differs from `url` for a
file stored by the upload middleware; otherwise `tipo` is `'video'` and
`thumbnail_url` is null.  With a file and a `fecha` that is null or absent the
database is unchanged and an error goes to the error handler, the violation of
`fecha TEXT NOT NULL` unless the thumbnail step failed first; when the file is
declared an image and `sharp` rejects it, the database is unchanged and the
error goes to the error handler. -/
theorem createRecuerdo_row (w : World) (env : Env) (req : Req) (J : String)
    (hrole : req.userRole = .str "owner" ∨ req.userRole = .str "editor")
    (hJ : req.diarioId = .str J) :
    (req.file = none →
      createRecuerdo w env req = responder w req 400 (.error "No se ha subido ningún archivo.")) ∧
    (∀ file fecha, req.file = some file → req.body.fecha = some fecha → fkDiario w.db J = true →
      (jsStartsWith file.mimetype "image/" = true → env.sharpFails = false →
        ∃ row, (createRecuerdo w env req).world.db.recuerdos = w.db.recuerdos ++ [row] ∧
          (createRecuerdo w env req).out
            = .sent ⟨201, .recuerdoSubido "Recuerdo subido con éxito." row.id row.url
                row.thumbnail_url⟩ ∧
          row.diario_id = J ∧ row.tipo = "foto" ∧
          row.url = pathRelative directories_public file.path ∧
          row.thumbnail_url = some (pathRelative directories_public
            (pathJoin (pathJoin (pathJoin directories_mediaUploads (segmentos J)) ["thumbnails"])
              ["thumb-" ++ env.uuid2 ++ ".webp"])) ∧
          (segmentos J = [J] → J ≠ "." → J ≠ ".." →
            row.thumbnail_url
                = some ["media", "diarios", J, "thumbnails", "thumb-" ++ env.uuid2 ++ ".webp"] ∧
              (∀ nombre,
                file.path = pathJoin (pathJoin directories_mediaUploads (segmentos J)) [nombre] →
                row.thumbnail_url ≠ some row.url))) ∧
      (jsStartsWith file.mimetype "image/" = false →
        ∃ row, (createRecuerdo w env req).world.db.recuerdos = w.db.recuerdos ++ [row] ∧
          (createRecuerdo w env req).out
            = .sent ⟨201, .recuerdoSubido "Recuerdo subido con éxito." row.id row.url
                row.thumbnail_url⟩ ∧
          row.diario_id = J ∧ row.tipo = "video" ∧
          row.url = pathRelative directories_public file.path ∧
          row.thumbnail_url = none ∧ (createRecuerdo w env req).world.fs = w.fs)) ∧
    (∀ file, req.file = some file → req.body.fecha = none →
      (createRecuerdo w env req).world.db = w.db ∧
        (∃ e, (createRecuerdo w env req).out = .nextErr e) ∧
        ((jsStartsWith file.mimetype "image/" = true → env.sharpFails = false) →
          (createRecuerdo w env req).out
            = .nextErr (sqliteConstraint "NOT NULL constraint failed: recuerdos.fecha"))) ∧
    (∀ file, req.file = some file → jsStartsWith file.mimetype "image/" = true →
      env.sharpFails = true →
      (createRecuerdo w env req).world.db = w.db ∧
        ∃ e, (createRecuerdo w env req).out = .nextErr e) := by
  have hguard : (req.userRole != .str "owner" && req.userRole != .str "editor") = false := by
    rcases hrole with h | h <;> simp [h]
  refine ⟨?_, ?_, ?_, ?_⟩
  · intro hfile
    simp [createRecuerdo, hguard, hfile]
  rotate_left
  · intro file hfile hfecha
    by_cases himg : jsStartsWith file.mimetype "image/" = true
    · cases hsharp : env.sharpFails
      · simp [createRecuerdo, hguard, hfile, himg, crearMiniatura, hJ, hsharp, insertRecuerdo,
          sqlText, hfecha, fallar, Except.map]
      · simp [createRecuerdo, hguard, hfile, himg, crearMiniatura, hJ, hsharp, fallar,
          Except.map]
    · simp [createRecuerdo, hguard, hfile, himg, insertRecuerdo, sqlText, hJ, hfecha, fallar]
  · intro file hfile himg hsharp
    simp [createRecuerdo, hguard, hfile, himg, crearMiniatura, hJ, hsharp, fallar, Except.map]
  · intro file fecha hfile hfecha hfk
    refine ⟨?_, ?_⟩
    · intro himg hsharp
      refine ⟨{ id := nextId w.db.seq_recuerdos (w.db.recuerdos.map (fun r => r.id))
                diario_id := J, tipo := "foto"
                url := pathRelative directories_public file.path
                thumbnail_url := some (pathRelative directories_public
                  (pathJoin (pathJoin (pathJoin directories_mediaUploads (segmentos J))
                    ["thumbnails"]) ["thumb-" ++ env.uuid2 ++ ".webp"]))
                fecha := fecha, descripcion := req.body.descripcion
                favorito := flag req.body.favorito, fecha_subida := env.now }, ?_, ?_, rfl, rfl,
              rfl, rfl, ?_⟩
      · simp [createRecuerdo, hguard, hfile, himg, crearMiniatura, hJ, hsharp, insertRecuerdo,
          sqlText, hfecha, hfk, responder, Except.map]
      · simp [createRecuerdo, hguard, hfile, himg, crearMiniatura, hJ, hsharp, insertRecuerdo,
          sqlText, hfecha, hfk, responder, Except.map]
      · intro hseg h1 h2
        have hth := thumbnailPath_plain J env.uuid2 hseg h1 h2
        refine ⟨?_, ?_⟩
        · simp only [hth]
          rfl
        · intro nombre hpath heq
          simp only [Option.some.injEq, hth, hpath] at heq
          exact url_ne_thumbnail J nombre env.uuid2 hseg h1 h2 (by rw [← heq]; rfl)
    · intro himg
      refine ⟨{ id := nextId w.db.seq_recuerdos (w.db.recuerdos.map (fun r => r.id))
                diario_id := J, tipo := "video"
                url := pathRelative directories_public file.path
                thumbnail_url := none
                fecha := fecha, descripcion := req.body.descripcion
                favorito := flag req.body.favorito, fecha_subida := env.now }, ?_, ?_, rfl, rfl,
              rfl, rfl, ?_⟩
      · simp [createRecuerdo, hguard, hfile, himg, insertRecuerdo, sqlText, hJ, hfecha, hfk,
          responder]
      · simp [createRecuerdo, hguard, hfile, himg, insertRecuerdo, sqlText, hJ, hfecha, hfk,
          responder]
      · simp [createRecuerdo, hguard, hfile, himg, insertRecuerdo, sqlText, hJ, hfecha, hfk,
          responder]

/-- Witness of C16 (amended): the owner uploads a video with a date; one row
of `tipo` `'video'` without thumbnail is appended. -/
theorem createRecuerdo_row_witness :
    ∃ row, (createRecuerdo mundoEjemplo envSubida (reqSubida "video/mp4" "u1.mp4")).world.db.recuerdos
          = mundoEjemplo.db.recuerdos ++ [row] ∧
        (createRecuerdo mundoEjemplo envSubida (reqSubida "video/mp4" "u1.mp4")).out
          = .sent ⟨201, .recuerdoSubido "Recuerdo subido con éxito." row.id row.url
              row.thumbnail_url⟩ ∧
        row.diario_id = "j1" ∧ row.tipo = "video" ∧
        row.url = pathRelative directories_public ["public", "media", "diarios", "j1", "u1.mp4"] ∧
        row.thumbnail_url = none ∧
        (createRecuerdo mundoEjemplo envSubida (reqSubida "video/mp4" "u1.mp4")).world.fs
          = mundoEjemplo.fs :=
  ((createRecuerdo_row mundoEjemplo envSubida (reqSubida "video/mp4" "u1.mp4") "j1" (Or.inl rfl)
    rfl).2.1 { mimetype := "video/mp4", path := ["public", "media", "diarios", "j1", "u1.mp4"] }
    "2024-03-01" rfl rfl (by decide)).2 (by decide)

/-- A photo uploaded by the owner of the sample journal: the row is a `foto`
whose thumbnail lies in the `thumbnails` folder of `j1`. -/
theorem createRecuerdo_foto_ejemplo :
    (createRecuerdo mundoEjemplo envSubida (reqSubida "image/png" "u1.png")).world.db.recuerdos
      = mundoEjemplo.db.recuerdos ++
        [{ id := 2, diario_id := "j1", tipo := "foto", url := ["media", "diarios", "j1", "u1.png"]
           thumbnail_url := some ["media", "diarios", "j1", "thumbnails", "thumb-u2.webp"]
           fecha := "2024-03-01", descripcion := none, favorito := 0, fecha_subida := 5 }] := by
  decide

/-! ## C14, C15: listings -/

theorem all_agregar {γ : Type} (campo : Option String) (c : String → γ) (sql : List γ)
    (ev : γ → Bool) :
    (agregar campo c sql).all ev
      = (sql.all ev && (match campo with
          | some v => v == "" || ev (c v)
          | none => true)) := by
  cases campo with
  | none => simp [agregar]
  | some v =>
    by_cases hv : v = ""
    · simp [agregar, hv]
    · have hv1 : (v == "") = false := by simpa using hv
      simp [agregar, hv, hv1, List.all_append]

/-- The statements `getEventos` builds select the rows `coincideEvento`
describes, the row statement and the count statement alike. -/
theorem getEventos_eq (w : World) (env : Env) (req : Req) (J : String)
    (hJ : req.diarioId = .str J) :
    getEventos w env req
      = match enteroDePagina (req.query.limit.getD "10"), enteroDePagina (req.query.offset.getD "0") with
        | some limit, some offset =>
          responder w req 200 (.eventos
            (limitOffset limit offset
              (ordenarEventos (w.db.eventos.filter (coincideEvento J req.query))))
            (w.db.eventos.filter (coincideEvento J req.query)).length)
        | _, _ => fallar w req { message := "SQLITE_MISMATCH: datatype mismatch" } := by
  have hpred : ∀ sql : List CondEvento,
      sql = agregar req.query.searchQuery (fun t => CondEvento.busca ("%" ++ t ++ "%"))
        ((if req.query.favorito == some "1" then
          (agregar req.query.fechaFin CondEvento.fechaHasta
            (agregar req.query.fechaInicio CondEvento.fechaDesde
              (agregar req.query.tipo CondEvento.tipo [])) ++ [CondEvento.favorito])
        else
          agregar req.query.fechaFin CondEvento.fechaHasta
            (agregar req.query.fechaInicio CondEvento.fechaDesde
              (agregar req.query.tipo CondEvento.tipo [])))) →
      (fun e : Evento => sqlTextEq e.diario_id req.diarioId && sql.all (fun c => c.cumple e))
        = coincideEvento J req.query := by
    intro sql hsql
    funext e
    have hd : sqlTextEq e.diario_id req.diarioId = (e.diario_id == J) := by
      rw [hJ, Bool.eq_iff_iff, sqlTextEq_str, beq_iff_eq]
    rw [hsql, hd, all_agregar]
    by_cases hf : req.query.favorito = some "1"
    · simp only [hf, beq_self_eq_true, if_true, List.all_append, all_agregar, List.all_nil,
        List.all_cons, Bool.true_and, Bool.and_true, coincideEvento, CondEvento.cumple, bne_self_eq_false,
        Bool.false_or]
      cases req.query.tipo <;> cases req.query.fechaInicio <;> cases req.query.fechaFin <;>
        cases req.query.searchQuery <;> simp [Bool.and_assoc]
    · have hf1 : (req.query.favorito == some "1") = false := by simpa using hf
      have hf2 : (req.query.favorito != some "1") = true := by simpa using hf
      simp only [hf1, Bool.false_eq_true, if_false, all_agregar, List.all_nil, Bool.true_and,
        coincideEvento, CondEvento.cumple, hf2, Bool.true_or, Bool.and_true]
      cases req.query.tipo <;> cases req.query.fechaInicio <;> cases req.query.fechaFin <;>
        cases req.query.searchQuery <;> simp [Bool.and_assoc]
  unfold getEventos
  simp only []
  by_cases hf : req.query.favorito = some "1"
  · simp only [hf, beq_self_eq_true, if_true]
    rw [hpred _ (by simp only [hf, beq_self_eq_true, if_true])]
  · have hf1 : (req.query.favorito == some "1") = false := by simpa using hf
    simp only [hf1, Bool.false_eq_true, if_false]
    rw [hpred _ (by simp only [hf1, Bool.false_eq_true, if_false])]

/-- The statements `getRecuerdos` builds select the rows `coincideRecuerdo`
describes, the row statement and the count statement alike. -/
theorem getRecuerdos_eq (w : World) (env : Env) (req : Req) (J : String)
    (hJ : req.diarioId = .str J) :
    getRecuerdos w env req
      = match enteroDePagina (req.query.limit.getD "12"), enteroDePagina (req.query.offset.getD "0") with
        | some limit, some offset =>
          responder w req 200 (.recuerdos
            (limitOffset limit offset
              (ordenarRecuerdos (w.db.recuerdos.filter (coincideRecuerdo J req.query))))
            (w.db.recuerdos.filter (coincideRecuerdo J req.query)).length)
        | _, _ => fallar w req { message := "SQLITE_MISMATCH: datatype mismatch" } := by
  have hpred : ∀ sql : List CondRecuerdo,
      sql = agregar req.query.searchQuery (fun t => CondRecuerdo.busca ("%" ++ t ++ "%"))
        ((if req.query.favorito == some "1" then
          (agregar req.query.tipo CondRecuerdo.tipo [] ++ [CondRecuerdo.favorito])
        else agregar req.query.tipo CondRecuerdo.tipo [])) →
      (fun r : Recuerdo => sqlTextEq r.diario_id req.diarioId && sql.all (fun c => c.cumple r))
        = coincideRecuerdo J req.query := by
    intro sql hsql
    funext r
    have hd : sqlTextEq r.diario_id req.diarioId = (r.diario_id == J) := by
      rw [hJ, Bool.eq_iff_iff, sqlTextEq_str, beq_iff_eq]
    rw [hsql, hd, all_agregar]
    by_cases hf : req.query.favorito = some "1"
    · simp only [hf, beq_self_eq_true, if_true, List.all_append, all_agregar, List.all_nil,
        List.all_cons, Bool.true_and, Bool.and_true, coincideRecuerdo, CondRecuerdo.cumple,
        bne_self_eq_false, Bool.false_or]
      cases req.query.tipo <;> cases req.query.searchQuery <;> simp [Bool.and_assoc]
    · have hf1 : (req.query.favorito == some "1") = false := by simpa using hf
      have hf2 : (req.query.favorito != some "1") = true := by simpa using hf
      simp only [hf1, Bool.false_eq_true, if_false, all_agregar, List.all_nil, Bool.true_and,
        coincideRecuerdo, CondRecuerdo.cumple, hf2, Bool.true_or, Bool.and_true]
      cases req.query.tipo <;> cases req.query.searchQuery <;> simp [Bool.and_assoc]
  unfold getRecuerdos
  simp only []
  by_cases hf : req.query.favorito = some "1"
  · simp only [hf, beq_self_eq_true, if_true]
    rw [hpred _ (by simp only [hf, beq_self_eq_true, if_true])]
  · have hf1 : (req.query.favorito == some "1") = false := by simpa using hf
    simp only [hf1, Bool.false_eq_true, if_false]
    rw [hpred _ (by simp only [hf1, Bool.false_eq_true, if_false])]

theorem ordenarEventos_perm (l : List Evento) : (ordenarEventos l).Perm l :=
  List.perm_insertionSort antesEvento l

theorem ordenarRecuerdos_perm (l : List Recuerdo) : (ordenarRecuerdos l).Perm l :=
  List.perm_insertionSort antesRecuerdo l

theorem ordenarEventos_sorted (l : List Evento) :
    (ordenarEventos l).Pairwise (fun a b =>
      b.fecha.toList < a.fecha.toList ∨
        (b.fecha.toList = a.fecha.toList ∧ b.hora.toList ≤ a.hora.toList)) := by
  have h := @List.sorted_insertionSort _ antesEvento _ ⟨fun a b => le_total _ _⟩
    ⟨fun a b c h1 h2 => le_trans h2 h1⟩ l
  refine List.Pairwise.imp ?_ h
  intro a b hab
  exact (Prod.Lex.le_iff _ _).mp hab

theorem limitOffset_nat {α : Type} (L O : Nat) (rows : List α) :
    limitOffset (L : Int) (O : Int) rows = (rows.drop O).take L := by
  simp [limitOffset]

/-- C14: `getEventos` and `getRecuerdos`, for a fixed store, journal `J` and
fixed filters: whatever `limit` and `offset` the query carries, a total that
is returned equals the number of rows of `J` that satisfy all supplied
filters; a list with that total is returned whenever `limit` and `offset`
read as integers that fit in 64 bits (`enteroDePagina`; otherwise the row
statement fails and nothing is returned); and with `limit = -1` (no limit)
and `offset = 0` the number of items returned is that total. -/
theorem listing_total (w : World) (env : Env) (req : Req) (J : String)
    (hJ : req.diarioId = .str J) :
    ((∀ limit offset items total,
        (getEventos w env (req.conPagina limit offset)).out = .sent ⟨200, .eventos items total⟩ →
        total = (w.db.eventos.filter (coincideEvento J req.query)).length) ∧
      (∀ limit offset L O, enteroDePagina (limit.getD "10") = some L →
        enteroDePagina (offset.getD "0") = some O →
        ∃ items, (getEventos w env (req.conPagina limit offset)).out
          = .sent ⟨200, .eventos items (w.db.eventos.filter (coincideEvento J req.query)).length⟩) ∧
      (∃ items, (getEventos w env (req.conPagina (some "-1") (some "0"))).out
          = .sent ⟨200, .eventos items (w.db.eventos.filter (coincideEvento J req.query)).length⟩ ∧
        items.length = (w.db.eventos.filter (coincideEvento J req.query)).length)) ∧
    ((∀ limit offset items total,
        (getRecuerdos w env (req.conPagina limit offset)).out
          = .sent ⟨200, .recuerdos items total⟩ →
        total = (w.db.recuerdos.filter (coincideRecuerdo J req.query)).length) ∧
      (∀ limit offset L O, enteroDePagina (limit.getD "12") = some L →
        enteroDePagina (offset.getD "0") = some O →
        ∃ items, (getRecuerdos w env (req.conPagina limit offset)).out
          = .sent ⟨200, .recuerdos items
              (w.db.recuerdos.filter (coincideRecuerdo J req.query)).length⟩) ∧
      (∃ items, (getRecuerdos w env (req.conPagina (some "-1") (some "0"))).out
          = .sent ⟨200, .recuerdos items
              (w.db.recuerdos.filter (coincideRecuerdo J req.query)).length⟩ ∧
        items.length = (w.db.recuerdos.filter (coincideRecuerdo J req.query)).length)) := by
  have hE : ∀ limit offset, getEventos w env (req.conPagina limit offset)
      = match enteroDePagina (limit.getD "10"), enteroDePagina (offset.getD "0") with
        | some l, some o =>
          responder w (req.conPagina limit offset) 200 (.eventos
            (limitOffset l o (ordenarEventos (w.db.eventos.filter (coincideEvento J req.query))))
            (w.db.eventos.filter (coincideEvento J req.query)).length)
        | _, _ => fallar w (req.conPagina limit offset)
            { message := "SQLITE_MISMATCH: datatype mismatch" } :=
    fun limit offset => getEventos_eq w env (req.conPagina limit offset) J hJ
  have hR : ∀ limit offset, getRecuerdos w env (req.conPagina limit offset)
      = match enteroDePagina (limit.getD "12"), enteroDePagina (offset.getD "0") with
        | some l, some o =>
          responder w (req.conPagina limit offset) 200 (.recuerdos
            (limitOffset l o
              (ordenarRecuerdos (w.db.recuerdos.filter (coincideRecuerdo J req.query))))
            (w.db.recuerdos.filter (coincideRecuerdo J req.query)).length)
        | _, _ => fallar w (req.conPagina limit offset)
            { message := "SQLITE_MISMATCH: datatype mismatch" } :=
    fun limit offset => getRecuerdos_eq w env (req.conPagina limit offset) J hJ
  have hm1 : enteroDePagina ((some "-1" : Option String).getD "10") = some (-1) := by decide
  have hm2 : enteroDePagina ((some "-1" : Option String).getD "12") = some (-1) := by decide
  have hz : enteroDePagina ((some "0" : Option String).getD "0") = some 0 := by decide
  refine ⟨⟨?_, ?_, ?_⟩, ⟨?_, ?_, ?_⟩⟩
  · intro limit offset items total hout
    rw [hE] at hout
    split at hout
    · simp only [responder, Outcome.sent.injEq, Resp.mk.injEq, ResBody.eventos.injEq, true_and] at hout
      exact hout.2.symm
    · simp [fallar] at hout
  · intro limit offset L O hL hO
    rw [hE, hL, hO]
    exact ⟨_, rfl⟩
  · rw [hE, hm1, hz]
    refine ⟨_, rfl, ?_⟩
    simp only [limitOffset, Int.toNat_zero, List.drop_zero]
    exact (ordenarEventos_perm _).length_eq
  · intro limit offset items total hout
    rw [hR] at hout
    split at hout
    · simp only [responder, Outcome.sent.injEq, Resp.mk.injEq, ResBody.recuerdos.injEq, true_and]
        at hout
      exact hout.2.symm
    · simp [fallar] at hout
  · intro limit offset L O hL hO
    rw [hR, hL, hO]
    exact ⟨_, rfl⟩
  · rw [hR, hm2, hz]
    refine ⟨_, rfl, ?_⟩
    simp only [limitOffset, Int.toNat_zero, List.drop_zero]
    exact (ordenarRecuerdos_perm _).length_eq

/-- Witness of C14: listing the events of `j1` with `limit = 1, offset = 5`
returns no item and the total 1. -/
theorem listing_total_witness :
    ∃ items, (getEventos mundoEjemplo {} ((reqListar {}).conPagina (some "1") (some "5"))).out
      = .sent ⟨200, .eventos items
          (mundoEjemplo.db.eventos.filter (coincideEvento "j1" (reqListar {}).query)).length⟩ :=
  (listing_total mundoEjemplo {} (reqListar {}) "j1" rfl).1.2.1 (some "1") (some "5") 1 5
    (by decide) (by decide)

theorem campo_iff (c : Option String) (P : String → Bool) :
    (match c with
      | some t => t == "" || P t
      | none => true) = true ↔ ∀ t, c = some t → t ≠ "" → P t = true := by
  cases c with
  | none => simp
  | some v =>
    by_cases hv : v = ""
    · simp [hv]
    · simp [hv]

theorem coincideEvento_iff (J : String) (q : Query) (e : Evento) :
    coincideEvento J q e = true ↔
      e.diario_id = J ∧
      (∀ t, q.tipo = some t → t ≠ "" → e.tipo = t) ∧
      (∀ f, q.fechaInicio = some f → f ≠ "" → f.toList ≤ e.fecha.toList) ∧
      (∀ f, q.fechaFin = some f → f ≠ "" → e.fecha.toList ≤ f.toList) ∧
      (q.favorito = some "1" → e.favorito = 1) ∧
      (∀ t, q.searchQuery = some t → t ≠ "" →
        sqlLike e.descripcion ("%" ++ t ++ "%") = true ∨
          sqlLike e.notas ("%" ++ t ++ "%") = true) := by
  have hfav : (q.favorito != some "1" || e.favorito == 1) = true ↔
      (q.favorito = some "1" → e.favorito = 1) := by
    by_cases hf : q.favorito = some "1"
    · simp [hf]
    · simp [hf]
  unfold coincideEvento
  simp only [Bool.and_eq_true, campo_iff, hfav, beq_iff_eq, textoLe, decide_eq_true_eq,
    Bool.or_eq_true, and_assoc]

theorem redondear53_exacto (n : Nat) (h : n < 2 ^ 53) : redondear53 n = n := by
  have he : exceso n n = 0 := by
    cases n with
    | zero => rfl
    | succ k =>
      show (if k + 1 < 2 ^ 53 then 0 else exceso k ((k + 1) / 2) + 1) = 0
      rw [if_pos h]
  simp [redondear53, he]

/-- A page parameter that `parseInt` reads as a natural number below `2 ^ 53`
reaches SQLite as that number. -/
theorem enteroDePagina_exacto (t : String) (n : Nat) (ht : parseInt10 t = some (n : Int))
    (hn : n < 2 ^ 53) : enteroDePagina t = some (n : Int) := by
  have h1 : aDoble (n : Int) = (n : Int) := by
    have hneg : ¬ ((n : Int) < 0) := by omega
    simp only [aDoble, hneg, if_false, Int.natAbs_ofNat, redondear53_exacto n hn]
  have h2 : ((n : Int).natAbs) < 2 ^ 63 := by
    simp only [Int.natAbs_ofNat]
    exact lt_trans hn (by norm_num)
  simp only [enteroDePagina, ht, h1, h2, if_true]

/-- C15 as stated fails for a `limit` of `2 ^ 63` or more: user 2 lists the
events of `j1` with `limit = 100000000000000000000`; SQLite refuses the
parameter (`SQLITE_MISMATCH`), no items are returned and the answer is 500. -/
theorem getEventos_huge_limit_is_500 :
    parseInt10 "100000000000000000000" = some 100000000000000000000 ∧
      (listarEventos mundoEjemplo {}
          { reqDe 2 "j1" with query := { limit := some "100000000000000000000" } }).out
        = .nextErr { message := "SQLITE_MISMATCH: datatype mismatch" } ∧
      respuesta {} (listarEventos mundoEjemplo {}
          { reqDe 2 "j1" with query := { limit := some "100000000000000000000" } })
        = some ⟨500, .error "SQLITE_MISMATCH: datatype mismatch"⟩ := by
  refine ⟨by decide, by decide, by decide⟩

/-- C15 (amended): `getEventos`, for every store, journal `J`, filters and
non-negative `limit` and `offset` that reach SQLite as 64-bit integers
(`enteroDePagina`: as `parseInt` reads them, which is exact below `2 ^ 53`,
and below `2 ^ 63`): there is a list `rows` holding exactly the rows of
`eventos` with `diario_id = J` that satisfy every supplied filter (`tipo`
equal, `fecha >= fechaInicio`, `fecha <= fechaFin`, `favorito = 1` when
`favorito` is `'1'`, the search text found by `LIKE` in `descripcion` or
`notas`), each as often as in the table, ordered by stored `fecha` descending
and then stored `hora` descending, such that the response is 200 with the
items `rows` without its first `offset` rows and cut to `limit` rows, and the
total `rows.length`.  With exactly one event `E` in `J` and an empty query the
response holds the items `[E]` and the total 1. -/
theorem getEventos_items (w : World) (env : Env) (req : Req) (J : String)
    (hJ : req.diarioId = .str J) :
    (∀ L O : Nat, enteroDePagina (req.query.limit.getD "10") = some (L : Int) →
      enteroDePagina (req.query.offset.getD "0") = some (O : Int) →
      ∃ rows : List Evento,
        rows.Perm (w.db.eventos.filter (coincideEvento J req.query)) ∧
        (∀ e, e ∈ rows ↔ e ∈ w.db.eventos ∧ e.diario_id = J ∧
          (∀ t, req.query.tipo = some t → t ≠ "" → e.tipo = t) ∧
          (∀ f, req.query.fechaInicio = some f → f ≠ "" → f.toList ≤ e.fecha.toList) ∧
          (∀ f, req.query.fechaFin = some f → f ≠ "" → e.fecha.toList ≤ f.toList) ∧
          (req.query.favorito = some "1" → e.favorito = 1) ∧
          (∀ t, req.query.searchQuery = some t → t ≠ "" →
            sqlLike e.descripcion ("%" ++ t ++ "%") = true ∨
              sqlLike e.notas ("%" ++ t ++ "%") = true)) ∧
        rows.Pairwise (fun a b =>
          b.fecha.toList < a.fecha.toList ∨
            (b.fecha.toList = a.fecha.toList ∧ b.hora.toList ≤ a.hora.toList)) ∧
        getEventos w env req
          = responder w req 200 (.eventos ((rows.drop O).take L) rows.length)) ∧
    (∀ (t : String) (n : Nat), parseInt10 t = some (n : Int) → n < 2 ^ 53 →
      enteroDePagina t = some (n : Int)) ∧
    (req.query = {} → ∀ E, w.db.eventos.filter (fun e => e.diario_id == J) = [E] →
      getEventos w env req = responder w req 200 (.eventos [E] 1)) := by
  refine ⟨?_, enteroDePagina_exacto, ?_⟩
  · intro L O hL hO
    refine ⟨ordenarEventos (w.db.eventos.filter (coincideEvento J req.query)),
      ordenarEventos_perm _, ?_, ordenarEventos_sorted _, ?_⟩
    · intro e
      rw [(ordenarEventos_perm _).mem_iff, List.mem_filter, coincideEvento_iff]
    · rw [getEventos_eq w env req J hJ, hL, hO]
      simp only [limitOffset_nat, (ordenarEventos_perm _).length_eq]
  · intro hq E hE
    have hf : w.db.eventos.filter (coincideEvento J req.query) = [E] := by
      rw [← hE]
      apply List.filter_congr
      intro e _
      rw [hq]
      simp [coincideEvento]
    have h10 : enteroDePagina ((none : Option String).getD "10") = some 10 := by decide
    have h0 : enteroDePagina ((none : Option String).getD "0") = some 0 := by decide
    rw [getEventos_eq w env req J hJ, hf, hq]
    show (match enteroDePagina ((none : Option String).getD "10"),
        enteroDePagina ((none : Option String).getD "0") with
      | some limit, some offset =>
        responder w req 200 (.eventos (limitOffset limit offset (ordenarEventos [E]))
          [E].length)
      | _, _ => fallar w req { message := "SQLITE_MISMATCH: datatype mismatch" }) = _
    rw [h10, h0]
    rfl

/-- Witness of C15 (amended), Scenario A: journal `j1` holds the one event of
`2024-01-05`, `08:30`; listing without filters returns it with total 1. -/
theorem getEventos_items_witness :
    (reqListar {}).query = {} ∧
      mundoEjemplo.db.eventos.filter (fun e => e.diario_id == "j1") = [eventoEjemplo] ∧
      getEventos mundoEjemplo {} (reqListar {})
        = responder mundoEjemplo (reqListar {}) 200 (.eventos [eventoEjemplo] 1) :=
  ⟨rfl, by decide,
    (getEventos_items mundoEjemplo {} (reqListar {}) "j1" rfl).2.2 rfl eventoEjemplo (by decide)⟩

/-! ## C21, C22: deleting a journal, the media directory and the session -/

/-- C21: `deleteDiario` by the owner of journal `J`, when the media directory
of `J` exists and its removal is rejected: the DELETE is never reached, the
handler returns the database and the session (with its active journal) as
they were and forwards the error, and the caller receives the status 500 of
the error handler, not the success response. -/
theorem deleteDiario_remove_fails (w : World) (env : Env) (req : Req) (J : String)
    (hrole : req.userRole = .str "owner") (hJ : req.diarioId = .str J)
    (hex : w.fs.existsSync (pathJoin directories_mediaUploads (segmentos J)) = true)
    (hfail : pathJoin directories_mediaUploads (segmentos J) ∈ env.removeFails) :
    (deleteDiario w env req).world.db = w.db ∧
      (deleteDiario w env req).session = req.session ∧
      (deleteDiario w env req).out
        = .nextErr { message := "EPERM: operation not permitted, unlink" } ∧
      respuesta env (deleteDiario w env req)
        = some ⟨500, .error (if env.production then "Ocurrió un error inesperado."
            else "EPERM: operation not permitted, unlink")⟩ := by
  have h : deleteDiario w env req
      = fallar w req { message := "EPERM: operation not permitted, unlink" } := by
    simp [deleteDiario, hrole, hJ, mediaDirOf, hex, fsRemove, hfail]
  have h1 : jsIncludes "EPERM: operation not permitted, unlink" "Tipo de archivo no permitido"
      = false := by decide
  have h2 : jsIncludes "EPERM: operation not permitted, unlink" "ID del diario no proporcionado"
      = false := by decide
  rw [h]
  refine ⟨rfl, rfl, rfl, ?_⟩
  simp [respuesta, fallar, errorHandler, h1, h2]

/-- Witness of C21: the owner deletes `j1` on the route while the removal of
`public/media/diarios/j1` is rejected; every table is as before. -/
theorem deleteDiario_remove_fails_witness :
    (deleteDiario mundoEjemplo envMediaBloqueada reqBorrarDiarioOwner).world.db = mundoEjemplo.db :=
  (deleteDiario_remove_fails mundoEjemplo envMediaBloqueada reqBorrarDiarioOwner "j1" rfl rfl
    (by decide) (by decide)).1

/-- The two ways `deleteDiario` ends when `COMMIT` is not rejected: it returns
the session as it was and no success response, or it sends the success
response for a journal id that is a string, with the active journal cleared
exactly when it was that id. -/
theorem deleteDiario_cases (w : World) (env : Env) (req : Req)
    (hcommit : env.commitFails = false) :
    ((deleteDiario w env req).session = req.session ∧
      (deleteDiario w env req).out ≠ .sent ⟨200, .message "Diario eliminado con éxito."⟩) ∨
    ((deleteDiario w env req).out = .sent ⟨200, .message "Diario eliminado con éxito."⟩ ∧
      (∃ J, req.diarioId = .str J) ∧
      (deleteDiario w env req).session
        = if req.session.activeDiarioId = req.diarioId then
            { req.session with activeDiarioId := .undefined } else req.session) := by
  unfold deleteDiario
  split
  · exact Or.inl ⟨rfl, by simp [responder]⟩
  · cases hd : req.diarioId with
    | str J =>
      simp only [mediaDirOf]
      split
      · exact Or.inl ⟨rfl, by simp [fallar]⟩
      · split
        · exact Or.inl ⟨rfl, by simp [fallar]⟩
        · simp only [hcommit]
          exact Or.inr ⟨rfl, ⟨J, rfl⟩, rfl⟩
    | undefined => exact Or.inl ⟨rfl, by simp [mediaDirOf, fallar]⟩
    | null => exact Or.inl ⟨rfl, by simp [mediaDirOf, fallar]⟩
    | bool b => exact Or.inl ⟨rfl, by simp [mediaDirOf, fallar]⟩
    | num n => exact Or.inl ⟨rfl, by simp [mediaDirOf, fallar]⟩

/-- C22 fails when the statement `COMMIT` is rejected: the owner of `j1`,
whose session has `j1` as the active journal, deletes it on the route
`DELETE /api/diarios/j1`.  The handler deletes `activeDiarioId` from the
session before it awaits `COMMIT`; the rejection leads to `ROLLBACK` and to
the error handler, so the delete fails, every table is as before, and yet the
session has lost its active journal. -/
theorem deleteDiario_commit_rejected :
    (api .eliminarDiario mundoEjemplo { commitFails := true } reqBorrarDiarioActivo).out
        = .nextErr { message := "SQLITE_BUSY: database is locked" } ∧
      (api .eliminarDiario mundoEjemplo { commitFails := true } reqBorrarDiarioActivo).world.db
        = mundoEjemplo.db ∧
      reqBorrarDiarioActivo.session.activeDiarioId = .str "j1" ∧
      (api .eliminarDiario mundoEjemplo { commitFails := true }
          reqBorrarDiarioActivo).session.activeDiarioId = .undefined := by
  decide

/-- The session after `deleteDiario` when `COMMIT` is not rejected: after a
successful delete of journal `J` the session's `activeDiarioId` is absent
(`undefined`) when it was `J` before the call and is what it was when it held
any other value or was absent, and the rest of the session is unchanged; when
the delete does not succeed, the session is returned as it was. -/
theorem deleteDiario_active (w : World) (env : Env) (req : Req)
    (hcommit : env.commitFails = false) :
    ((deleteDiario w env req).out = .sent ⟨200, .message "Diario eliminado con éxito."⟩ →
      ∃ J, req.diarioId = .str J ∧
        (deleteDiario w env req).session.userId = req.session.userId ∧
        (req.session.activeDiarioId = .str J →
          (deleteDiario w env req).session.activeDiarioId = .undefined) ∧
        (req.session.activeDiarioId ≠ .str J →
          (deleteDiario w env req).session.activeDiarioId = req.session.activeDiarioId)) ∧
    ((deleteDiario w env req).out ≠ .sent ⟨200, .message "Diario eliminado con éxito."⟩ →
      (deleteDiario w env req).session = req.session) := by
  rcases deleteDiario_cases w env req hcommit with ⟨hs, hout⟩ | ⟨hout, ⟨J, hJ⟩, hs⟩
  · exact ⟨fun h => absurd h hout, fun _ => hs⟩
  · refine ⟨fun _ => ⟨J, hJ, ?_, ?_, ?_⟩, fun h => absurd hout h⟩
    · rw [hs]
      split <;> rfl
    · intro hact
      rw [hs, if_pos (hact.trans hJ.symm)]
    · intro hact
      rw [hs, if_neg (fun h => hact (h.trans hJ))]

/-- On the route `DELETE /api/diarios/j1`, with `COMMIT` not rejected: the
owner's session has `j1` as the active journal, the delete succeeds and the
marker is gone; with another active journal or none the marker stays; and
when the removal of the media directory is rejected the session keeps `j1`. -/
theorem deleteDiario_active_ejemplo :
    (api .eliminarDiario mundoEjemplo {} reqBorrarDiarioActivo).session
        = { userId := some 1, activeDiarioId := .undefined } ∧
      (api .eliminarDiario mundoEjemplo {}
          { reqDe 1 "j1" with session := { userId := some 1, activeDiarioId := .str "j9" } }).session
        = { userId := some 1, activeDiarioId := .str "j9" } ∧
      (api .eliminarDiario mundoEjemplo {} (reqDe 1 "j1")).session = { userId := some 1 } ∧
      (deleteDiario mundoEjemplo envMediaBloqueada
          { reqBorrarDiarioActivo with diarioId := .str "j1", userRole := .str "owner" }).session
        = { userId := some 1, activeDiarioId := .str "j1" } :=
  ⟨by decide, by decide, by decide,
    (deleteDiario_active mundoEjemplo envMediaBloqueada
      { reqBorrarDiarioActivo with diarioId := .str "j1", userRole := .str "owner" } rfl).2
      (by decide)⟩

/-! ## C27: the error handler on unexpected errors -/

/-- C27: the global error handler, for every error that is not a
`MulterError`, has no `status` field and whose message contains neither
`Tipo de archivo no permitido` nor `ID del diario no proporcionado`: the
response has status 500 and its error text is the fixed generic message when
`NODE_ENV` is `production` and the message of the error otherwise. -/
theorem errorHandler_unexpected (env : Env) (err : Err)
    (hmulter : err.multerCode = none) (hstatus : err.status = none)
    (htipo : jsIncludes err.message "Tipo de archivo no permitido" = false)
    (hid : jsIncludes err.message "ID del diario no proporcionado" = false) :
    errorHandler env err
      = ⟨500, .error (if env.production then "Ocurrió un error inesperado." else err.message)⟩ ∧
    (env.production = true →
      errorHandler env err = ⟨500, .error "Ocurrió un error inesperado."⟩) ∧
    (env.production = false → errorHandler env err = ⟨500, .error err.message⟩) := by
  have h : errorHandler env err
      = ⟨500, .error (if env.production then "Ocurrió un error inesperado." else err.message)⟩ := by
    simp [errorHandler, hmulter, hstatus, htipo, hid]
  refine ⟨h, ?_, ?_⟩
  · intro hp
    rw [h, if_pos hp]
  · intro hp
    rw [h, hp]
    rfl

/-- Witness of C27: a constraint error of SQLite outside production and in
production. -/
theorem errorHandler_unexpected_witness :
    errorHandler {} (sqliteConstraint "FOREIGN KEY constraint failed")
        = ⟨500, .error "SQLITE_CONSTRAINT: FOREIGN KEY constraint failed"⟩ ∧
      errorHandler { production := true } (sqliteConstraint "FOREIGN KEY constraint failed")
        = ⟨500, .error "Ocurrió un error inesperado."⟩ :=
  ⟨(errorHandler_unexpected {} (sqliteConstraint "FOREIGN KEY constraint failed") rfl rfl
      (by decide) (by decide)).2.2 rfl,
    (errorHandler_unexpected { production := true }
      (sqliteConstraint "FOREIGN KEY constraint failed") rfl rfl (by decide) (by decide)).2.1 rfl⟩

/-! ## C23: the input phase of `checkDiarioAccess` -/

/-- C23: `checkDiarioAccess`, for every request.  The journal id is the first
non-empty (truthy) value among the path parameter `diarioId`, the body field
`diario_id` and the query field `diario_id`, in that order, and it is the id
attached to the request when access is granted.  When all three are empty the
answer is 400 whatever the store and the session are, and 400 is answered in
no other case.  When an id is present and the session has no user id the
answer is 401 whatever the store is. -/
theorem checkDiarioAccess_input (req : Req) :
    (req.params.diarioId.truthy = true → diarioIdPedido req = req.params.diarioId) ∧
    (req.params.diarioId.truthy = false → req.body.diario_id.truthy = true →
      diarioIdPedido req = req.body.diario_id) ∧
    (req.params.diarioId.truthy = false → req.body.diario_id.truthy = false →
      diarioIdPedido req = req.query.diario_id) ∧
    (∀ db, (checkDiarioAccess db req).2 = .next →
      (checkDiarioAccess db req).1.diarioId = diarioIdPedido req) ∧
    (req.params.diarioId.truthy = false → req.body.diario_id.truthy = false →
      req.query.diario_id.truthy = false →
      ∀ db, checkDiarioAccess db req
        = (req, .sent ⟨400, .error "ID del diario no proporcionado en la petición."⟩)) ∧
    (∀ db, (checkDiarioAccess db req).2
        = .sent ⟨400, .error "ID del diario no proporcionado en la petición."⟩ →
      req.params.diarioId.truthy = false ∧ req.body.diario_id.truthy = false ∧
        req.query.diario_id.truthy = false) ∧
    ((diarioIdPedido req).truthy = true → req.session.autenticado = none →
      ∀ db, checkDiarioAccess db req
        = (req, .sent ⟨401, .error "No autorizado para esta acción."⟩)) := by
  have hdef : ∀ db, checkDiarioAccess db req
      = if !(diarioIdPedido req).truthy then
          (req, .sent ⟨400, .error "ID del diario no proporcionado en la petición."⟩)
        else
          match req.session.autenticado with
          | none => (req, .sent ⟨401, .error "No autorizado para esta acción."⟩)
          | some userId =>
            match db.diarios.find?
                (fun d => sqlTextEq d.id (diarioIdPedido req) && d.user_id == userId) with
            | some _ =>
              ({ req with diarioId := diarioIdPedido req, userRole := .str "owner" }, .next)
            | none =>
              match db.diarios_compartidos.find?
                  (fun c => sqlTextEq c.diario_id (diarioIdPedido req) && c.user_id == userId) with
              | some sharedAccess =>
                ({ req with diarioId := diarioIdPedido req, userRole := .str sharedAccess.rol },
                  .next)
              | none => (req, .sent ⟨403, .error "Acceso denegado al diario especificado."⟩) :=
    fun _ => rfl
  have hall : (diarioIdPedido req).truthy = false ↔
      req.params.diarioId.truthy = false ∧ req.body.diario_id.truthy = false ∧
        req.query.diario_id.truthy = false := by
    unfold diarioIdPedido JsVal.or
    cases hp : req.params.diarioId.truthy <;> cases hb : req.body.diario_id.truthy <;>
      simp [hp, hb]
  refine ⟨?_, ?_, ?_, ?_, ?_, ?_, ?_⟩
  · intro hp
    simp [diarioIdPedido, JsVal.or, hp]
  · intro hp hb
    simp [diarioIdPedido, JsVal.or, hp, hb]
  · intro hp hb
    simp [diarioIdPedido, JsVal.or, hp, hb]
  · intro db hnext
    rw [hdef] at hnext ⊢
    split at hnext
    · simp at hnext
    · rename_i hid
      rw [if_neg hid]
      split at hnext
      · simp at hnext
      · split at hnext
        · rfl
        · split at hnext
          · rfl
          · simp at hnext
  · intro hp hb hq db
    rw [hdef, if_pos (by simp [hall.mpr ⟨hp, hb, hq⟩])]
  · intro db h400
    rw [hdef] at h400
    split at h400
    · rename_i hid
      exact hall.mp (by simpa using hid)
    · split at h400
      · simp at h400
      · split at h400
        · simp at h400
        · split at h400 <;> simp at h400
  · intro hid hses db
    rw [hdef, if_neg (by simp [hid]), hses]

/-- Witness of C23: with no path parameter, body `diario_id = 'jb'` and query
`diario_id = 'jq'` the id is `jb`; with an empty body field it is `jq`; a
request with an id and no session is answered 401 and one without any id 400,
on the sample store. -/
theorem checkDiarioAccess_input_witness :
    diarioIdPedido (reqSinRuta (.str "jb") (.str "jq")) = .str "jb" ∧
      diarioIdPedido (reqSinRuta (.str "") (.str "jq")) = .str "jq" ∧
      checkDiarioAccess dbEjemplo (reqSinRuta (.str "") (.str "jq"))
        = (reqSinRuta (.str "") (.str "jq"),
            .sent ⟨401, .error "No autorizado para esta acción."⟩) ∧
      checkDiarioAccess dbEjemplo (reqSinRuta .undefined .undefined)
        = (reqSinRuta .undefined .undefined,
            .sent ⟨400, .error "ID del diario no proporcionado en la petición."⟩) :=
  ⟨(checkDiarioAccess_input (reqSinRuta (.str "jb") (.str "jq"))).2.1 rfl rfl,
    (checkDiarioAccess_input (reqSinRuta (.str "") (.str "jq"))).2.2.1 rfl rfl,
    (checkDiarioAccess_input (reqSinRuta (.str "") (.str "jq"))).2.2.2.2.2.2 rfl rfl dbEjemplo,
    (checkDiarioAccess_input (reqSinRuta .undefined .undefined)).2.2.2.2.1 rfl rfl rfl dbEjemplo⟩

/-! ## C30: the stored favourite flag -/

theorem forall₂_map_self {α : Type} (R : α → α → Prop) (g : α → α) (l : List α)
    (h : ∀ a ∈ l, R a (g a)) : List.Forall₂ R l (l.map g) := by
  induction l with
  | nil => exact List.Forall₂.nil
  | cons a l ih =>
    exact List.Forall₂.cons (h a (List.mem_cons_self a l))
      (ih (fun b hb => h b (List.mem_cons_of_mem a hb)))

theorem flag_zero_iff (v : JsVal) :
    flag v = 0 ↔ v = .undefined ∨ v = .str "" ∨ v = .bool false ∨ v = .num 0 ∨ v = .null := by
  cases v with
  | undefined => simp [flag, JsVal.truthy]
  | null => simp [flag, JsVal.truthy]
  | bool b => cases b <;> simp [flag, JsVal.truthy]
  | num n =>
    by_cases hn : n = 0
    · simp [flag, JsVal.truthy, hn]
    · simp [flag, JsVal.truthy, hn]
  | str t =>
    by_cases ht : t = ""
    · simp [flag, JsVal.truthy, ht]
    · simp [flag, JsVal.truthy, ht]

theorem insertEvento_rows (db db1 : Db) (now id : Nat) (diarioId : JsVal) (b : Body)
    (h : insertEvento db now diarioId b = .ok (db1, id)) :
    ∃ row, db1.eventos = db.eventos ++ [row] ∧ row.favorito = flag b.favorito := by
  unfold insertEvento at h
  split at h
  · split at h
    · cases h
    · simp only [Except.ok.injEq, Prod.mk.injEq] at h
      exact ⟨_, by rw [← h.1], rfl⟩
  all_goals cases h

theorem insertRecuerdo_rows (db db1 : Db) (now id : Nat) (diarioId : JsVal) (tipo : String)
    (url : Path) (thumbnailUrl : Option Path) (b : Body)
    (h : insertRecuerdo db now diarioId tipo url thumbnailUrl b = .ok (db1, id)) :
    ∃ row, db1.recuerdos = db.recuerdos ++ [row] ∧ row.favorito = flag b.favorito := by
  unfold insertRecuerdo at h
  split at h
  · split at h
    · cases h
    · simp only [Except.ok.injEq, Prod.mk.injEq] at h
      exact ⟨_, by rw [← h.1], rfl⟩
  · cases h
  · cases h

theorem updateEventoRows_rows (db db1 : Db) (req : Req) (n : Nat)
    (h : updateEventoRows db req = .ok (db1, n)) :
    db1.eventos = db.eventos ∨
      List.Forall₂ (fun e e1 => if esEvento req e = true then
          e1.id = e.id ∧ e1.favorito = flag req.body.favorito else e1 = e)
        db.eventos db1.eventos := by
  unfold updateEventoRows at h
  simp only at h
  split at h
  · simp only [Except.ok.injEq, Prod.mk.injEq] at h
    exact Or.inl (by rw [← h.1])
  · split at h
    · simp only [Except.ok.injEq, Prod.mk.injEq] at h
      refine Or.inr ?_
      rw [← h.1]
      apply forall₂_map_self
      intro e _
      split <;> simp
    all_goals cases h

theorem updateRecuerdoRows_rows (db db1 : Db) (req : Req) (n : Nat)
    (h : updateRecuerdoRows db req = .ok (db1, n)) :
    db1.recuerdos = db.recuerdos ∨
      List.Forall₂ (fun r r1 => if esRecuerdo req r = true then
          r1.id = r.id ∧ r1.favorito = flag req.body.favorito else r1 = r)
        db.recuerdos db1.recuerdos := by
  unfold updateRecuerdoRows at h
  simp only at h
  split at h
  · simp only [Except.ok.injEq, Prod.mk.injEq] at h
    exact Or.inl (by rw [← h.1])
  · split at h
    · simp only [Except.ok.injEq, Prod.mk.injEq] at h
      refine Or.inr ?_
      rw [← h.1]
      apply forall₂_map_self
      intro r _
      split <;> simp
    · cases h

/-- C30: every `favorito` value written by `createEvento`, `updateEvento`,
`createRecuerdo` and `updateRecuerdo` is the flag of the submitted `favorito`.
A create leaves the table as it was or appends one row carrying the flag; an
update leaves the table as it was or changes exactly the rows of the id in the
journal, each of which then carries the flag.  The flag is 1 when the
submitted value is truthy and 0 otherwise, so it is 0 or 1; the texts
`"false"` and `"0"` are stored as 1, and 0 is stored exactly for an absent,
empty, `false`, `0` or `null` value.  On the routes: a multipart upload with
`favorito = "false"` stores 1, and JSON updates with `false` and `"0"` store
0 and 1. -/
theorem favorito_stored (w : World) (env : Env) (req : Req) :
    ((createEvento w env req).world.db.eventos = w.db.eventos ∨
      ∃ row, (createEvento w env req).world.db.eventos = w.db.eventos ++ [row] ∧
        row.favorito = flag req.body.favorito) ∧
    ((updateEvento w env req).world.db.eventos = w.db.eventos ∨
      List.Forall₂ (fun e e1 => if esEvento req e = true then
          e1.id = e.id ∧ e1.favorito = flag req.body.favorito else e1 = e)
        w.db.eventos (updateEvento w env req).world.db.eventos) ∧
    ((createRecuerdo w env req).world.db.recuerdos = w.db.recuerdos ∨
      ∃ row, (createRecuerdo w env req).world.db.recuerdos = w.db.recuerdos ++ [row] ∧
        row.favorito = flag req.body.favorito) ∧
    ((updateRecuerdo w env req).world.db.recuerdos = w.db.recuerdos ∨
      List.Forall₂ (fun r r1 => if esRecuerdo req r = true then
          r1.id = r.id ∧ r1.favorito = flag req.body.favorito else r1 = r)
        w.db.recuerdos (updateRecuerdo w env req).world.db.recuerdos) ∧
    (∀ v : JsVal, (v.truthy = true → flag v = 1) ∧ (v.truthy = false → flag v = 0) ∧
      (flag v = 0 ∨ flag v = 1)) ∧
    flag (.str "false") = 1 ∧ flag (.str "0") = 1 ∧
    (∀ v : JsVal, flag v = 0 ↔
      v = .undefined ∨ v = .str "" ∨ v = .bool false ∨ v = .num 0 ∨ v = .null) ∧
    ((api .subirRecuerdo mundoEjemplo envSubida reqSubidaFavoritoTexto).world.db.recuerdos.map
        (fun r => (r.id, r.favorito)) = [(1, 0), (2, 1)]) ∧
    ((api .actualizarEvento mundoEjemplo {}
        (reqActualizarEventoFavorito (.bool false))).world.db.eventos.map
        (fun e => (e.id, e.favorito)) = [(1, 0)]) ∧
    ((api .actualizarEvento mundoEjemplo {}
        (reqActualizarEventoFavorito (.str "0"))).world.db.eventos.map
        (fun e => (e.id, e.favorito)) = [(1, 1)]) := by
  refine ⟨?_, ?_, ?_, ?_, ?_, by decide, by decide, flag_zero_iff, by decide, by decide,
    by decide⟩
  · unfold createEvento
    split
    · exact Or.inl rfl
    · split
      · exact Or.inl rfl
      · cases h : insertEvento w.db env.now req.diarioId req.body with
        | error e => exact Or.inl rfl
        | ok p =>
          obtain ⟨db1, id⟩ := p
          exact Or.inr (insertEvento_rows _ _ _ _ _ _ h)
  · unfold updateEvento
    split
    · exact Or.inl rfl
    · split
      · exact Or.inl rfl
      · cases h : updateEventoRows w.db req with
        | error e => exact Or.inl rfl
        | ok p =>
          obtain ⟨db1, n⟩ := p
          have h1 := updateEventoRows_rows _ _ _ _ h
          simp only
          split <;> exact h1
  · unfold createRecuerdo
    split
    · exact Or.inl rfl
    · split
      · exact Or.inl rfl
      · simp only
        split
        · exact Or.inl rfl
        · rename_i fs1 thumbnailUrl _
          cases h : insertRecuerdo w.db env.now req.diarioId
              (if jsStartsWith _ "image/" = true then "foto" else "video")
              (pathRelative directories_public _) thumbnailUrl req.body with
          | error e => exact Or.inl rfl
          | ok p =>
            obtain ⟨db1, id⟩ := p
            exact Or.inr (insertRecuerdo_rows _ _ _ _ _ _ _ _ _ h)
  · unfold updateRecuerdo
    split
    · exact Or.inl rfl
    · cases h : updateRecuerdoRows w.db req with
      | error e => exact Or.inl rfl
      | ok p =>
        obtain ⟨db1, n⟩ := p
        have h1 := updateRecuerdoRows_rows _ _ _ _ h
        simp only
        split <;> exact h1
  · intro v
    cases hv : v.truthy <;> simp [flag, hv]

/-! ## C28: the order of events of one day -/

/-- C28 (the code at the failing input): the owner logs two feeds on
2024-02-01, at `9:30` and at `10:00`; both values pass the `hora` check and
are stored as sent.  `10:00` is the later time of day, yet the listing has
the event of `9:30` first: `ORDER BY hora DESC` compares the texts, and `9`
sorts after `1`. -/
theorem getEventos_one_digit_hour_first :
    horaValida "9:30" = true ∧ horaValida "10:00" = true ∧
      minutosDelDia "9:30" = some 570 ∧ minutosDelDia "10:00" = some 600 ∧
      mundoDosHoras.db.eventos
        = [eventoEjemplo, tomaEjemplo 2 7 "9:30" none, tomaEjemplo 3 8 "10:00" none] ∧
      (listarEventos mundoDosHoras {} (reqDe 2 "j1")).out
        = .sent ⟨200, .eventos
            [tomaEjemplo 2 7 "9:30" none, tomaEjemplo 3 8 "10:00" none, eventoEjemplo] 3⟩ := by
  refine ⟨by decide, by decide, by decide, by decide, by decide, by decide⟩

/-! ## C24: the search text -/

/-- C24 (the code at the failing input): journal `j1` has an event described
as `biberon de 500 ml`, without notes.  A search for `50%` lists it although
`50%` occurs neither in its description nor in its notes, because the `%` of
the text acts as a wildcard of `LIKE`; likewise a search for `b_b`.  Searches
without `%` and `_` behave as substring searches: `BIBERON` finds the event
and `papilla` does not. -/
theorem getEventos_search_wildcards :
    mundoBiberon.db.eventos
        = [eventoEjemplo, tomaEjemplo 2 7 "10:00" (some "biberon de 500 ml")] ∧
      ocurreEn "50%" (some "biberon de 500 ml") = false ∧
      (listarEventos mundoBiberon {} (reqBuscar "50%")).out
        = .sent ⟨200, .eventos [tomaEjemplo 2 7 "10:00" (some "biberon de 500 ml")] 1⟩ ∧
      ocurreEn "b_b" (some "biberon de 500 ml") = false ∧
      (listarEventos mundoBiberon {} (reqBuscar "b_b")).out
        = .sent ⟨200, .eventos [tomaEjemplo 2 7 "10:00" (some "biberon de 500 ml")] 1⟩ ∧
      ocurreEn "BIBERON" (some "biberon de 500 ml") = true ∧
      (listarEventos mundoBiberon {} (reqBuscar "BIBERON")).out
        = .sent ⟨200, .eventos [tomaEjemplo 2 7 "10:00" (some "biberon de 500 ml")] 1⟩ ∧
      ocurreEn "papilla" (some "biberon de 500 ml") = false ∧
      (listarEventos mundoBiberon {} (reqBuscar "papilla")).out = .sent ⟨200, .eventos [] 0⟩ := by
  refine ⟨by decide, by decide, by decide, by decide, by decide, by decide, by decide, by decide,
    by decide⟩

/-! ## C25, C26: the temporary paths of an export -/

theorem exportDiario_eq (w : World) (env : Env) (req : Req) :
    exportDiario w env req
      = if req.userRole != .str "owner" then
          responder w req 403 (.error "Solo el propietario puede exportar el diario.")
        else
          match exportSteps w env req.diarioId (backupDir req.diarioId env.now)
              (outputZipPath req.diarioId) with
          | (fs4, none) =>
            if env.exportFails == some 4 then
              { world := { w with fs := fs4 }, session := req.session
                out := .uncaught { message := "archiver: entry failed" } }
            else
              responder
                { w with fs := (match fsRemove env fs4 (backupDir req.diarioId env.now) with
                  | .error _ => fs4
                  | .ok fs5 => fsRemoveCatch env fs5 (outputZipPath req.diarioId)) }
                req 200
                (.download (outputZipPath req.diarioId)
                  ("diario_backup_" ++ jsToString req.diarioId ++ ".zip"))
          | (fs1, some error) =>
            fallar
              { w with fs := (fsRemoveCatch env
                (fsRemoveCatch env fs1 (backupDir req.diarioId env.now))
                (outputZipPath req.diarioId)) }
              req error :=
  rfl

/-- C25 (the code at the failing input): two exports of `j1` by its owner,
started at times 100 and 200.  Their staging directories differ, but both use
the archive path `temp/diario_backup_j1.zip`, which has no time stamp.  When
the second export runs while the first is sending its archive, the cleanup of
the second removes the archive of the first. -/
theorem exportDiario_same_archive_path :
    backupDir (.str "j1") 100 = ["temp", "backup_j1_100"] ∧
      backupDir (.str "j1") 200 = ["temp", "backup_j1_200"] ∧
      (api .exportar mundoEjemplo { now := 100 } (reqDe 1 "j1")).out
        = .sent ⟨200, .download ["temp", "diario_backup_j1.zip"] "diario_backup_j1.zip"⟩ ∧
      (api .exportar mundoEjemplo { now := 200 } (reqDe 1 "j1")).out
        = .sent ⟨200, .download ["temp", "diario_backup_j1.zip"] "diario_backup_j1.zip"⟩ ∧
      mundoExportando.fs.existsSync ["temp", "diario_backup_j1.zip"] = true ∧
      (api .exportar mundoExportando { now := 200 } (reqDe 1 "j1")).world.fs.existsSync
        ["temp", "diario_backup_j1.zip"] = false ∧
      (api .exportar mundoExportando { now := 200 } (reqDe 1 "j1")).world.fs.existsSync
        ["temp", "backup_j1_100"] = true := by
  refine ⟨by decide, by decide, by decide, by decide, by decide, by decide, by decide⟩

/-- C26 as stated fails in two ways.  When a cleanup removal is itself
rejected: step 2 of an export of `j1` fails and `fs.remove` of the staging
directory rejects; the rejection is logged and dropped, the error of step 2 is
forwarded, and the staging directory is still there.  And when the archive
fails: the listener of its `error` event throws outside the `try` block, so
nothing is forwarded to the error handler, no response is sent, and both the
staging directory and the archive file are still there. -/
theorem exportDiario_cleanup_rejected :
    (exportDiario mundoEjemplo envExportBloqueado reqExportarOwner).out
        = .nextErr { message := "ENOSPC: no space left on device, write" } ∧
      (exportDiario mundoEjemplo envExportBloqueado reqExportarOwner).world.fs.existsSync
        (backupDir (.str "j1") 100) = true ∧
      (exportDiario mundoEjemplo { now := 100, exportFails := some 4 } reqExportarOwner).out
        = .uncaught { message := "archiver: entry failed" } ∧
      respuesta { now := 100, exportFails := some 4 }
          (exportDiario mundoEjemplo { now := 100, exportFails := some 4 } reqExportarOwner)
        = none ∧
      (exportDiario mundoEjemplo { now := 100, exportFails := some 4 }
          reqExportarOwner).world.fs.existsSync (backupDir (.str "j1") 100) = true ∧
      (exportDiario mundoEjemplo { now := 100, exportFails := some 4 }
          reqExportarOwner).world.fs.existsSync (outputZipPath (.str "j1")) = true := by
  refine ⟨by decide, by decide, by decide, by decide, by decide, by decide⟩

theorem without_both (fs : Fs) (a b : Path) :
    a ∉ ((fs.without a).without b).paths ∧ b ∉ ((fs.without a).without b).paths := by
  constructor
  · intro h
    exact ((mem_without _ _ _).mp ((mem_without _ _ _).mp h).1).2 (List.prefix_refl a)
  · intro h
    exact ((mem_without _ _ _).mp h).2 (List.prefix_refl b)

theorem exportSteps_error (w : World) (env : Env) (J : String) (a b : Path) :
    ((env.exportFails = some 1 ∨ env.exportFails = some 2 ∨ env.exportFails = some 3) →
      ∃ e, (exportSteps w env (.str J) a b).2 = some e) ∧
    (env.exportFails ≠ some 1 → env.exportFails ≠ some 2 → env.exportFails ≠ some 3 →
      (exportSteps w env (.str J) a b).2 = none) := by
  unfold exportSteps
  simp only [mediaDirOf, beq_iff_eq]
  constructor
  · intro h
    by_cases h1 : env.exportFails = some 1
    · exact ⟨_, by rw [if_pos h1]⟩
    · by_cases h2 : env.exportFails = some 2
      · exact ⟨_, by rw [if_neg h1, if_pos h2]⟩
      · by_cases h3 : env.exportFails = some 3
        · exact ⟨_, by rw [if_neg h1, if_neg h2, if_pos h3]⟩
        · rcases h with h | h | h
          · exact absurd h h1
          · exact absurd h h2
          · exact absurd h h3
  · intro h1 h2 h3
    rw [if_neg h1, if_neg h2, if_neg h3]

/-- C26 (amended): `exportDiario` by the owner of journal `J`, when neither
`fs.remove` of the staging directory nor `fs.remove` of the archive file is
rejected; the failure of the archive is left out.  When creating the staging
directories, writing the snapshot of the rows to JSON files or copying the
media tree fails, the error is forwarded to the error handler and no response
is sent; otherwise the archive is sent as a download and the download
callback runs.  In both cases neither the staging directory nor the archive
file exists afterwards, and the database and the session are as before. -/
theorem exportDiario_cleans (w : World) (env : Env) (req : Req) (J : String)
    (hrole : req.userRole = .str "owner") (hJ : req.diarioId = .str J)
    (hdir : backupDir (.str J) env.now ∉ env.removeFails)
    (hzip : outputZipPath (.str J) ∉ env.removeFails)
    (harchive : env.exportFails ≠ some 4) :
    (exportDiario w env req).world.fs.existsSync (backupDir (.str J) env.now) = false ∧
    (exportDiario w env req).world.fs.existsSync (outputZipPath (.str J)) = false ∧
    (exportDiario w env req).world.db = w.db ∧
    (exportDiario w env req).session = req.session ∧
    ((env.exportFails = some 1 ∨ env.exportFails = some 2 ∨ env.exportFails = some 3) →
      ∃ e, (exportDiario w env req).out = .nextErr e) ∧
    (env.exportFails ≠ some 1 → env.exportFails ≠ some 2 → env.exportFails ≠ some 3 →
      (exportDiario w env req).out
        = .sent ⟨200, .download (outputZipPath (.str J)) ("diario_backup_" ++ J ++ ".zip")⟩) := by
  have hguard : (req.userRole != .str "owner") = false := by simp [hrole]
  have hsteps := exportSteps_error w env J (backupDir (.str J) env.now) (outputZipPath (.str J))
  rw [exportDiario_eq, hguard, hJ]
  simp only [Bool.false_eq_true, if_false]
  rcases hst : exportSteps w env (.str J) (backupDir (.str J) env.now) (outputZipPath (.str J))
    with ⟨fs1, err⟩
  rw [hst] at hsteps
  cases err with
  | none =>
    have harchive1 : (env.exportFails == some 4) = false := by simpa using harchive
    simp only [harchive1, Bool.false_eq_true, if_false]
    have hclean : (match fsRemove env fs1 (backupDir (.str J) env.now) with
        | .error _ => fs1
        | .ok fs5 => fsRemoveCatch env fs5 (outputZipPath (.str J)))
        = (fs1.without (backupDir (.str J) env.now)).without (outputZipPath (.str J)) := by
      simp [fsRemove, fsRemoveCatch, hdir, hzip]
    simp only [hclean, responder]
    have hb := without_both fs1 (backupDir (.str J) env.now) (outputZipPath (.str J))
    refine ⟨?_, ?_, trivial, trivial, ?_, ?_⟩
    · simpa [Fs.existsSync] using hb.1
    · simpa [Fs.existsSync] using hb.2
    · intro h
      obtain ⟨e, he⟩ := hsteps.1 h
      simp at he
    · intro _ _ _
      simp [jsToString]
  | some e =>
    have hclean : fsRemoveCatch env (fsRemoveCatch env fs1 (backupDir (.str J) env.now))
        (outputZipPath (.str J))
        = (fs1.without (backupDir (.str J) env.now)).without (outputZipPath (.str J)) := by
      simp [fsRemove, fsRemoveCatch, hdir, hzip]
    simp only [hclean, fallar]
    have hb := without_both fs1 (backupDir (.str J) env.now) (outputZipPath (.str J))
    refine ⟨?_, ?_, trivial, trivial, ?_, ?_⟩
    · simpa [Fs.existsSync] using hb.1
    · simpa [Fs.existsSync] using hb.2
    · intro _
      exact ⟨e, rfl⟩
    · intro h1 h2 h3
      have := hsteps.2 h1 h2 h3
      simp at this

/-- Witness of C26 (amended), Scenario D: the export of `j1` at time 100
succeeds, and afterwards neither `temp/backup_j1_100` nor
`temp/diario_backup_j1.zip` exists; and when copying the media tree fails the
error is forwarded. -/
theorem exportDiario_cleans_witness :
    ((exportDiario mundoEjemplo { now := 100 } reqExportarOwner).world.fs.existsSync
        (backupDir (.str "j1") 100) = false ∧
      (exportDiario mundoEjemplo { now := 100 } reqExportarOwner).world.fs.existsSync
        (outputZipPath (.str "j1")) = false ∧
      (exportDiario mundoEjemplo { now := 100 } reqExportarOwner).out
        = .sent ⟨200, .download (outputZipPath (.str "j1")) ("diario_backup_" ++ "j1" ++ ".zip")⟩) ∧
    ∃ e, (exportDiario mundoEjemplo { now := 100, exportFails := some 3 } reqExportarOwner).out
      = .nextErr e :=
  ⟨⟨(exportDiario_cleans mundoEjemplo { now := 100 } reqExportarOwner "j1" rfl rfl (by decide)
        (by decide) (by decide)).1,
      (exportDiario_cleans mundoEjemplo { now := 100 } reqExportarOwner "j1" rfl rfl (by decide)
        (by decide) (by decide)).2.1,
      (exportDiario_cleans mundoEjemplo { now := 100 } reqExportarOwner "j1" rfl rfl (by decide)
        (by decide) (by decide)).2.2.2.2.2 (by decide) (by decide) (by decide)⟩,
    (exportDiario_cleans mundoEjemplo { now := 100, exportFails := some 3 } reqExportarOwner "j1"
      rfl rfl (by decide) (by decide) (by decide)).2.2.2.2.1 (Or.inr (Or.inr rfl))⟩

/-! ## C29: the list of journals and the access check -/

/-- C29 (the code at the failing input): in the sample world user 2 holds
`lector` on `j1`, and both `getMisDiarios` and `checkDiarioAccess` say so.
After the owner has deleted `j1` (a store the API reaches, in which no owner
has a shared row on a journal of their own), the shared row of user 2 is still
there: `checkDiarioAccess` grants user 2 the role `lector` on `j1`, while
`getMisDiarios` for user 2 lists nothing. -/
theorem getMisDiarios_misses_granted :
    rolConcedido mundoEjemplo.db 2 "j1" = some (.str "lector") ∧
      misDiarios mundoEjemplo.db (some 2)
        = [{ id := "j1", nombre_diario_personalizado := "Diario de Leo"
             fecha_nacimiento_bebe := none, genero_bebe := none, rol_usuario := some "lector" }] ∧
      mundoSinDiario
        = correr mundoEjemplo
            [(.eliminarDiario, { now := 9, uuid := "k1", uuid2 := "k2" }, reqDe 1 "j1")] ∧
      (∀ c ∈ mundoSinDiario.db.diarios_compartidos, ∀ d ∈ mundoSinDiario.db.diarios,
        d.id = c.diario_id → d.user_id ≠ c.user_id) ∧
      rolConcedido mundoSinDiario.db 2 "j1" = some (.str "lector") ∧
      misDiarios mundoSinDiario.db (some 2) = [] ∧
      (listarMisDiarios mundoSinDiario {} { session := { userId := some 2 } }).out
        = .sent ⟨200, .misDiarios []⟩ := by
  refine ⟨by decide, by decide, by decide, by decide, by decide, by decide, by decide⟩

/-! ## The list of journals agrees with the access check when shared rows have their journal -/

theorem rolConcedido_eq (db : Db) (U : Nat) (J : String) (hU : U ≠ 0) (hJ : J ≠ "") :
    rolConcedido db U J
      = match db.diarios.find? (fun d => sqlTextEq d.id (.str J) && d.user_id == U) with
        | some _ => some (.str "owner")
        | none =>
          match db.diarios_compartidos.find?
              (fun c => sqlTextEq c.diario_id (.str J) && c.user_id == U) with
          | some c => some (.str c.rol)
          | none => none := by
  have hid : ((reqDe U J).params.diarioId.or (reqDe U J).body.diario_id).or
      (reqDe U J).query.diario_id = .str J := by
    simp [reqDe, JsVal.or, truthy_str hJ]
  have haut : (reqDe U J).session.autenticado = some U := autenticado_some rfl hU
  unfold rolConcedido checkDiarioAccess
  simp only [hid, truthy_str hJ, haut, Bool.not_true, Bool.false_eq_true, if_false]
  cases h1 : db.diarios.find? (fun d => sqlTextEq d.id (.str J) && d.user_id == U) with
  | some d => rfl
  | none =>
    cases h2 : db.diarios_compartidos.find?
        (fun c => sqlTextEq c.diario_id (.str J) && c.user_id == U) with
    | some c => rfl
    | none => rfl

theorem mem_joinCompartidos (db : Db) (U : Nat) (p : DiarioRow × Option Compartido) :
    p ∈ joinCompartidos db (some U) ↔ p.1 ∈ db.diarios ∧
      ((p.2 = none ∧ ∀ c ∈ db.diarios_compartidos, ¬ (c.diario_id = p.1.id ∧ c.user_id = U)) ∨
        (∃ c ∈ db.diarios_compartidos, c.diario_id = p.1.id ∧ c.user_id = U ∧ p.2 = some c)) := by
  have hpred : ∀ (d : DiarioRow) (c : Compartido),
      (d.id == c.diario_id && some c.user_id == some U) = true ↔
        c.diario_id = d.id ∧ c.user_id = U := by
    intro d c
    simp only [Bool.and_eq_true, beq_iff_eq, Option.some.injEq]
    exact ⟨fun h => ⟨h.1.symm, h.2⟩, fun h => ⟨h.1.symm, h.2⟩⟩
  unfold joinCompartidos
  rw [List.mem_flatMap]
  constructor
  · rintro ⟨d, hd, hp⟩
    cases hm : db.diarios_compartidos.filter
        (fun dc => d.id == dc.diario_id && some dc.user_id == some U) with
    | nil =>
      rw [hm] at hp
      have hpd : p = (d, none) := by simpa using hp
      subst hpd
      refine ⟨hd, Or.inl ⟨rfl, ?_⟩⟩
      intro c hc hcd
      have : c ∈ db.diarios_compartidos.filter
          (fun dc => d.id == dc.diario_id && some dc.user_id == some U) :=
        List.mem_filter.mpr ⟨hc, (hpred d c).mpr hcd⟩
      rw [hm] at this
      exact absurd this (List.not_mem_nil _)
    | cons c0 cs =>
      rw [hm] at hp
      obtain ⟨dc, hdc, hpd⟩ := List.mem_map.mp hp
      subst hpd
      have hmem : dc ∈ db.diarios_compartidos.filter
          (fun dc => d.id == dc.diario_id && some dc.user_id == some U) := by
        rw [hm]
        exact hdc
      have h2 := List.mem_filter.mp hmem
      exact ⟨hd, Or.inr ⟨dc, h2.1, ((hpred d dc).mp h2.2).1, ((hpred d dc).mp h2.2).2, rfl⟩⟩
  · rintro ⟨hd, h⟩
    refine ⟨p.1, hd, ?_⟩
    rcases h with ⟨hnone, hno⟩ | ⟨c, hc, hcd, hcu, hsome⟩
    · have hm : db.diarios_compartidos.filter
          (fun dc => p.1.id == dc.diario_id && some dc.user_id == some U) = [] := by
        rw [List.filter_eq_nil_iff]
        intro c hc hp
        exact hno c hc ((hpred p.1 c).mp hp)
      rw [hm]
      have : p = (p.1, none) := by rw [← hnone]
      rw [this]
      exact List.mem_singleton_self _
    · have hmem : c ∈ db.diarios_compartidos.filter
          (fun dc => p.1.id == dc.diario_id && some dc.user_id == some U) :=
        List.mem_filter.mpr ⟨hc, (hpred p.1 c).mpr ⟨hcd, hcu⟩⟩
      cases hm : db.diarios_compartidos.filter
          (fun dc => p.1.id == dc.diario_id && some dc.user_id == some U) with
      | nil =>
        rw [hm] at hmem
        exact absurd hmem (List.not_mem_nil _)
      | cons c0 cs =>
        rw [hm] at hmem
        have : p = (p.1, some c) := by rw [← hsome]
        rw [this]
        exact List.mem_map.mpr ⟨c, hmem, rfl⟩

theorem mem_misDiarios (db : Db) (U : Nat) (row : DiarioListado)
    (hrow : row ∈ misDiarios db (some U)) :
    ∃ p ∈ joinCompartidos db (some U),
      (p.1.user_id = U ∨ ∃ c, p.2 = some c ∧ c.user_id = U) ∧
      row.id = p.1.id ∧
      row.rol_usuario = (if p.1.user_id = U then some "owner" else p.2.map (fun dc => dc.rol)) := by
  unfold misDiarios at hrow
  obtain ⟨p, hp, hrow⟩ := List.mem_map.mp hrow
  rw [(List.perm_insertionSort _ _).mem_iff, List.mem_filter] at hp
  refine ⟨p, hp.1, ?_, ?_, ?_⟩
  · have h2 := hp.2
    simp only [Bool.or_eq_true, beq_iff_eq, Option.some.injEq] at h2
    rcases h2 with h | h
    · exact Or.inl h
    · cases hq : p.2 with
      | none => simp [hq] at h
      | some c =>
        rw [hq] at h
        exact Or.inr ⟨c, rfl, by simpa using h⟩
  · rw [← hrow]
  · rw [← hrow]
    simp

theorem misDiarios_of_join (db : Db) (U : Nat) (p : DiarioRow × Option Compartido)
    (hp : p ∈ joinCompartidos db (some U))
    (hfil : p.1.user_id = U ∨ ∃ c, p.2 = some c ∧ c.user_id = U) :
    ∃ row ∈ misDiarios db (some U), row.id = p.1.id ∧
      row.rol_usuario = (if p.1.user_id = U then some "owner" else p.2.map (fun dc => dc.rol)) := by
  refine ⟨{ id := p.1.id, nombre_diario_personalizado := p.1.nombre_diario_personalizado
            fecha_nacimiento_bebe := p.1.fecha_nacimiento_bebe, genero_bebe := p.1.genero_bebe
            rol_usuario := if some p.1.user_id == some U then some "owner"
              else p.2.map (fun dc => dc.rol) }, ?_, rfl, ?_⟩
  · unfold misDiarios
    refine List.mem_map.mpr ⟨p, ?_, rfl⟩
    rw [(List.perm_insertionSort _ _).mem_iff, List.mem_filter]
    refine ⟨hp, ?_⟩
    simp only [Bool.or_eq_true, beq_iff_eq, Option.some.injEq]
    rcases hfil with h | ⟨c, hc, hcu⟩
    · exact Or.inl h
    · exact Or.inr (by simp [hc, hcu])
  · simp

theorem misDiarios_row (db : Db) (U : Nat) (J : String) (row : DiarioListado)
    (hrow : row ∈ misDiarios db (some U)) (hid : row.id = J) :
    ∃ d ∈ db.diarios, d.id = J ∧
      ((d.user_id = U ∧ row.rol_usuario = some "owner") ∨
        (d.user_id ≠ U ∧ ∃ c ∈ db.diarios_compartidos,
          c.diario_id = J ∧ c.user_id = U ∧ row.rol_usuario = some c.rol)) := by
  obtain ⟨p, hp, hfil, hpid, hrol⟩ := mem_misDiarios db U row hrow
  have hj := (mem_joinCompartidos db U p).mp hp
  have hpJ : p.1.id = J := hpid.symm.trans hid
  refine ⟨p.1, hj.1, hpJ, ?_⟩
  by_cases hown : p.1.user_id = U
  · exact Or.inl ⟨hown, by rw [hrol, if_pos hown]⟩
  · refine Or.inr ⟨hown, ?_⟩
    rcases hj.2 with ⟨hnone, _⟩ | ⟨c, hc, hcd, hcu, hsome⟩
    · rcases hfil with h | ⟨c, hc, _⟩
      · exact absurd h hown
      · rw [hnone] at hc
        cases hc
    · exact ⟨c, hc, hcd.trans hpJ, hcu, by rw [hrol, if_neg hown, hsome]; rfl⟩

theorem misDiarios_owner (db : Db) (U : Nat) (J : String) (d : DiarioRow)
    (hd : d ∈ db.diarios) (hdJ : d.id = J) (hdU : d.user_id = U) :
    ∃ row ∈ misDiarios db (some U), row.id = J ∧ row.rol_usuario = some "owner" := by
  by_cases hc : ∃ c ∈ db.diarios_compartidos, c.diario_id = d.id ∧ c.user_id = U
  · obtain ⟨c, hcm, hcd, hcu⟩ := hc
    obtain ⟨row, hrow, hid, hrol⟩ := misDiarios_of_join db U (d, some c)
      ((mem_joinCompartidos db U (d, some c)).mpr ⟨hd, Or.inr ⟨c, hcm, hcd, hcu, rfl⟩⟩)
      (Or.inl hdU)
    exact ⟨row, hrow, hid.trans hdJ, by rw [hrol]; exact if_pos hdU⟩
  · obtain ⟨row, hrow, hid, hrol⟩ := misDiarios_of_join db U (d, none)
      ((mem_joinCompartidos db U (d, none)).mpr
        ⟨hd, Or.inl ⟨rfl, fun c hcm hcc => hc ⟨c, hcm, hcc⟩⟩⟩)
      (Or.inl hdU)
    exact ⟨row, hrow, hid.trans hdJ, by rw [hrol]; exact if_pos hdU⟩

theorem misDiarios_shared (db : Db) (U : Nat) (J : String) (d : DiarioRow) (c : Compartido)
    (hd : d ∈ db.diarios) (hdJ : d.id = J) (hdU : d.user_id ≠ U)
    (hc : c ∈ db.diarios_compartidos) (hcJ : c.diario_id = J) (hcU : c.user_id = U) :
    ∃ row ∈ misDiarios db (some U), row.id = J ∧ row.rol_usuario = some c.rol := by
  obtain ⟨row, hrow, hid, hrol⟩ := misDiarios_of_join db U (d, some c)
    ((mem_joinCompartidos db U (d, some c)).mpr
      ⟨hd, Or.inr ⟨c, hc, hcJ.trans hdJ.symm, hcU, rfl⟩⟩)
    (Or.inr ⟨c, rfl, hcU⟩)
  exact ⟨row, hrow, hid.trans hdJ, by rw [hrol]; exact if_neg hdU⟩

theorem rolConcedido_owner (db : Db) (U : Nat) (J : String) (hU : U ≠ 0) (hJ : J ≠ "")
    (h : ∃ d ∈ db.diarios, d.id = J ∧ d.user_id = U) :
    rolConcedido db U J = some (.str "owner") := by
  obtain ⟨d, hd, hdJ, hdU⟩ := h
  have hsome : (db.diarios.find? (fun d => sqlTextEq d.id (.str J) && d.user_id == U)).isSome := by
    rw [List.find?_isSome]
    exact ⟨d, hd, by simp [sqlTextEq_str, hdJ, hdU]⟩
  obtain ⟨d1, hd1⟩ := Option.isSome_iff_exists.mp hsome
  rw [rolConcedido_eq db U J hU hJ, hd1]

theorem rolConcedido_shared (db : Db) (U : Nat) (J : String) (hU : U ≠ 0) (hJ : J ≠ "")
    (hckey : db.diarios_compartidos.Pairwise
      (fun a b => ¬ (a.diario_id = b.diario_id ∧ a.user_id = b.user_id)))
    (hno : ¬ ∃ d ∈ db.diarios, d.id = J ∧ d.user_id = U)
    (c : Compartido) (hc : c ∈ db.diarios_compartidos) (hcJ : c.diario_id = J)
    (hcU : c.user_id = U) :
    rolConcedido db U J = some (.str c.rol) := by
  have h1 : db.diarios.find? (fun d => sqlTextEq d.id (.str J) && d.user_id == U) = none := by
    apply find?_none_of_absent
    rintro ⟨d, hd, hp⟩
    simp only [Bool.and_eq_true, sqlTextEq_str, beq_iff_eq] at hp
    exact hno ⟨d, hd, hp.1, hp.2⟩
  have h2 : db.diarios_compartidos.find?
      (fun c => sqlTextEq c.diario_id (.str J) && c.user_id == U) = some c := by
    apply find?_of_unique _ _ c hc (by simp [sqlTextEq_str, hcJ, hcU])
    intro b hb hp
    simp only [Bool.and_eq_true, sqlTextEq_str, beq_iff_eq] at hp
    by_contra hne
    have hpair : ∀ {l : List Compartido},
        l.Pairwise (fun a b => ¬ (a.diario_id = b.diario_id ∧ a.user_id = b.user_id)) →
        b ∈ l → c ∈ l → False := by
      intro l hl
      induction l with
      | nil => intro hb1 _; cases hb1
      | cons x xs ih =>
        rw [List.pairwise_cons] at hl
        intro hb1 hc1
        rcases List.mem_cons.mp hb1 with rfl | hb2
        · rcases List.mem_cons.mp hc1 with rfl | hc2
          · exact hne rfl
          · exact hl.1 c hc2 ⟨hp.1.trans hcJ.symm, hp.2.trans hcU.symm⟩
        · rcases List.mem_cons.mp hc1 with rfl | hc2
          · exact hl.1 b hb2 ⟨hcJ.trans hp.1.symm, hcU.trans hp.2.symm⟩
          · exact ih hl.2 hb2 hc2
    exact hpair hckey hb hc
  rw [rolConcedido_eq db U J hU hJ, h1, h2]

theorem rolConcedido_none (db : Db) (U : Nat) (J : String) (hU : U ≠ 0) (hJ : J ≠ "")
    (hno : ¬ ∃ d ∈ db.diarios, d.id = J ∧ d.user_id = U)
    (hnc : ¬ ∃ c ∈ db.diarios_compartidos, c.diario_id = J ∧ c.user_id = U) :
    rolConcedido db U J = none := by
  have h1 : db.diarios.find? (fun d => sqlTextEq d.id (.str J) && d.user_id == U) = none := by
    apply find?_none_of_absent
    rintro ⟨d, hd, hp⟩
    simp only [Bool.and_eq_true, sqlTextEq_str, beq_iff_eq] at hp
    exact hno ⟨d, hd, hp.1, hp.2⟩
  have h2 : db.diarios_compartidos.find?
      (fun c => sqlTextEq c.diario_id (.str J) && c.user_id == U) = none := by
    apply find?_none_of_absent
    rintro ⟨c, hc, hp⟩
    simp only [Bool.and_eq_true, sqlTextEq_str, beq_iff_eq] at hp
    exact hnc ⟨c, hc, hp.1, hp.2⟩
  rw [rolConcedido_eq db U J hU hJ, h1, h2]

theorem flatMap_filter_le_one {α β : Type} (key : α → String) (H : α → List β) (fst : β → α)
    (J : String) (hF1 : ∀ d, ∀ p ∈ H d, fst p = d) (hF2 : ∀ d, (H d).length ≤ 1) :
    ∀ l : List α, l.Pairwise (fun a b => key a ≠ key b) →
      ((l.flatMap H).filter (fun p => key (fst p) == J)).length ≤ 1 := by
  intro l
  induction l with
  | nil => intro _; simp
  | cons d l ih =>
    intro hl
    rw [List.pairwise_cons] at hl
    rw [List.flatMap_cons, List.filter_append, List.length_append]
    by_cases hd : key d = J
    · have hrest : (l.flatMap H).filter (fun p => key (fst p) == J) = [] := by
        rw [List.filter_eq_nil_iff]
        intro p hp hq
        obtain ⟨d1, hd1, hp1⟩ := List.mem_flatMap.mp hp
        have h1 : key (fst p) = J := by simpa using hq
        rw [hF1 d1 p hp1] at h1
        exact hl.1 d1 hd1 (hd.trans h1.symm)
      rw [hrest, List.length_nil, Nat.add_zero]
      exact le_trans (List.length_filter_le _ _) (hF2 d)
    · have hhead : (H d).filter (fun p => key (fst p) == J) = [] := by
        rw [List.filter_eq_nil_iff]
        intro p hp hq
        have h1 : key (fst p) = J := by simpa using hq
        rw [hF1 d p hp] at h1
        exact hd h1
      rw [hhead, List.length_nil, Nat.zero_add]
      exact ih hl.2

/-- Under the keys of the schema and with every shared row pointing at an
existing journal (what `ON DELETE CASCADE` would maintain), `getMisDiarios`
agrees with `checkDiarioAccess`: user `U` is granted the role `rol` on the
journal id `J` exactly when the list of `U` has a row for `J` with that
`rol_usuario`, no role is granted exactly when the list has no row for `J`,
and the list has at most one row for `J`. -/
theorem misDiarios_agrees (db : Db) (U : Nat) (J : String) (hU : U ≠ 0) (hJ : J ≠ "")
    (hkey : db.diarios.Pairwise (fun a b => a.id ≠ b.id))
    (hckey : db.diarios_compartidos.Pairwise
      (fun a b => ¬ (a.diario_id = b.diario_id ∧ a.user_id = b.user_id)))
    (hfk : ∀ c ∈ db.diarios_compartidos, ∃ d ∈ db.diarios, d.id = c.diario_id) :
    (∀ rol, rolConcedido db U J = some (.str rol) ↔
      ∃ row ∈ misDiarios db (some U), row.id = J ∧ row.rol_usuario = some rol) ∧
    (rolConcedido db U J = none ↔ ∀ row ∈ misDiarios db (some U), row.id ≠ J) ∧
    ((misDiarios db (some U)).filter (fun row => row.id == J)).length ≤ 1 := by
  refine ⟨?_, ?_, ?_⟩
  · intro rol
    by_cases hown : ∃ d ∈ db.diarios, d.id = J ∧ d.user_id = U
    · rw [rolConcedido_owner db U J hU hJ hown]
      obtain ⟨d, hd, hdJ, hdU⟩ := hown
      constructor
      · intro h
        have hr : rol = "owner" := by
          simp only [Option.some.injEq, JsVal.str.injEq] at h
          exact h.symm
        rw [hr]
        exact misDiarios_owner db U J d hd hdJ hdU
      · rintro ⟨row, hrow, hid, hrol⟩
        obtain ⟨d1, hd1, hd1J, hcase⟩ := misDiarios_row db U J row hrow hid
        have hdd : d1 = d := eq_of_pairwise_ne (fun d => d.id) hkey hd1 hd (hd1J.trans hdJ.symm)
        rcases hcase with ⟨_, hown1⟩ | ⟨hne, _⟩
        · rw [hrol] at hown1
          simp only [Option.some.injEq] at hown1
          rw [hown1]
        · exact absurd (hdd ▸ hdU) hne
    · by_cases hsh : ∃ c ∈ db.diarios_compartidos, c.diario_id = J ∧ c.user_id = U
      · obtain ⟨c, hc, hcJ, hcU⟩ := hsh
        rw [rolConcedido_shared db U J hU hJ hckey hown c hc hcJ hcU]
        constructor
        · intro h
          have hr : rol = c.rol := by
            simp only [Option.some.injEq, JsVal.str.injEq] at h
            exact h.symm
          rw [hr]
          obtain ⟨d, hd, hdc⟩ := hfk c hc
          exact misDiarios_shared db U J d c hd (hdc.trans hcJ)
            (fun hdU => hown ⟨d, hd, hdc.trans hcJ, hdU⟩) hc hcJ hcU
        · rintro ⟨row, hrow, hid, hrol⟩
          obtain ⟨d1, hd1, hd1J, hcase⟩ := misDiarios_row db U J row hrow hid
          rcases hcase with ⟨hd1U, _⟩ | ⟨_, c1, hc1, hc1J, hc1U, hrol1⟩
          · exact absurd ⟨d1, hd1, hd1J, hd1U⟩ hown
          · have h1 := rolConcedido_shared db U J hU hJ hckey hown c1 hc1 hc1J hc1U
            have h2 := rolConcedido_shared db U J hU hJ hckey hown c hc hcJ hcU
            rw [hrol] at hrol1
            simp only [Option.some.injEq] at hrol1
            rw [hrol1, ← h2, h1]
      · rw [rolConcedido_none db U J hU hJ hown hsh]
        constructor
        · intro h
          cases h
        · rintro ⟨row, hrow, hid, _⟩
          obtain ⟨d1, hd1, hd1J, hcase⟩ := misDiarios_row db U J row hrow hid
          rcases hcase with ⟨hd1U, _⟩ | ⟨_, c1, hc1, hc1J, hc1U, _⟩
          · exact absurd ⟨d1, hd1, hd1J, hd1U⟩ hown
          · exact absurd ⟨c1, hc1, hc1J, hc1U⟩ hsh
  · by_cases hown : ∃ d ∈ db.diarios, d.id = J ∧ d.user_id = U
    · rw [rolConcedido_owner db U J hU hJ hown]
      obtain ⟨d, hd, hdJ, hdU⟩ := hown
      constructor
      · intro h
        cases h
      · intro h
        obtain ⟨row, hrow, hid, _⟩ := misDiarios_owner db U J d hd hdJ hdU
        exact absurd hid (h row hrow)
    · by_cases hsh : ∃ c ∈ db.diarios_compartidos, c.diario_id = J ∧ c.user_id = U
      · obtain ⟨c, hc, hcJ, hcU⟩ := hsh
        rw [rolConcedido_shared db U J hU hJ hckey hown c hc hcJ hcU]
        constructor
        · intro h
          cases h
        · intro h
          obtain ⟨d, hd, hdc⟩ := hfk c hc
          obtain ⟨row, hrow, hid, _⟩ := misDiarios_shared db U J d c hd (hdc.trans hcJ)
            (fun hdU => hown ⟨d, hd, hdc.trans hcJ, hdU⟩) hc hcJ hcU
          exact absurd hid (h row hrow)
      · rw [rolConcedido_none db U J hU hJ hown hsh]
        refine ⟨fun _ row hrow hid => ?_, fun _ => rfl⟩
        obtain ⟨d1, hd1, hd1J, hcase⟩ := misDiarios_row db U J row hrow hid
        rcases hcase with ⟨hd1U, _⟩ | ⟨_, c1, hc1, hc1J, hc1U, _⟩
        · exact absurd ⟨d1, hd1, hd1J, hd1U⟩ hown
        · exact absurd ⟨c1, hc1, hc1J, hc1U⟩ hsh
  · unfold misDiarios
    rw [List.filter_map, List.length_map]
    have hperm := ((List.perm_insertionSort
      (fun (a b : DiarioRow × Option Compartido) => b.1.fecha_creacion ≤ a.1.fecha_creacion)
      ((joinCompartidos db (some U)).filter (fun p =>
        some p.1.user_id == some U ||
          (match p.2 with
            | some dc => some dc.user_id == some U
            | none => false)))).filter
      (fun p => p.1.id == J)).length_eq
    refine le_trans (le_of_eq hperm) ?_
    refine le_trans ((List.filter_sublist _).filter _).length_le ?_
    unfold joinCompartidos
    refine flatMap_filter_le_one (fun (d : DiarioRow) => d.id) _
      (fun (p : DiarioRow × Option Compartido) => p.1) J ?_ ?_ _ hkey
    · intro d p hp
      split at hp
      · simp only [List.mem_singleton] at hp
        rw [hp]
      · obtain ⟨dc, _, hdc⟩ := List.mem_map.mp hp
        rw [← hdc]
    · intro d
      split
      · simp
      · rw [List.length_map]
        have hle := length_filter_key_le_one hckey d.id U
        have hcongr : db.diarios_compartidos.filter
            (fun dc => d.id == dc.diario_id && some dc.user_id == some U)
            = db.diarios_compartidos.filter (fun c => c.diario_id == d.id && c.user_id == U) := by
          apply List.filter_congr
          intro c _
          simp only [Option.some.injEq, beq_eq_decide, Bool.decide_eq_true]
          by_cases h1 : d.id = c.diario_id
          · simp [h1]
          · have h2 : ¬ c.diario_id = d.id := fun h => h1 h.symm
            simp [h1, h2]
        rw [hcongr]
        exact hle

/-- The list of user 2 in the sample world, where every shared row has its
journal: the agreement applies, and `j1` is listed with the role granted. -/
theorem misDiarios_agrees_ejemplo :
    rolConcedido mundoEjemplo.db 2 "j1" = some (.str "lector") ↔
      ∃ row ∈ misDiarios mundoEjemplo.db (some 2), row.id = "j1" ∧ row.rol_usuario = some "lector" :=
  (misDiarios_agrees mundoEjemplo.db 2 "j1" (by decide) (by decide) (by decide) (by decide)
    (by decide)).1 "lector"

/-! ## The search filter on texts without wildcards -/

theorem likeChars_al_inicio (s : List Char) (hs : ∀ c ∈ s, c ≠ '%' ∧ c ≠ '_') :
    ∀ u, likeChars (s ++ ['%']) u = true ↔ s.map pliegue <+: u.map pliegue := by
  induction s with
  | nil =>
    intro u
    simp only [List.nil_append, List.map_nil, List.nil_prefix, iff_true]
    rw [likeChars.eq_2, List.any_eq_true]
    exact ⟨[], (List.mem_tails _ _).mpr List.nil_suffix, by simp [likeChars]⟩
  | cons c s ih =>
    intro u
    have hc := hs c (List.mem_cons_self _ _)
    have ih1 := ih (fun x hx => hs x (List.mem_cons_of_mem _ hx))
    rw [List.cons_append]
    cases u with
    | nil =>
      rw [likeChars.eq_5 _ _ (fun h => hc.1 h) (fun h => hc.2 h)]
      simp
    | cons d u1 =>
      rw [likeChars.eq_6 _ _ _ _ (fun h => hc.1 h) (fun h => hc.2 h)]
      simp only [List.map_cons, List.cons_prefix_cons, Bool.and_eq_true, beq_iff_eq]
      rw [ih1 u1]

theorem likeChars_dentro (s t : List Char) (hs : ∀ c ∈ s, c ≠ '%' ∧ c ≠ '_') :
    likeChars ('%' :: (s ++ ['%'])) t = true ↔ s.map pliegue <:+: t.map pliegue := by
  rw [likeChars.eq_2, List.any_eq_true, List.infix_iff_prefix_suffix]
  constructor
  · rintro ⟨u, hu, hl⟩
    obtain ⟨r, hr⟩ := (List.mem_tails _ _).mp hu
    exact ⟨u.map pliegue, (likeChars_al_inicio s hs u).mp hl, ⟨r.map pliegue, by
      rw [← List.map_append, hr]⟩⟩
  · rintro ⟨v, hpre, hsuf⟩
    have hv : v ∈ (t.map pliegue).tails := (List.mem_tails _ _).mpr hsuf
    rw [List.map_tails] at hv
    obtain ⟨u, hu, huv⟩ := List.mem_map.mp hv
    exact ⟨u, hu, (likeChars_al_inicio s hs u).mpr (by rw [huv]; exact hpre)⟩

/-- For a search text without `%` and `_` the condition `col LIKE '%text%'`
is the substring search up to ASCII case. -/
theorem sqlLike_plain (s : String) (text : Option String)
    (hs : ∀ c ∈ s.toList, c ≠ '%' ∧ c ≠ '_') :
    sqlLike text ("%" ++ s ++ "%") = ocurreEn s text := by
  cases text with
  | none => rfl
  | some t =>
    have hp : ("%" ++ s ++ "%").toList = '%' :: (s.toList ++ ['%']) := by
      simp only [String.toList, String.data_append]
      rfl
    rw [Bool.eq_iff_iff]
    simp only [sqlLike, ocurreEn, hp, decide_eq_true_eq]
    exact likeChars_dentro s.toList t.toList hs

/-- For a search text without `%` and `_`, and no other filter, the rows
`getEventos` selects are those of the journal in whose `descripcion` or
`notas` the text occurs up to ASCII case. -/
theorem coincideEvento_search_plain (J s : String) (e : Evento) (hne : s ≠ "")
    (hs : ∀ c ∈ s.toList, c ≠ '%' ∧ c ≠ '_') :
    coincideEvento J { searchQuery := some s } e
      = (e.diario_id == J && (ocurreEn s e.descripcion || ocurreEn s e.notas)) := by
  have h1 : (s == "") = false := by simpa using hne
  have h2 : ((none : Option String) != some "1") = true := rfl
  simp only [coincideEvento, h1, h2, sqlLike_plain s _ hs, Bool.true_or, Bool.and_true,
    Bool.false_or]

end Diario
